import Mathlib

/-!
# pvc-reclaim: reclaim-record lifecycle and restore state machine

A shallow embedding of the two reconcilers of `controllers/pvc_controller.go`
and `controllers/pvcreclaim_controller.go`, and of the filter and the map function
that `SetupWithManager` installs for Volume events.

* Kubernetes objects are records holding the fields the controllers read or write.
* A Go `map[string]string` is `Option` of an association list: `none` is the nil
  map (writing to it panics), `some l` an allocated map.
* The controller-runtime client and the API server behind it are the external
  Resource Store (spec section 6).  They are modelled by the `Client` state: the
  stored objects, a schedule of injected faults (one slot per client call, in call
  order) and a log of the calls made.  A call whose slot holds no fault is answered
  by the store as its contract says on the current state.
* A reconcile run is a function `Request → Client → Outcome × Client`; a Go runtime
  panic (nil-map write, nil-pointer dereference) is the outcome `panicked`.

Store contract assumed (spec section 6): `get` answers not-found for a missing object;
`create` answers already-exists for a taken identity, and otherwise stores the object
with a fresh identity token and an empty status; `update` and `patch` leave the status
of the stored object alone and a status patch changes nothing but the status; a patch
built with `client.MergeFrom(base)` changes the fields in which the submitted object
differs from `base`; `delete` removes the object at once; `list` with a label selector
answers the stored records that carry the label with the value, in the order of the
store.  Every call that hands an object back fills the caller's variable with the
stored object.  A version conflict, like a network or server fault, is a fault injected
into the call.
-/

namespace Controllers

/-! ## Go maps -/

/-- Go `map[string]string`; `none` is the nil map. -/
abbrev StrMap := Option (List (String × String))

/-- Value bound to `k` in an association list (first binding wins). -/
def alistGet : List (String × String) → String → Option String
  | [], _ => none
  | (k', v) :: t, k => if k' = k then some v else alistGet t k

/-- Association list without any binding of `k`. -/
def alistDel (l : List (String × String)) (k : String) : List (String × String) :=
  l.filter (fun p => decide (p.1 ≠ k))

/-- Association list in which `k` is bound to `v` and nothing else changes. -/
def alistSet (l : List (String × String)) (k v : String) : List (String × String) :=
  alistDel l k ++ [(k, v)]

/-- Go `v, ok := m[k]`. -/
def mapGet (m : StrMap) (k : String) : Option String :=
  match m with
  | none => none
  | some l => alistGet l k

/-- Go `delete(m, k)`: a no-op on the nil map. -/
def mapDelete (m : StrMap) (k : String) : StrMap :=
  match m with
  | none => none
  | some l => some (alistDel l k)

/-- Go `m[k] = v`: `none` stands for the panic "assignment to entry in nil map". -/
def mapAssign (m : StrMap) (k v : String) : Option StrMap :=
  match m with
  | none => none
  | some l => some (some (alistSet l k v))

/-- Keys visited by Go `for k := range m` (none for the nil map). -/
def mapKeys (m : StrMap) : List String :=
  match m with
  | none => []
  | some l => l.map Prod.fst

/-- Key-value pairs visited by Go `for k, v := range m`. -/
def mapEntries (m : StrMap) : List (String × String) :=
  match m with
  | none => []
  | some l => l

/-- JSON `omitempty` on a map field: an empty map is not serialised, so it is read
back as the nil map. -/
def omitEmpty (m : StrMap) : StrMap :=
  match m with
  | some [] => none
  | m => m

/-! ## Go strings -/

/-- Go `strings.Contains(s, substr)`. -/
def stringsContains (s substr : String) : Bool :=
  s.data.tails.any (fun t => substr.data.isPrefixOf t)

/-- Go `strings.HasPrefix(s, p)`. -/
def stringsHasPrefix (s p : String) : Bool :=
  p.data.isPrefixOf s.data

/-! ## Objects (`corev1`, `metav1`, `v1alpha1`) -/

/-- Go `types.NamespacedName`. -/
structure NamespacedName where
  Namespace : String := ""
  Name : String := ""
deriving DecidableEq, Repr

/-- Go `reconcile.Request`. -/
structure Request where
  NamespacedName : NamespacedName
deriving DecidableEq, Repr

/-- Go `metav1.TypeMeta`. -/
structure TypeMeta where
  Kind : String := ""
  APIVersion : String := ""
deriving DecidableEq, Repr

/-- Go `metav1.ObjectMeta` (fields used by the controllers). -/
structure ObjectMeta where
  Name : String := ""
  Namespace : String := ""
  UID : String := ""
  Labels : StrMap := none
  Annotations : StrMap := none
deriving DecidableEq, Repr

/-- Go `corev1.ObjectReference`. -/
structure ObjectReference where
  Kind : String := ""
  Namespace : String := ""
  Name : String := ""
  UID : String := ""
  APIVersion : String := ""
deriving DecidableEq, Repr

/-- Go `corev1.PersistentVolumeClaimSpec`: the bound volume name and the other
desired-state fields, which the controllers only copy. -/
structure PersistentVolumeClaimSpec where
  AccessModes : List String := []
  Storage : String := ""
  VolumeName : String := ""
  StorageClassName : Option String := none
  VolumeMode : Option String := none
deriving DecidableEq, Repr

/-- Go `corev1.PersistentVolumeClaimStatus`. -/
structure PersistentVolumeClaimStatus where
  Phase : String := ""
deriving DecidableEq, Repr

/-- Go `corev1.PersistentVolumeClaim` (the Claim). -/
structure PersistentVolumeClaim where
  ObjectMeta : ObjectMeta := {}
  Spec : PersistentVolumeClaimSpec := {}
  Status : PersistentVolumeClaimStatus := {}
deriving DecidableEq, Repr

/-- Go `corev1.PersistentVolumeSpec`: `ClaimRef` is a pointer, `none` is nil. -/
structure PersistentVolumeSpec where
  ClaimRef : Option ObjectReference := none
deriving DecidableEq, Repr

/-- Go `corev1.PersistentVolumeStatus`. -/
structure PersistentVolumeStatus where
  Phase : String := ""
deriving DecidableEq, Repr

/-- Go `corev1.PersistentVolume` (the Volume, cluster-scoped). -/
structure PersistentVolume where
  TypeMeta : TypeMeta := {}
  ObjectMeta : ObjectMeta := {}
  Spec : PersistentVolumeSpec := {}
  Status : PersistentVolumeStatus := {}
deriving DecidableEq, Repr

/-- Go `corev1.ClaimBound`. -/
def ClaimBound : String := "Bound"

/-- Go `corev1.ClaimPending`. -/
def ClaimPending : String := "Pending"

/-- Go `corev1.VolumeReleased`. -/
def VolumeReleased : String := "Released"

/-- Go `corev1.VolumeBound`. -/
def VolumeBound : String := "Bound"

/-- Go `v1alpha1.PVCReclaimRecoverStatus`, a string type. -/
abbrev PVCReclaimRecoverStatus := String

/-- Go `v1alpha1.NotRecovered`. -/
def NotRecovered : PVCReclaimRecoverStatus := "NotRecovered"

/-- Go `v1alpha1.RecoveryInProgress`. -/
def RecoveryInProgress : PVCReclaimRecoverStatus := "RecoveryInProgress"

/-- Go `v1alpha1.RecoveryFailed`. -/
def RecoveryFailed : PVCReclaimRecoverStatus := "RecoveryFailed"

/-- Go `v1alpha1.RecoverySuccess`. -/
def RecoverySuccess : PVCReclaimRecoverStatus := "RecoverySuccess"

/-- Go `v1alpha1.PVCReclaimSpec`: `PersistentVolumeRef` is a pointer, `none` is nil. -/
structure PVCReclaimSpec where
  PersistentVolumeRef : Option ObjectReference := none
  PersistentVolumeClaimSpec : PersistentVolumeClaimSpec := {}
  Restore : Bool := false
deriving DecidableEq, Repr

/-- Go `v1alpha1.PVCReclaimStatus`. -/
structure PVCReclaimStatus where
  RecoverStatus : PVCReclaimRecoverStatus := ""
  Reason : String := ""
  Message : String := ""
deriving DecidableEq, Repr

/-- Go `v1alpha1.PVCReclaim` (the ReclaimRecord). -/
structure PVCReclaim where
  ObjectMeta : ObjectMeta := {}
  Spec : PVCReclaimSpec := {}
  Status : PVCReclaimStatus := {}
deriving DecidableEq, Repr

/-- Go constant `reclaimPVLabel`. -/
def reclaimPVLabel : String := "pvc-reclaim.yibozhuang.me/pv-name"

/-- Go constant `pvAnnotationPrefix`. -/
def pvAnnotationPrefix : String := "pv.kubernetes.io"

/-! ## API errors -/

/-- Go `metav1.StatusReason` of a client error, as far as the controllers tell
reasons apart. -/
inductive StatusReason where
  | NotFound
  | AlreadyExists
  | Conflict
  | Other
deriving DecidableEq, Repr

/-- Go `error` returned by a client call; `Message` is `err.Error()`. -/
structure APIError where
  Reason : StatusReason
  Message : String
deriving DecidableEq, Repr

/-- Go `errors.IsNotFound(err)` (false on a nil error). -/
def IsNotFound (err : Option APIError) : Bool :=
  match err with
  | some e => decide (e.Reason = StatusReason.NotFound)
  | none => false

/-- Go `errors.IsAlreadyExists(err)` (false on a nil error). -/
def IsAlreadyExists (err : Option APIError) : Bool :=
  match err with
  | some e => decide (e.Reason = StatusReason.AlreadyExists)
  | none => false

/-- Go `client.IgnoreNotFound(err)`. -/
def IgnoreNotFound (err : Option APIError) : Option APIError :=
  if IsNotFound err then none else err

/-- Error of the store for an object that is not there. -/
def errNotFound (resource name : String) : APIError :=
  { Reason := StatusReason.NotFound, Message := resource ++ " \"" ++ name ++ "\" not found" }

/-- Error of the store for a create of an object that is already there. -/
def errAlreadyExists (resource name : String) : APIError :=
  { Reason := StatusReason.AlreadyExists
    Message := resource ++ " \"" ++ name ++ "\" already exists" }

/-! ## The Resource Store (external collaborator, spec section 6) -/

/-- Contents of the store: Claims and ReclaimRecords keyed by (namespace, name),
Volumes keyed by name, and the counter from which identity tokens are drawn. -/
structure Store where
  pvcs : List PersistentVolumeClaim := []
  pvs : List PersistentVolume := []
  reclaims : List PVCReclaim := []
  uids : Nat := 0
deriving DecidableEq, Repr

/-- Does a namespaced object carry the key? -/
def hasKey (m : ObjectMeta) (key : NamespacedName) : Bool :=
  decide (m.Namespace = key.Namespace ∧ m.Name = key.Name)

/-- Key of a namespaced object. -/
def keyOf (m : ObjectMeta) : NamespacedName :=
  { Namespace := m.Namespace, Name := m.Name }

/-- Serialisation of object metadata: empty maps are omitted. -/
def encodeMeta (m : ObjectMeta) : ObjectMeta :=
  { m with Labels := omitEmpty m.Labels, Annotations := omitEmpty m.Annotations }

/-- The Claim stored under a key. -/
def Store.pvc? (s : Store) (key : NamespacedName) : Option PersistentVolumeClaim :=
  s.pvcs.find? (fun o => hasKey o.ObjectMeta key)

/-- The Volume stored under a name. -/
def Store.pv? (s : Store) (name : String) : Option PersistentVolume :=
  s.pvs.find? (fun o => decide (o.ObjectMeta.Name = name))

/-- The ReclaimRecord stored under a key. -/
def Store.reclaim? (s : Store) (key : NamespacedName) : Option PVCReclaim :=
  s.reclaims.find? (fun o => hasKey o.ObjectMeta key)

/-- Identity token handed out by the store for its `n`-th created object. -/
def newUID (n : Nat) : String :=
  "uid-" ++ toString n

/-- JSON merge patch of a scalar field: the patch built by `client.MergeFrom(base)`
mentions the field only when the modified object differs from `base` there. -/
def patchField {α : Type} [DecidableEq α] (base modified stored : α) : α :=
  if modified = base then stored else modified

/-- JSON merge patch of a map field, key by key: a key whose binding differs between
`base` and the modified object is set (or removed) in the stored map. -/
def patchMap (base modified stored : StrMap) : StrMap :=
  omitEmpty (some ((mapKeys base ++ mapKeys modified).foldl
    (fun acc k =>
      if mapGet modified k = mapGet base k then acc
      else match mapGet modified k with
        | some v => alistSet acc k v
        | none => alistDel acc k)
    (mapEntries stored)))

/-- JSON merge patch of an object-reference field, field by field. -/
def patchRef (base modified stored : Option ObjectReference) : Option ObjectReference :=
  if modified = base then stored
  else match modified with
    | none => none
    | some m =>
      let b := base.getD {}
      let s := stored.getD {}
      some { Kind := patchField b.Kind m.Kind s.Kind
             Namespace := patchField b.Namespace m.Namespace s.Namespace
             Name := patchField b.Name m.Name s.Name
             UID := patchField b.UID m.UID s.UID
             APIVersion := patchField b.APIVersion m.APIVersion s.APIVersion }

/-- JSON merge patch of the labels and annotations of an object. -/
def patchMeta (base modified stored : ObjectMeta) : ObjectMeta :=
  { stored with
    Labels := patchMap base.Labels modified.Labels stored.Labels
    Annotations := patchMap base.Annotations modified.Annotations stored.Annotations }

/-- JSON merge patch of a claim spec, field by field. -/
def patchClaimSpec (base modified stored : PersistentVolumeClaimSpec) :
    PersistentVolumeClaimSpec :=
  { AccessModes := patchField base.AccessModes modified.AccessModes stored.AccessModes
    Storage := patchField base.Storage modified.Storage stored.Storage
    VolumeName := patchField base.VolumeName modified.VolumeName stored.VolumeName
    StorageClassName :=
      patchField base.StorageClassName modified.StorageClassName stored.StorageClassName
    VolumeMode := patchField base.VolumeMode modified.VolumeMode stored.VolumeMode }

/-- Effect of `client.Patch(obj, client.MergeFrom(base))` on a stored ReclaimRecord:
metadata and spec are patched, the status belongs to the status subresource. -/
def patchReclaimObject (base modified stored : PVCReclaim) : PVCReclaim :=
  { ObjectMeta := patchMeta base.ObjectMeta modified.ObjectMeta stored.ObjectMeta
    Spec :=
      { PersistentVolumeRef := patchRef base.Spec.PersistentVolumeRef
          modified.Spec.PersistentVolumeRef stored.Spec.PersistentVolumeRef
        PersistentVolumeClaimSpec := patchClaimSpec base.Spec.PersistentVolumeClaimSpec
          modified.Spec.PersistentVolumeClaimSpec stored.Spec.PersistentVolumeClaimSpec
        Restore := patchField base.Spec.Restore modified.Spec.Restore stored.Spec.Restore }
    Status := stored.Status }

/-- Effect of `client.Status().Patch(obj, client.MergeFrom(base))` on a stored
ReclaimRecord: only the status fields are patched. -/
def patchReclaimStatus (base modified stored : PVCReclaim) : PVCReclaim :=
  { stored with
    Status :=
      { RecoverStatus := patchField base.Status.RecoverStatus modified.Status.RecoverStatus
          stored.Status.RecoverStatus
        Reason := patchField base.Status.Reason modified.Status.Reason stored.Status.Reason
        Message := patchField base.Status.Message modified.Status.Message
          stored.Status.Message } }

/-- Effect of `client.Status().Patch(obj, client.MergeFrom(base))` on a stored Claim. -/
def patchClaimStatus (base modified stored : PersistentVolumeClaim) : PersistentVolumeClaim :=
  { stored with
    Status := { Phase := patchField base.Status.Phase modified.Status.Phase stored.Status.Phase } }

/-- Effect of `client.Patch(obj, client.MergeFrom(base))` on a stored Volume: metadata
and spec are patched, the status belongs to the status subresource. -/
def patchVolumeObject (base modified stored : PersistentVolume) : PersistentVolume :=
  { stored with
    ObjectMeta := patchMeta base.ObjectMeta modified.ObjectMeta stored.ObjectMeta
    Spec :=
      { ClaimRef :=
          patchRef base.Spec.ClaimRef modified.Spec.ClaimRef stored.Spec.ClaimRef } }

/-- The map an association list denotes, as the list of its bindings: each key once,
with the value `alistGet` finds.  `seen` holds the keys already listed. -/
def alistEntries (seen : List String) : List (String × String) → List (String × String)
  | [] => []
  | (k, v) :: t =>
    if k ∈ seen then alistEntries seen t else (k, v) :: alistEntries (k :: seen) t

/-- Key-value pairs visited by Go `for k, v := range m`: every binding of the map once
(none for the nil map). -/
def mapRange (m : StrMap) : List (String × String) :=
  match m with
  | none => []
  | some l => alistEntries [] l

/-- Go `for k, v := range src { dst[k] = v }`, the pairs of `src` given as a list:
`none` stands for the panic of a write to the nil map. -/
def assignAll : StrMap → List (String × String) → Option StrMap
  | m, [] => some m
  | m, (k, v) :: t =>
    match mapAssign m k v with
    | none => none
    | some m' => assignAll m' t

/-- Go `fmt.Sprintf("%s/%s", a, b)`. -/
def slashed (a b : String) : String :=
  a ++ "/" ++ b

/-- Go `fmt.Sprintf(format, arg)` for a format that holds no verb (a namespace is a DNS
label and holds no percent sign): the unused argument is reported after the text. -/
def sprintfNoVerb (format arg : String) : String :=
  format ++ "%!(EXTRA string=" ++ arg ++ ")"

/-! ### Store operations -/

/-- The store with the ReclaimRecord under `key` replaced by `o`. -/
def Store.putReclaim (key : NamespacedName) (o : PVCReclaim) (s : Store) : Store :=
  { s with reclaims := s.reclaims.map (fun x => if hasKey x.ObjectMeta key then o else x) }

/-- The store with the Claim under `key` replaced by `o`. -/
def Store.putPVC (key : NamespacedName) (o : PersistentVolumeClaim) (s : Store) : Store :=
  { s with pvcs := s.pvcs.map (fun x => if hasKey x.ObjectMeta key then o else x) }

/-- The store with the Volume under `name` replaced by `o`. -/
def Store.putPV (name : String) (o : PersistentVolume) (s : Store) : Store :=
  { s with pvs := s.pvs.map (fun x => if decide (x.ObjectMeta.Name = name) then o else x) }

/-- The store with the ReclaimRecord `o` added. -/
def Store.addReclaim (o : PVCReclaim) (s : Store) : Store :=
  { s with reclaims := s.reclaims ++ [o], uids := s.uids + 1 }

/-- The store with the Claim `o` added. -/
def Store.addPVC (o : PersistentVolumeClaim) (s : Store) : Store :=
  { s with pvcs := s.pvcs ++ [o], uids := s.uids + 1 }

/-- A stored ReclaimRecord as a `get` hands it out. -/
def decodeReclaim (o : PVCReclaim) : PVCReclaim :=
  { o with ObjectMeta := encodeMeta o.ObjectMeta }

/-- A stored Claim as a `get` hands it out. -/
def decodePVC (o : PersistentVolumeClaim) : PersistentVolumeClaim :=
  { o with ObjectMeta := encodeMeta o.ObjectMeta }

/-- A stored Volume as a `get` hands it out. -/
def decodePV (o : PersistentVolume) : PersistentVolume :=
  { o with ObjectMeta := encodeMeta o.ObjectMeta }

/-- The ReclaimRecord the store keeps for a submitted one: serialised metadata, the
identity token `uid`, the status `status`. -/
def storedReclaim (obj : PVCReclaim) (uid : String) (status : PVCReclaimStatus) : PVCReclaim :=
  { obj with
    ObjectMeta := { encodeMeta obj.ObjectMeta with UID := uid }
    Status := status }

/-- The Claim the store keeps for a submitted one on creation: serialised metadata, the
identity token `uid`, an empty status. -/
def storedPVC (obj : PersistentVolumeClaim) (uid : String) : PersistentVolumeClaim :=
  { obj with
    ObjectMeta := { encodeMeta obj.ObjectMeta with UID := uid }
    Status := {} }

/-- The store without the ReclaimRecord under `key`. -/
def Store.dropReclaim (key : NamespacedName) (s : Store) : Store :=
  { s with reclaims := s.reclaims.filter (fun x => !hasKey x.ObjectMeta key) }

/-- Store `get` of a Claim. -/
def Store.getPVC (key : NamespacedName) (s : Store) :
    Except APIError PersistentVolumeClaim × Store :=
  match s.pvc? key with
  | some o => (Except.ok (decodePVC o), s)
  | none => (Except.error (errNotFound "persistentvolumeclaims" key.Name), s)

/-- Store `get` of a Volume. -/
def Store.getPV (name : String) (s : Store) : Except APIError PersistentVolume × Store :=
  match s.pv? name with
  | some o => (Except.ok (decodePV o), s)
  | none => (Except.error (errNotFound "persistentvolumes" name), s)

/-- Store `get` of a ReclaimRecord. -/
def Store.getReclaim (key : NamespacedName) (s : Store) : Except APIError PVCReclaim × Store :=
  match s.reclaim? key with
  | some o => (Except.ok (decodeReclaim o), s)
  | none => (Except.error (errNotFound "pvcreclaims" key.Name), s)

/-- Store `create` of a ReclaimRecord: refused when the identity is taken; the stored
object gets an identity token and an empty status (the status subresource owns it). -/
def Store.createReclaim (obj : PVCReclaim) (s : Store) : Except APIError PVCReclaim × Store :=
  match s.reclaim? (keyOf obj.ObjectMeta) with
  | some _ => (Except.error (errAlreadyExists "pvcreclaims" obj.ObjectMeta.Name), s)
  | none =>
    (Except.ok (storedReclaim obj (newUID s.uids) {}),
      s.addReclaim (storedReclaim obj (newUID s.uids) {}))

/-- Store `create` of a Claim: refused when the identity is taken; the stored object
gets an identity token and an empty status. -/
def Store.createPVC (obj : PersistentVolumeClaim) (s : Store) :
    Except APIError PersistentVolumeClaim × Store :=
  match s.pvc? (keyOf obj.ObjectMeta) with
  | some _ => (Except.error (errAlreadyExists "persistentvolumeclaims" obj.ObjectMeta.Name), s)
  | none =>
    (Except.ok (storedPVC obj (newUID s.uids)), s.addPVC (storedPVC obj (newUID s.uids)))

/-- Store `update` of a ReclaimRecord: metadata and spec are replaced; the identity
token and the status of the stored object stay. -/
def Store.updateReclaim (obj : PVCReclaim) (s : Store) : Except APIError PVCReclaim × Store :=
  match s.reclaim? (keyOf obj.ObjectMeta) with
  | none => (Except.error (errNotFound "pvcreclaims" obj.ObjectMeta.Name), s)
  | some old =>
    (Except.ok (storedReclaim obj old.ObjectMeta.UID old.Status),
      s.putReclaim (keyOf obj.ObjectMeta) (storedReclaim obj old.ObjectMeta.UID old.Status))

/-- Store `patch` of a ReclaimRecord (metadata and spec). -/
def Store.patchReclaim (base obj : PVCReclaim) (s : Store) : Except APIError PVCReclaim × Store :=
  match s.reclaim? (keyOf obj.ObjectMeta) with
  | none => (Except.error (errNotFound "pvcreclaims" obj.ObjectMeta.Name), s)
  | some old =>
    (Except.ok (patchReclaimObject base obj old),
      s.putReclaim (keyOf obj.ObjectMeta) (patchReclaimObject base obj old))

/-- Store `patch` of the status sub-object of a ReclaimRecord. -/
def Store.statusPatchReclaim (base obj : PVCReclaim) (s : Store) :
    Except APIError PVCReclaim × Store :=
  match s.reclaim? (keyOf obj.ObjectMeta) with
  | none => (Except.error (errNotFound "pvcreclaims" obj.ObjectMeta.Name), s)
  | some old =>
    (Except.ok (decodeReclaim (patchReclaimStatus base obj old)),
      s.putReclaim (keyOf obj.ObjectMeta) (patchReclaimStatus base obj old))

/-- Store `patch` of the status sub-object of a Claim. -/
def Store.statusPatchPVC (base obj : PersistentVolumeClaim) (s : Store) :
    Except APIError PersistentVolumeClaim × Store :=
  match s.pvc? (keyOf obj.ObjectMeta) with
  | none => (Except.error (errNotFound "persistentvolumeclaims" obj.ObjectMeta.Name), s)
  | some old =>
    (Except.ok (decodePVC (patchClaimStatus base obj old)),
      s.putPVC (keyOf obj.ObjectMeta) (patchClaimStatus base obj old))

/-- Store `patch` of a Volume (metadata and spec). -/
def Store.patchPV (base obj : PersistentVolume) (s : Store) :
    Except APIError PersistentVolume × Store :=
  match s.pv? obj.ObjectMeta.Name with
  | none => (Except.error (errNotFound "persistentvolumes" obj.ObjectMeta.Name), s)
  | some old =>
    (Except.ok (patchVolumeObject base obj old),
      s.putPV obj.ObjectMeta.Name (patchVolumeObject base obj old))

/-- Store `delete` of a ReclaimRecord (foreground cascade, zero grace period): the
record is gone when the call returns. -/
def Store.deleteReclaim (obj : PVCReclaim) (s : Store) : Except APIError Unit × Store :=
  match s.reclaim? (keyOf obj.ObjectMeta) with
  | none => (Except.error (errNotFound "pvcreclaims" obj.ObjectMeta.Name), s)
  | some _ => (Except.ok (), s.dropReclaim (keyOf obj.ObjectMeta))

/-- Store `list` of the ReclaimRecords selected by `client.MatchingLabels{key: value}`:
the records that carry the label `key` with the value `value`, in the order of the
store. -/
def Store.listReclaims (key value : String) (s : Store) :
    Except APIError (List PVCReclaim) × Store :=
  (Except.ok
    ((s.reclaims.filter (fun o => decide (mapGet o.ObjectMeta.Labels key = some value))).map
      decodeReclaim), s)

/-! ### The client -/

/-- One call of the controller-runtime client, with the object it was given. -/
inductive Call where
  | GetPVC (key : NamespacedName)
  | GetPV (name : String)
  | GetReclaim (key : NamespacedName)
  | CreateReclaim (obj : PVCReclaim)
  | CreatePVC (obj : PersistentVolumeClaim)
  | UpdateReclaim (obj : PVCReclaim)
  | PatchReclaim (base obj : PVCReclaim)
  | StatusPatchReclaim (base obj : PVCReclaim)
  | StatusPatchPVC (base obj : PersistentVolumeClaim)
  | PatchPV (base obj : PersistentVolume)
  | DeleteReclaim (obj : PVCReclaim)
  | ListReclaims (key value : String)
deriving DecidableEq, Repr

/-- The client as a reconciler sees it: the store behind it, the faults the
environment injects into the coming calls (`faults i = some e` makes the `i`-th coming
call fail with `e` and leave the store alone, `none` lets the store answer), and the
calls made so far. -/
structure Client where
  store : Store := {}
  faults : Nat → Option APIError := fun _ => none
  log : List Call := []

/-- One client call: it is logged, consumes one fault slot and, unless a fault is
injected, runs the store operation. -/
def Client.call {α : Type} (c : Client) (entry : Call)
    (op : Store → Except APIError α × Store) : Except APIError α × Client :=
  match c.faults 0 with
  | some e =>
    (Except.error e,
      { store := c.store, faults := fun i => c.faults (i + 1), log := c.log ++ [entry] })
  | none =>
    ((op c.store).1,
      { store := (op c.store).2, faults := fun i => c.faults (i + 1), log := c.log ++ [entry] })

/-! ## The reconcilers -/

/-- Result of one reconcile run: `return ctrl.Result{}, err`, or a Go runtime panic. -/
inductive Outcome where
  | returned (err : Option APIError)
  | panicked
deriving DecidableEq, Repr

/-- Go `pvcReclaim.Status = status` (the assignments to the status fields). -/
def withStatus (pvcReclaim : PVCReclaim) (status : PVCReclaimStatus) : PVCReclaim :=
  { ObjectMeta := pvcReclaim.ObjectMeta, Spec := pvcReclaim.Spec, Status := status }

/-- Go `pvcReclaim.Spec.Restore = false`. -/
def clearRestore (pvcReclaim : PVCReclaim) : PVCReclaim :=
  { ObjectMeta := pvcReclaim.ObjectMeta
    Spec :=
      { PersistentVolumeRef := pvcReclaim.Spec.PersistentVolumeRef
        PersistentVolumeClaimSpec := pvcReclaim.Spec.PersistentVolumeClaimSpec
        Restore := false }
    Status := pvcReclaim.Status }

/-- Go `pvc.Status.Phase = corev1.ClaimBound`. -/
def withBoundPhase (pvc : PersistentVolumeClaim) : PersistentVolumeClaim :=
  { ObjectMeta := pvc.ObjectMeta, Spec := pvc.Spec, Status := { Phase := ClaimBound } }

/-- A record whose label map is `labels` (the map it shares with the Claim built from
it). -/
def withLabels (pvcReclaim : PVCReclaim) (labels : StrMap) : PVCReclaim :=
  { ObjectMeta :=
      { Name := pvcReclaim.ObjectMeta.Name
        Namespace := pvcReclaim.ObjectMeta.Namespace
        UID := pvcReclaim.ObjectMeta.UID
        Labels := labels
        Annotations := pvcReclaim.ObjectMeta.Annotations }
    Spec := pvcReclaim.Spec
    Status := pvcReclaim.Status }

/-- The labels of a record built for a Claim: the Claim's label map (a fresh map when
the Claim has none) with the Volume-name label written to it. -/
def mirroredLabels (pvc : PersistentVolumeClaim) (pv : PersistentVolume) :
    List (String × String) :=
  alistSet (match pvc.ObjectMeta.Labels with
    | none => []
    | some l => l) reclaimPVLabel pv.ObjectMeta.Name

/-- The record built for a Bound Claim and its Volume (`pvc_controller.go` lines
111-134, `pvcreclaim_controller.go` lines 95-118). -/
def newReclaimFor (pvc : PersistentVolumeClaim) (pv : PersistentVolume) : PVCReclaim :=
  { ObjectMeta :=
      { Name := pvc.ObjectMeta.Name
        Namespace := pvc.ObjectMeta.Namespace
        Annotations := pvc.ObjectMeta.Annotations
        Labels := some (mirroredLabels pvc pv) }
    Spec :=
      { PersistentVolumeRef := some
          { Kind := pv.TypeMeta.Kind
            APIVersion := pv.TypeMeta.APIVersion
            Name := pv.ObjectMeta.Name }
        PersistentVolumeClaimSpec := pvc.Spec
        Restore := false } }

/-- The Claim as its holder sees it once a record was built for it: when the Claim has
labels the record shares the Claim's label map, so the Volume-name label written to
the record shows in the Claim as well. -/
def claimAfterMirror (pvc : PersistentVolumeClaim) (pv : PersistentVolume) :
    PersistentVolumeClaim :=
  match pvc.ObjectMeta.Labels with
  | none => pvc
  | some _ =>
    { ObjectMeta :=
        { Name := pvc.ObjectMeta.Name
          Namespace := pvc.ObjectMeta.Namespace
          UID := pvc.ObjectMeta.UID
          Labels := some (mirroredLabels pvc pv)
          Annotations := pvc.ObjectMeta.Annotations }
      Spec := pvc.Spec
      Status := pvc.Status }

/-- Status written by both mirror paths (`pvc_controller.go` lines 86-88,
`pvcreclaim_controller.go` lines 125-127). -/
def mirroredStatus (pvc : PersistentVolumeClaim) (pvcReclaim : PVCReclaim) : PVCReclaimStatus :=
  { Reason := ""
    RecoverStatus := NotRecovered
    Message := "PVC " ++ slashed pvc.ObjectMeta.Namespace pvc.ObjectMeta.Name ++
      " Bound, PVCReclaim " ++
      slashed pvcReclaim.ObjectMeta.Namespace pvcReclaim.ObjectMeta.Name ++
      " created for recovery" }

/-- Go `PVCController.getOrCreateClaimRef`; the Claim is passed by pointer, so the
Claim as left by the call is returned next to the record. -/
def PVCController.getOrCreateClaimRef (pvc : PersistentVolumeClaim) (c : Client) :
    Except APIError (PVCReclaim × PersistentVolumeClaim) × Client :=
  match c.call (Call.GetPV pvc.Spec.VolumeName) (Store.getPV pvc.Spec.VolumeName) with
  | (Except.error err, c1) => (Except.error err, c1)
  | (Except.ok pv, c1) =>
    match c1.call (Call.GetReclaim (keyOf pvc.ObjectMeta))
        (Store.getReclaim (keyOf pvc.ObjectMeta)) with
    | (Except.ok pvcReclaim, c2) => (Except.ok (pvcReclaim, pvc), c2)
    | (Except.error err, c2) =>
      if !IsNotFound (some err) then (Except.error err, c2)
      else
        match c2.call (Call.CreateReclaim (newReclaimFor pvc pv))
            (Store.createReclaim (newReclaimFor pvc pv)) with
        | (Except.error err, c3) => (Except.error err, c3)
        | (Except.ok pvcReclaim, c3) => (Except.ok (pvcReclaim, claimAfterMirror pvc pv), c3)

/-- The record as `PVCController.Reconcile` submits it for update (lines 75-79):
annotations of the Claim, merged labels, `Restore` cleared. -/
def syncedReclaim (pvcReclaim : PVCReclaim) (pvc : PersistentVolumeClaim) (labels : StrMap) :
    PVCReclaim :=
  { ObjectMeta :=
      { Name := pvcReclaim.ObjectMeta.Name
        Namespace := pvcReclaim.ObjectMeta.Namespace
        UID := pvcReclaim.ObjectMeta.UID
        Labels := labels
        Annotations := pvc.ObjectMeta.Annotations }
    Spec :=
      { PersistentVolumeRef := pvcReclaim.Spec.PersistentVolumeRef
        PersistentVolumeClaimSpec := pvcReclaim.Spec.PersistentVolumeClaimSpec
        Restore := false }
    Status := pvcReclaim.Status }

/-- Go `PVCController.Reconcile`, lines 75-92: the record variable is brought in line
with the Claim, submitted for update, and its status patched.  The label loop of lines
76-78 writes to the record's label map: a nil map panics. -/
def PVCController.syncReclaim (pvcReclaim : PVCReclaim) (pvc : PersistentVolumeClaim)
    (c : Client) : Outcome × Client :=
  match assignAll pvcReclaim.ObjectMeta.Labels (mapRange pvc.ObjectMeta.Labels) with
  | none => (Outcome.panicked, c)
  | some labels =>
    match c.call (Call.UpdateReclaim (syncedReclaim pvcReclaim pvc labels))
        (Store.updateReclaim (syncedReclaim pvcReclaim pvc labels)) with
    | (Except.error err, c1) => (Outcome.returned (some err), c1)
    | (Except.ok pvcReclaim, c1) =>
      match c1.call
          (Call.StatusPatchReclaim pvcReclaim
            (withStatus pvcReclaim (mirroredStatus pvc pvcReclaim)))
          (Store.statusPatchReclaim pvcReclaim
            (withStatus pvcReclaim (mirroredStatus pvc pvcReclaim))) with
      | (Except.error err, c2) => (Outcome.returned (some err), c2)
      | (Except.ok _, c2) => (Outcome.returned none, c2)

/-- Go `PVCController.Reconcile` (the Claim Mirror). -/
def PVCController.Reconcile (req : Request) (c : Client) : Outcome × Client :=
  match c.call (Call.GetPVC req.NamespacedName) (Store.getPVC req.NamespacedName) with
  | (Except.error err, c1) => (Outcome.returned (IgnoreNotFound (some err)), c1)
  | (Except.ok pvc, c1) =>
    if pvc.Spec.VolumeName = "" ∨ pvc.Status.Phase ≠ ClaimBound then
      (Outcome.returned none, c1)
    else
      match PVCController.getOrCreateClaimRef pvc c1 with
      | (Except.error err, c2) => (Outcome.returned (some err), c2)
      | (Except.ok (pvcReclaim, pvc), c2) => PVCController.syncReclaim pvcReclaim pvc c2

/-- Go `PVCReclaimController.Reconcile`, lines 123-131: the status patch of the record
variable `pvcReclaim` after the create call. -/
def PVCReclaimController.patchMirrored (pvc : PersistentVolumeClaim) (pvcReclaim : PVCReclaim)
    (c : Client) : Outcome × Client :=
  match c.call
      (Call.StatusPatchReclaim pvcReclaim
        (withStatus pvcReclaim (mirroredStatus pvc pvcReclaim)))
      (Store.statusPatchReclaim pvcReclaim
        (withStatus pvcReclaim (mirroredStatus pvc pvcReclaim))) with
  | (Except.error err, c1) => (Outcome.returned (some err), c1)
  | (Except.ok _, c1) => (Outcome.returned none, c1)

/-- Go `PVCReclaimController.Reconcile`, lines 85-132: no record, the Claim was
fetched.  A create refused with already-exists leaves the record variable as built. -/
def PVCReclaimController.mirrorClaim (pvc : PersistentVolumeClaim) (c : Client) :
    Outcome × Client :=
  if pvc.Spec.VolumeName = "" ∨ pvc.Status.Phase ≠ ClaimBound then
    (Outcome.returned none, c)
  else
    match c.call (Call.GetPV pvc.Spec.VolumeName) (Store.getPV pvc.Spec.VolumeName) with
    | (Except.error err, c1) => (Outcome.returned (IgnoreNotFound (some err)), c1)
    | (Except.ok pv, c1) =>
      match c1.call (Call.CreateReclaim (newReclaimFor pvc pv))
          (Store.createReclaim (newReclaimFor pvc pv)) with
      | (Except.ok pvcReclaim, c2) => PVCReclaimController.patchMirrored pvc pvcReclaim c2
      | (Except.error err, c2) =>
        if !IsAlreadyExists (some err) then (Outcome.returned (some err), c2)
        else PVCReclaimController.patchMirrored pvc (newReclaimFor pvc pv) c2

/-- The Claim built from a record for re-creation (`pvcreclaim_controller.go` lines
180-189). -/
def recreatedClaim (pvcReclaim : PVCReclaim) : PersistentVolumeClaim :=
  { ObjectMeta :=
      { Name := pvcReclaim.ObjectMeta.Name
        Namespace := pvcReclaim.ObjectMeta.Namespace
        Labels := mapDelete pvcReclaim.ObjectMeta.Labels reclaimPVLabel
        Annotations := pvcReclaim.ObjectMeta.Annotations }
    Spec := pvcReclaim.Spec.PersistentVolumeClaimSpec }

/-- The annotation loop of lines 213-217: every key that does not contain
`pvAnnotationPrefix` is deleted from the map. -/
def stripAnnotations (annotations : StrMap) : StrMap :=
  (mapKeys annotations).foldl
    (fun m annKey => if !stringsContains annKey pvAnnotationPrefix then mapDelete m annKey else m)
    annotations

/-- The Volume as submitted for patching (lines 213-218): annotations stripped, the
identity token of the claim reference set to `uid`. -/
def reboundVolume (pv : PersistentVolume) (claimRef : ObjectReference) (uid : String) :
    PersistentVolume :=
  { TypeMeta := pv.TypeMeta
    ObjectMeta :=
      { Name := pv.ObjectMeta.Name
        Namespace := pv.ObjectMeta.Namespace
        UID := pv.ObjectMeta.UID
        Labels := pv.ObjectMeta.Labels
        Annotations := stripAnnotations pv.ObjectMeta.Annotations }
    Spec :=
      { ClaimRef := some
          { Kind := claimRef.Kind
            Namespace := claimRef.Namespace
            Name := claimRef.Name
            UID := uid
            APIVersion := claimRef.APIVersion } }
    Status := pv.Status }

/-- Status written when the restore sequence starts (lines 172-174). -/
def inProgressStatus (pvcReclaim : PVCReclaim) (pv : PersistentVolume) : PVCReclaimStatus :=
  { RecoverStatus := RecoveryInProgress
    Message := "Recovering PVC " ++
      slashed pvcReclaim.ObjectMeta.Namespace pvcReclaim.ObjectMeta.Name ++
      " and having it bound to PV " ++ pv.ObjectMeta.Name
    Reason := "" }

/-- Status written when re-creating the Claim failed (lines 192-193); `Message` is left
as it was. -/
def recreateFailedStatus (pvcReclaim : PVCReclaim) (err : APIError) : PVCReclaimStatus :=
  { RecoverStatus := RecoveryFailed
    Reason := "Failed to re-create PVC " ++
      slashed pvcReclaim.ObjectMeta.Namespace pvcReclaim.ObjectMeta.Name ++
      ", error: " ++ err.Message
    Message := pvcReclaim.Status.Message }

/-- Status written after the Volume was re-bound (lines 224-226). -/
def successStatus (pvcReclaim : PVCReclaim) (pv : PersistentVolume) : PVCReclaimStatus :=
  { RecoverStatus := RecoverySuccess
    Reason := ""
    Message := "Sucessfully restored PVC " ++
      sprintfNoVerb pvcReclaim.ObjectMeta.Namespace pvcReclaim.ObjectMeta.Name ++
      " and bound it to PV " ++ pv.ObjectMeta.Name }

/-- Status written when the Volume is not Released (lines 163-164); `Message` is left
as it was. -/
def notReleasedStatus (pvcReclaim : PVCReclaim) (pv : PersistentVolume) : PVCReclaimStatus :=
  { RecoverStatus := RecoveryFailed
    Reason := "PV " ++ pv.ObjectMeta.Name ++ " is not in Released phase"
    Message := pvcReclaim.Status.Message }

/-- Go `PVCReclaimController.Reconcile`, lines 212-239: the Claim was re-read into
`pvc`; the Volume is patched, the record marked and deleted.  Line 218 dereferences
`pv.Spec.ClaimRef`: a nil reference panics. -/
def PVCReclaimController.patchVolume (pvcReclaim : PVCReclaim) (pv : PersistentVolume)
    (pvc : PersistentVolumeClaim) (c : Client) : Outcome × Client :=
  match pv.Spec.ClaimRef with
  | none => (Outcome.panicked, c)
  | some claimRef =>
    match c.call (Call.PatchPV pv (reboundVolume pv claimRef pvc.ObjectMeta.UID))
        (Store.patchPV pv (reboundVolume pv claimRef pvc.ObjectMeta.UID)) with
    | (Except.error err, c1) => (Outcome.returned (some err), c1)
    | (Except.ok pv, c1) =>
      match c1.call
          (Call.StatusPatchReclaim pvcReclaim
            (withStatus pvcReclaim (successStatus pvcReclaim pv)))
          (Store.statusPatchReclaim pvcReclaim
            (withStatus pvcReclaim (successStatus pvcReclaim pv))) with
      | (Except.error err, c2) => (Outcome.returned (some err), c2)
      | (Except.ok pvcReclaim, c2) =>
        match c2.call (Call.DeleteReclaim pvcReclaim) (Store.deleteReclaim pvcReclaim) with
        | (Except.error err, c3) => (Outcome.returned (some err), c3)
        | (Except.ok _, c3) => (Outcome.returned none, c3)

/-- Go `PVCReclaimController.Reconcile`, lines 201-239: the Claim exists (created by
this run, or already there); `pvc` is the Claim variable after line 190 and
`pvcReclaim` the record variable. -/
def PVCReclaimController.rebind (pvcReclaim : PVCReclaim) (pv : PersistentVolume)
    (pvc : PersistentVolumeClaim) (c : Client) : Outcome × Client :=
  match c.call (Call.StatusPatchPVC pvc (withBoundPhase pvc))
      (Store.statusPatchPVC pvc (withBoundPhase pvc)) with
  | (Except.error err, c1) => (Outcome.returned (some err), c1)
  | (Except.ok _, c1) =>
    match c1.call (Call.GetPVC (keyOf pvcReclaim.ObjectMeta))
        (Store.getPVC (keyOf pvcReclaim.ObjectMeta)) with
    | (Except.error err, c2) => (Outcome.returned (some err), c2)
    | (Except.ok pvc, c2) => PVCReclaimController.patchVolume pvcReclaim pv pvc c2

/-- Go `PVCReclaimController.Reconcile`, lines 179-199 and on: the Claim is built from
the record variable and submitted; the record variable shares its label map with the
Claim, so it loses the Volume-name label too. -/
def PVCReclaimController.recreate (pvcReclaim : PVCReclaim) (pv : PersistentVolume)
    (c : Client) : Outcome × Client :=
  match c.call (Call.CreatePVC (recreatedClaim pvcReclaim))
      (Store.createPVC (recreatedClaim pvcReclaim)) with
  | (Except.ok created, c1) =>
    PVCReclaimController.rebind
      (withLabels pvcReclaim (recreatedClaim pvcReclaim).ObjectMeta.Labels) pv created c1
  | (Except.error err, c1) =>
    if !IsAlreadyExists (some err) then
      match c1.call
          (Call.StatusPatchReclaim
            (withLabels pvcReclaim (recreatedClaim pvcReclaim).ObjectMeta.Labels)
            (withStatus (withLabels pvcReclaim (recreatedClaim pvcReclaim).ObjectMeta.Labels)
              (recreateFailedStatus pvcReclaim err)))
          (Store.statusPatchReclaim
            (withLabels pvcReclaim (recreatedClaim pvcReclaim).ObjectMeta.Labels)
            (withStatus (withLabels pvcReclaim (recreatedClaim pvcReclaim).ObjectMeta.Labels)
              (recreateFailedStatus pvcReclaim err))) with
      | (Except.error innerErr, c2) => (Outcome.returned (some innerErr), c2)
      | (Except.ok _, c2) => (Outcome.returned (some err), c2)
    else
      PVCReclaimController.rebind
        (withLabels pvcReclaim (recreatedClaim pvcReclaim).ObjectMeta.Labels) pv
        (recreatedClaim pvcReclaim) c1

/-- Go `PVCReclaimController.Reconcile`, lines 171-177 and on: the restore sequence for
a record with `Restore` set whose Volume is Released. -/
def PVCReclaimController.restore (pvcReclaim : PVCReclaim) (pv : PersistentVolume)
    (c : Client) : Outcome × Client :=
  match c.call
      (Call.StatusPatchReclaim pvcReclaim
        (withStatus pvcReclaim (inProgressStatus pvcReclaim pv)))
      (Store.statusPatchReclaim pvcReclaim
        (withStatus pvcReclaim (inProgressStatus pvcReclaim pv))) with
  | (Except.error err, c1) => (Outcome.returned (some err), c1)
  | (Except.ok pvcReclaim, c1) => PVCReclaimController.recreate pvcReclaim pv c1

/-- Go `PVCReclaimController.Reconcile`, lines 154-169: `Restore` is set and the Volume
is not Released. -/
def PVCReclaimController.rejectRestore (pvcReclaim : PVCReclaim) (pv : PersistentVolume)
    (c : Client) : Outcome × Client :=
  match c.call (Call.PatchReclaim pvcReclaim (clearRestore pvcReclaim))
      (Store.patchReclaim pvcReclaim (clearRestore pvcReclaim)) with
  | (Except.error err, c1) => (Outcome.returned (some err), c1)
  | (Except.ok pvcReclaim, c1) =>
    match c1.call
        (Call.StatusPatchReclaim pvcReclaim
          (withStatus pvcReclaim (notReleasedStatus pvcReclaim pv)))
        (Store.statusPatchReclaim pvcReclaim
          (withStatus pvcReclaim (notReleasedStatus pvcReclaim pv))) with
    | (Except.error err, c2) => (Outcome.returned (some err), c2)
    | (Except.ok _, c2) => (Outcome.returned none, c2)

/-- Go `PVCReclaimController.Reconcile`, lines 134-169 and on: the record was
fetched.  Line 135 dereferences `pvcReclaim.Spec.PersistentVolumeRef`: a nil reference
panics. -/
def PVCReclaimController.reconcileRecord (pvcReclaim : PVCReclaim) (c : Client) :
    Outcome × Client :=
  match pvcReclaim.Spec.PersistentVolumeRef with
  | none => (Outcome.panicked, c)
  | some volumeRef =>
    match c.call (Call.GetPV volumeRef.Name) (Store.getPV volumeRef.Name) with
    | (Except.error err, c1) =>
      if !IsNotFound (some err) then (Outcome.returned (some err), c1)
      else
        match c1.call (Call.DeleteReclaim pvcReclaim) (Store.deleteReclaim pvcReclaim) with
        | (Except.error innerErr, c2) => (Outcome.returned (some innerErr), c2)
        | (Except.ok _, c2) => (Outcome.returned none, c2)
    | (Except.ok pv, c1) =>
      if !pvcReclaim.Spec.Restore then (Outcome.returned none, c1)
      else if pv.Status.Phase ≠ VolumeReleased then
        PVCReclaimController.rejectRestore pvcReclaim pv c1
      else PVCReclaimController.restore pvcReclaim pv c1

/-- Go `PVCReclaimController.Reconcile` (the Reclaim Reconciler).  `err` and
`pvcFetchErr` are the results of the two fetches of lines 72 and 77, `pvcReclaim` and
`pvc` the variables they fill (zero values when the fetch failed); line 79 returns
`err`, the result of the first fetch. -/
def PVCReclaimController.Reconcile (req : Request) (c : Client) : Outcome × Client :=
  match c.call (Call.GetReclaim req.NamespacedName) (Store.getReclaim req.NamespacedName) with
  | (res, c1) =>
    let err : Option APIError :=
      match res with
      | Except.ok _ => none
      | Except.error e => some e
    if err ≠ none ∧ !IsNotFound err then (Outcome.returned err, c1)
    else
      match c1.call (Call.GetPVC req.NamespacedName) (Store.getPVC req.NamespacedName) with
      | (pvcRes, c2) =>
        let pvcFetchErr : Option APIError :=
          match pvcRes with
          | Except.ok _ => none
          | Except.error e => some e
        let pvcReclaim : PVCReclaim :=
          match res with
          | Except.ok o => o
          | Except.error _ => {}
        let pvc : PersistentVolumeClaim :=
          match pvcRes with
          | Except.ok o => o
          | Except.error _ => {}
        if pvcFetchErr ≠ none ∧ !IsNotFound pvcFetchErr then (Outcome.returned err, c2)
        else if IsNotFound err ∧ IsNotFound pvcFetchErr then (Outcome.returned none, c2)
        else if IsNotFound err ∧ pvcFetchErr = none then PVCReclaimController.mirrorClaim pvc c2
        else PVCReclaimController.reconcileRecord pvcReclaim c2

/-! ## The Volume-Event Router (`SetupWithManager`) -/

/-- Go `client.Object` as the watch hands it to the map function: an object of one of
the three kinds of the store. -/
inductive Object where
  | Volume (pv : PersistentVolume)
  | Claim (pvc : PersistentVolumeClaim)
  | Reclaim (pvcReclaim : PVCReclaim)
deriving DecidableEq, Repr

/-- The events the filter `pvPredicate` has a function for: Go `event.CreateEvent`,
`event.UpdateEvent` and `event.DeleteEvent`. -/
inductive Event where
  | Create (object : Object)
  | Update (objectOld objectNew : Object)
  | Delete (object : Object)
deriving DecidableEq, Repr

/-- Go `pvPredicate` (`pvcreclaim_controller.go` lines 245-255): `CreateFunc` answers
false, `UpdateFunc` and `DeleteFunc` answer true. -/
def pvPredicate : Event → Bool
  | Event.Create _ => false
  | Event.Update _ _ => true
  | Event.Delete _ => true

/-- The request appended for a listed record (lines 272-274). -/
def requestFor (reclaim : PVCReclaim) : Request :=
  { NamespacedName :=
      { Name := reclaim.ObjectMeta.Name, Namespace := reclaim.ObjectMeta.Namespace } }

/-- Go `pvEnqueuePVCReclaimReconcileRequestMapFunc` (lines 257-277): an object that is
not a Volume, or a failed listing, gives no request; otherwise the loop appends one
request per listed record. -/
def pvEnqueuePVCReclaimReconcileRequestMapFunc (object : Object) (c : Client) :
    List Request × Client :=
  match object with
  | Object.Volume pv =>
    match c.call (Call.ListReclaims reclaimPVLabel pv.ObjectMeta.Name)
        (Store.listReclaims reclaimPVLabel pv.ObjectMeta.Name) with
    | (Except.error _, c1) => ([], c1)
    | (Except.ok pvcReclaims, c1) =>
      (pvcReclaims.foldl (fun requests reclaim => requests ++ [requestFor reclaim]) [], c1)
  | _ => ([], c)

/-- The fault schedule that injects nothing: every store call is answered by the
store. -/
def noFaults : Nat → Option APIError :=
  fun _ => none

/-! ## Concrete states -/

/-- The request of the controller tests: `default/test-reclaim`. -/
def testRequest : Request :=
  { NamespacedName := { Namespace := "default", Name := "test-reclaim" } }

/-- Reference to the Volume `test-pv`, as in the controller tests. -/
def testVolumeRef : ObjectReference :=
  { Kind := "PersistentVolume", APIVersion := "v1", Name := "test-pv" }

/-- Record of `TestPVCReclaimController_Reconcile_PVNotReleased`: restore requested. -/
def notReleasedRecord : PVCReclaim :=
  { ObjectMeta := { Name := "test-reclaim", Namespace := "default" }
    Spec := { PersistentVolumeRef := some testVolumeRef, Restore := true } }

/-- Volume of `TestPVCReclaimController_Reconcile_PVNotReleased`: still Bound. -/
def boundVolume : PersistentVolume :=
  { ObjectMeta := { Name := "test-pv" }, Status := { Phase := VolumeBound } }

/-- Client of `TestPVCReclaimController_Reconcile_PVNotReleased`. -/
def notReleasedClient : Client :=
  { store := { reclaims := [notReleasedRecord], pvs := [boundVolume] } }

/-- Record of `TestPVCReclaimController_Reconcile_PVCReclaimRestore_Success`. -/
def restoreRecord : PVCReclaim :=
  { ObjectMeta := { Name := "test-reclaim", Namespace := "default" }
    Spec :=
      { PersistentVolumeRef := some testVolumeRef
        PersistentVolumeClaimSpec := { VolumeName := "test-pv" }
        Restore := true } }

/-- Claim reference of the Volume of the restore test. -/
def testClaimRef : ObjectReference :=
  { Namespace := "default", Name := "test-reclaim" }

/-- Volume of `TestPVCReclaimController_Reconcile_PVCReclaimRestore_Success`: Released,
still referring to the deleted Claim. -/
def releasedVolume : PersistentVolume :=
  { ObjectMeta := { Name := "test-pv" }
    Spec := { ClaimRef := some testClaimRef }
    Status := { Phase := VolumeReleased } }

/-- Client of `TestPVCReclaimController_Reconcile_PVCReclaimRestore_Success`. -/
def restoreClient : Client :=
  { store := { reclaims := [restoreRecord], pvs := [releasedVolume] } }

/-- A Released Volume with three annotations: one of the provisioner, one whose key
holds `pv.kubernetes.io` in the middle, one unrelated. -/
def annotatedVolume : PersistentVolume :=
  { ObjectMeta :=
      { Name := "test-pv"
        Annotations := some
          [("pv.kubernetes.io/provisioned-by", "csi"),
           ("backup.pv.kubernetes.io/owner", "team-a"),
           ("note", "stale")] }
    Spec := { ClaimRef := some testClaimRef }
    Status := { Phase := VolumeReleased } }

/-- The restore test with the annotated Volume. -/
def annotatedClient : Client :=
  { store := { reclaims := [restoreRecord], pvs := [annotatedVolume] } }

/-- An error of the store that is neither not-found nor already-exists. -/
def quotaError : APIError :=
  { Reason := StatusReason.Other, Message := "exceeded quota" }

/-- The restore test with a store that refuses the create of the Claim (the fifth
call of the run) with `quotaError`. -/
def refusingClient : Client :=
  { store := { reclaims := [restoreRecord], pvs := [releasedVolume] }
    faults := fun i => if i = 4 then some quotaError else none }

/-- Record of `TestPVCReclaimController_Reconcile_PVNotFoundForReclaim`: it refers to a
Volume that does not exist. -/
def orphanRecord : PVCReclaim :=
  { ObjectMeta := { Name := "test-reclaim", Namespace := "default" }
    Spec :=
      { PersistentVolumeRef := some
          { Kind := "PersistentVolume", APIVersion := "v1", Name := "missing-pv" }
        Restore := false } }

/-- Client of `TestPVCReclaimController_Reconcile_PVNotFoundForReclaim`. -/
def orphanClient : Client :=
  { store := { reclaims := [orphanRecord] } }

/-- Claim of `TestPVCReclaimController_Reconcile_ReclaimFound`: Bound to
`test-reclaim-pv`. -/
def foundClaim : PersistentVolumeClaim :=
  { ObjectMeta := { Name := "test-reclaim", Namespace := "default", UID := "test-pvc-uid" }
    Spec := { VolumeName := "test-reclaim-pv" }
    Status := { Phase := ClaimBound } }

/-- Reference to the Volume of `TestPVCReclaimController_Reconcile_ReclaimFound`. -/
def foundVolumeRef : ObjectReference :=
  { Kind := "PersistentVolume", APIVersion := "v1", Name := "test-reclaim-pv" }

/-- Volume of `TestPVCReclaimController_Reconcile_ReclaimFound`. -/
def foundVolume : PersistentVolume :=
  { ObjectMeta := { Name := "test-reclaim-pv" }
    Spec :=
      { ClaimRef := some
          { Namespace := "default", Name := "test-reclaim", UID := "test-pvc-uid" } }
    Status := { Phase := VolumeReleased } }

/-- Record of `TestPVCReclaimController_Reconcile_ReclaimFound`: no restore requested. -/
def foundRecord : PVCReclaim :=
  { ObjectMeta := { Name := "test-reclaim", Namespace := "default" }
    Spec :=
      { PersistentVolumeRef := some foundVolumeRef
        PersistentVolumeClaimSpec := { VolumeName := "test-reclaim-pv" }
        Restore := false } }

/-- Client of `TestPVCReclaimController_Reconcile_ReclaimFound`. -/
def foundClient : Client :=
  { store := { reclaims := [foundRecord], pvcs := [foundClaim], pvs := [foundVolume] } }

/-- Claim of `TestPVCReclaimController_Reconcile_PVCNotBound`: still Pending. -/
def pendingClaim : PersistentVolumeClaim :=
  { ObjectMeta := { Name := "test-reclaim", Namespace := "default" }
    Spec := { VolumeName := "test-reclaim-pv" }
    Status := { Phase := ClaimPending } }

/-- Client of `TestPVCReclaimController_Reconcile_PVCNotBound`. -/
def pendingClient : Client :=
  { store := { pvcs := [pendingClaim] } }

/-- The request of the Claim Mirror tests: `default/test-pvc`. -/
def mirrorRequest : Request :=
  { NamespacedName := { Namespace := "default", Name := "test-pvc" } }

/-- A Bound Claim `default/test-pvc` on Volume `test-pv` that carries one label. -/
def labelledClaim : PersistentVolumeClaim :=
  { ObjectMeta := { Name := "test-pvc", Namespace := "default", Labels := some [("app", "db")] }
    Spec := { VolumeName := "test-pv" }
    Status := { Phase := ClaimBound } }

/-- Volume of `TestPVCController_Reconcile_PVCReclaimAlreadyExists`. -/
def mirrorVolume : PersistentVolume :=
  { ObjectMeta := { Name := "test-pv" } }

/-- A record for `default/test-pvc` without labels (as the records of the Reclaim
Reconciler tests are), with a restore requested and an earlier failure recorded. -/
def unlabelledRecord : PVCReclaim :=
  { ObjectMeta := { Name := "test-pvc", Namespace := "default" }
    Spec :=
      { PersistentVolumeRef := some testVolumeRef
        PersistentVolumeClaimSpec := { VolumeName := "test-pv" }
        Restore := true }
    Status := { RecoverStatus := RecoveryFailed, Reason := "PV test-pv is not in Released phase" } }

/-- A store with the labelled Claim, its Volume and the unlabelled record. -/
def unlabelledClient : Client :=
  { store := { pvcs := [labelledClaim], pvs := [mirrorVolume], reclaims := [unlabelledRecord] } }

/-- A store with the labelled Claim and its Volume, and no record yet. -/
def unmirroredClient : Client :=
  { store := { pvcs := [labelledClaim], pvs := [mirrorVolume] } }

/-- A Bound Claim `default/test-pvc` on Volume `test-pv` whose own labels bind the
Volume-name label to another name. -/
def indexLabelledClaim : PersistentVolumeClaim :=
  { ObjectMeta :=
      { Name := "test-pvc", Namespace := "default"
        Labels := some [(reclaimPVLabel, "other-pv")] }
    Spec := { VolumeName := "test-pv" }
    Status := { Phase := ClaimBound } }

/-- A store with that Claim and its Volume, and no record yet. -/
def indexLabelledClient : Client :=
  { store := { pvcs := [indexLabelledClaim], pvs := [mirrorVolume] } }

/-- Claim of `TestPVCController_Reconcile_PVNotFound`: Bound to a Volume that does not
exist. -/
def missingVolumeClaim : PersistentVolumeClaim :=
  { ObjectMeta := { Name := "test-pvc", Namespace := "default" }
    Spec := { VolumeName := "missing-pv" }
    Status := { Phase := ClaimBound } }

/-- Client of `TestPVCController_Reconcile_PVNotFound`. -/
def missingVolumeClient : Client :=
  { store := { pvcs := [missingVolumeClaim] } }

/-- An error of the store that is not a not-found: the server did not answer in time. -/
def timeoutError : APIError :=
  { Reason := StatusReason.Other, Message := "context deadline exceeded" }

/-- The state of `TestPVCReclaimController_Reconcile_ReclaimFound` behind a client whose
second call, the fetch of the Claim, fails with `timeoutError`. -/
def claimFetchFailingClient : Client :=
  { store := { reclaims := [foundRecord], pvcs := [foundClaim], pvs := [foundVolume] }
    faults := fun i => if i = 1 then some timeoutError else none }

/-- A record `default/data-1` indexed under the Volume `test-pv`. -/
def routedRecord : PVCReclaim :=
  { ObjectMeta :=
      { Name := "data-1", Namespace := "default", Labels := some [(reclaimPVLabel, "test-pv")] }
    Spec := { PersistentVolumeRef := some testVolumeRef } }

/-- A record `default/data-2` indexed under another Volume. -/
def unroutedRecord : PVCReclaim :=
  { ObjectMeta :=
      { Name := "data-2", Namespace := "default", Labels := some [(reclaimPVLabel, "other-pv")] }
    Spec :=
      { PersistentVolumeRef := some
          { Kind := "PersistentVolume", APIVersion := "v1", Name := "other-pv" } } }

/-- A record `archive/data-1`, in another namespace, indexed under the Volume `test-pv`
and carrying a further label. -/
def archivedRecord : PVCReclaim :=
  { ObjectMeta :=
      { Name := "data-1", Namespace := "archive"
        Labels := some [("app", "db"), (reclaimPVLabel, "test-pv")] }
    Spec := { PersistentVolumeRef := some testVolumeRef } }

/-- A store with the three records and the Released Volume `test-pv`. -/
def routedClient : Client :=
  { store :=
      { reclaims := [routedRecord, unroutedRecord, archivedRecord], pvs := [releasedVolume] } }

/-- The Claim of `TestPVCReclaimController_Reconcile_ReclaimFound` with a label and an
annotation of its own. -/
def goldClaim : PersistentVolumeClaim :=
  { ObjectMeta :=
      { Name := "test-reclaim", Namespace := "default", UID := "test-pvc-uid"
        Labels := some [("tier", "gold")]
        Annotations := some [("owner", "team-a")] }
    Spec := { VolumeName := "test-reclaim-pv" }
    Status := { Phase := ClaimBound } }

/-- A store with that Claim, its Volume, and the record of
`TestPVCReclaimController_Reconcile_ReclaimFound`, which has no labels. -/
def goldClient : Client :=
  { store := { reclaims := [foundRecord], pvcs := [goldClaim], pvs := [foundVolume] } }

/-- A version conflict, as the store answers a write against a stale object. -/
def conflictError : APIError :=
  { Reason := StatusReason.Conflict, Message := "the object has been modified" }

/-- The labelled Claim and its Volume behind a client whose fifth call, the update of
the record just created, meets a version conflict. -/
def conflictingClient : Client :=
  { store := { pvcs := [labelledClaim], pvs := [mirrorVolume] }
    faults := fun i => if i = 4 then some conflictError else none }

/-- The restore test behind a client whose fourth call, the first status patch of the
record, meets a version conflict. -/
def conflictingRestoreClient : Client :=
  { store := { reclaims := [restoreRecord], pvs := [releasedVolume] }
    faults := fun i => if i = 3 then some conflictError else none }

/-! ## Properties of runs -/

/-- The fields of a record that are fixed at its creation, `volumeRef` and `claimSpec`,
are the same in `b` as in `a`. -/
def sameFrozen (a b : PVCReclaim) : Prop :=
  b.Spec.PersistentVolumeRef = a.Spec.PersistentVolumeRef ∧
  b.Spec.PersistentVolumeClaimSpec = a.Spec.PersistentVolumeClaimSpec

/-- Every record of `s` is still in `s'`, under its identity, with the same `volumeRef`
and `claimSpec`. -/
def Keeps (s s' : Store) : Prop :=
  ∀ key r, s.reclaim? key = some r → ∃ r', s'.reclaim? key = some r' ∧ sameFrozen r r'

/-- Every record of `s` whose identity still has a record in `s'` has the same
`volumeRef` and `claimSpec` there. -/
def KeepsFound (s s' : Store) : Prop :=
  ∀ key r r', s.reclaim? key = some r → s'.reclaim? key = some r' → sameFrozen r r'

/-- The record variable `m` of a reconciler agrees, in `volumeRef` and `claimSpec`,
with the record that `s` stores under the identity of `m`. -/
def Tracks (m : PVCReclaim) (s : Store) : Prop :=
  ∀ old, s.reclaim? (keyOf m.ObjectMeta) = some old → sameFrozen old m

/-- A Bound Claim `default/test-pvc` that was re-bound: it names the Volume `new-pv` and
asks for more storage than the record of it holds. -/
def driftedClaim : PersistentVolumeClaim :=
  { ObjectMeta := { Name := "test-pvc", Namespace := "default", Labels := some [("app", "db")] }
    Spec := { VolumeName := "new-pv", Storage := "2Gi" }
    Status := { Phase := ClaimBound } }

/-- The Volume `new-pv`. -/
def newVolume : PersistentVolume :=
  { ObjectMeta := { Name := "new-pv" } }

/-- The record of `default/test-pvc` made when the Claim was bound to `test-pv`, with a
restore requested since. -/
def driftedRecord : PVCReclaim :=
  { ObjectMeta :=
      { Name := "test-pvc", Namespace := "default", UID := "uid-7"
        Labels := some [(reclaimPVLabel, "test-pv")] }
    Spec :=
      { PersistentVolumeRef := some testVolumeRef
        PersistentVolumeClaimSpec := { VolumeName := "test-pv", Storage := "1Gi" }
        Restore := true } }

/-- A store with the re-bound Claim, both Volumes and the older record. -/
def driftedClient : Client :=
  { store :=
      { pvcs := [driftedClaim], pvs := [mirrorVolume, newVolume], reclaims := [driftedRecord] } }

/-- Is the call a `get`? -/
def Call.isGet : Call → Bool
  | Call.GetPVC _ => true
  | Call.GetPV _ => true
  | Call.GetReclaim _ => true
  | _ => false

/-- Is the call a `create`? -/
def Call.isCreate : Call → Bool
  | Call.CreateReclaim _ => true
  | Call.CreatePVC _ => true
  | _ => false

/-- A failure of a call that a reconciler may pass over: a not-found answer to a `get`,
an already-exists answer to a `create`.  Every other failure is an unexpected one. -/
def expectedFailure (e : Call) (err : APIError) : Bool :=
  (e.isGet && decide (err.Reason = StatusReason.NotFound)) ||
    (e.isCreate && decide (err.Reason = StatusReason.AlreadyExists))

/-- The part of a run that leads from the client `c` to the client `c'` made the calls
`made`, one fault slot each, and every fault injected into one of them was an expected
failure of that call. -/
def QuietRun (c c' : Client) : Prop :=
  ∃ made : List Call, c'.log = c.log ++ made ∧
    (∀ i, c'.faults i = c.faults (made.length + i)) ∧
    ∀ i e err, made[i]? = some e → c.faults i = some err → expectedFailure e err = true

/-! ## Lemmas on the client and the store -/

theorem call_free {α : Type} (s : Store) (f : Nat → Option APIError) (lg : List Call)
    (e : Call) (op : Store → Except APIError α × Store) (hf : f 0 = none) :
    Client.call { store := s, faults := f, log := lg } e op =
      ((op s).1, { store := (op s).2, faults := fun i => f (i + 1), log := lg ++ [e] }) := by
  simp [Client.call, hf]

theorem call_fault {α : Type} (s : Store) (f : Nat → Option APIError) (lg : List Call)
    (e : Call) (op : Store → Except APIError α × Store) (err : APIError)
    (hf : f 0 = some err) :
    Client.call { store := s, faults := f, log := lg } e op =
      (Except.error err, { store := s, faults := fun i => f (i + 1), log := lg ++ [e] }) := by
  simp [Client.call, hf]

theorem patchField_stored {α : Type} [DecidableEq α] (b m : α) : patchField b m b = m := by
  unfold patchField
  split <;> simp_all

theorem patchField_unchanged {α : Type} [DecidableEq α] (b s : α) : patchField b b s = s := by
  simp [patchField]

theorem patchRef_unchanged (b s : Option ObjectReference) : patchRef b b s = s := by
  simp [patchRef]

theorem patchClaimSpec_unchanged (b s : PersistentVolumeClaimSpec) :
    patchClaimSpec b b s = s := by
  simp [patchClaimSpec, patchField_unchanged]

theorem hasKey_keyOf (m : ObjectMeta) : hasKey m (keyOf m) = true := by
  simp [hasKey, keyOf]

theorem keyOf_of_hasKey {m : ObjectMeta} {key : NamespacedName} (h : hasKey m key = true) :
    keyOf m = key := by
  cases key
  simp [hasKey] at h
  simp [keyOf, h.1, h.2]

theorem hasKey_iff (m : ObjectMeta) (key : NamespacedName) :
    hasKey m key = true ↔ keyOf m = key :=
  ⟨keyOf_of_hasKey, fun h => h ▸ hasKey_keyOf m⟩

theorem keyOf_encodeMeta (m : ObjectMeta) : keyOf (encodeMeta m) = keyOf m := rfl

theorem keyOf_patchMeta (b m s : ObjectMeta) : keyOf (patchMeta b m s) = keyOf s := rfl

theorem reclaim?_key {s : Store} {key : NamespacedName} {r : PVCReclaim}
    (h : s.reclaim? key = some r) : keyOf r.ObjectMeta = key :=
  keyOf_of_hasKey (by simpa using List.find?_some h)

theorem pvc?_key {s : Store} {key : NamespacedName} {o : PersistentVolumeClaim}
    (h : s.pvc? key = some o) : keyOf o.ObjectMeta = key :=
  keyOf_of_hasKey (by simpa using List.find?_some h)

theorem pv?_name {s : Store} {name : String} {o : PersistentVolume}
    (h : s.pv? name = some o) : o.ObjectMeta.Name = name := by
  simpa using List.find?_some h

theorem find?_replace_same {α : Type} (p : α → Bool) (o : α) (hp : p o = true) :
    ∀ (l : List α) (x : α), l.find? p = some x →
      (l.map (fun y => if p y then o else y)).find? p = some o
  | [], _, h => by simp at h
  | a :: t, x, h => by
    by_cases ha : p a = true
    · simp [List.find?, ha, hp]
    · simp only [Bool.not_eq_true] at ha
      simp only [List.find?, ha] at h
      simp [List.find?, ha, find?_replace_same p o hp t x h]

theorem find?_replace_other {α : Type} (p q : α → Bool) (o : α) (hq : q o = false)
    (hpq : ∀ y, p y = true → q y = false) :
    ∀ l : List α, (l.map (fun y => if p y then o else y)).find? q = l.find? q
  | [] => rfl
  | a :: t => by
    by_cases ha : p a = true
    · simp [List.find?, ha, hq, hpq a ha, find?_replace_other p q o hq hpq t]
    · simp only [Bool.not_eq_true] at ha
      simp [List.find?, ha, find?_replace_other p q o hq hpq t]

theorem find?_remove_same {α : Type} (p : α → Bool) (l : List α) :
    (l.filter (fun y => !p y)).find? p = none := by
  simp [List.find?_eq_none, List.mem_filter]

theorem find?_remove_other {α : Type} (p q : α → Bool) (hpq : ∀ y, q y = true → p y = false) :
    ∀ l : List α, (l.filter (fun y => !p y)).find? q = l.find? q
  | [] => rfl
  | a :: t => by
    by_cases ha : p a = true
    · have hqa : q a = false := by
        cases hq : q a
        · rfl
        · simp [hpq a hq] at ha
      simp [List.filter, List.find?, ha, hqa, find?_remove_other p q hpq t]
    · simp only [Bool.not_eq_true] at ha
      cases hq : q a <;> simp [List.filter, List.find?, ha, hq, find?_remove_other p q hpq t]

theorem reclaim?_putReclaim_same {s : Store} {key : NamespacedName} {old o : PVCReclaim}
    (h : s.reclaim? key = some old) (ho : keyOf o.ObjectMeta = key) :
    (s.putReclaim key o).reclaim? key = some o :=
  find?_replace_same (fun x : PVCReclaim => hasKey x.ObjectMeta key) o
    ((hasKey_iff _ _).2 ho) _ _ h

theorem hasKey_other {m : ObjectMeta} {key key' : NamespacedName} (h : keyOf m = key)
    (hne : key' ≠ key) : hasKey m key' = false := by
  cases h' : hasKey m key'
  · rfl
  · exact absurd ((keyOf_of_hasKey h').symm.trans h) hne

theorem reclaim?_putReclaim_other {s : Store} {key key' : NamespacedName} {o : PVCReclaim}
    (ho : keyOf o.ObjectMeta = key) (hne : key' ≠ key) :
    (s.putReclaim key o).reclaim? key' = s.reclaim? key' :=
  find?_replace_other (fun x : PVCReclaim => hasKey x.ObjectMeta key)
    (fun x : PVCReclaim => hasKey x.ObjectMeta key') o (hasKey_other ho hne)
    (fun _ hy => hasKey_other (keyOf_of_hasKey hy) hne) _

theorem reclaim?_dropReclaim_same (s : Store) (key : NamespacedName) :
    (s.dropReclaim key).reclaim? key = none :=
  find?_remove_same (fun x : PVCReclaim => hasKey x.ObjectMeta key) _

theorem reclaim?_dropReclaim_other {s : Store} {key key' : NamespacedName} (hne : key' ≠ key) :
    (s.dropReclaim key).reclaim? key' = s.reclaim? key' :=
  find?_remove_other (fun x : PVCReclaim => hasKey x.ObjectMeta key)
    (fun x : PVCReclaim => hasKey x.ObjectMeta key')
    (fun _ hy => hasKey_other (keyOf_of_hasKey hy) (Ne.symm hne)) _


theorem find?_append_new {α : Type} (p : α → Bool) (o : α) (hp : p o = true) (l : List α)
    (h : l.find? p = none) : (l ++ [o]).find? p = some o := by
  simp [List.find?_append, h, List.find?, hp]

theorem find?_append_other {α : Type} (p : α → Bool) (o : α) (hp : p o = false) (l : List α) :
    (l ++ [o]).find? p = l.find? p := by
  simp [List.find?_append, List.find?, hp]

@[simp] theorem pvc?_putReclaim (s : Store) (key k : NamespacedName) (o : PVCReclaim) :
    (s.putReclaim key o).pvc? k = s.pvc? k := rfl

@[simp] theorem pv?_putReclaim (s : Store) (key : NamespacedName) (o : PVCReclaim) (k : String) :
    (s.putReclaim key o).pv? k = s.pv? k := rfl

@[simp] theorem pvc?_dropReclaim (s : Store) (key k : NamespacedName) :
    (s.dropReclaim key).pvc? k = s.pvc? k := rfl

@[simp] theorem pv?_dropReclaim (s : Store) (key : NamespacedName) (k : String) :
    (s.dropReclaim key).pv? k = s.pv? k := rfl

@[simp] theorem reclaim?_putPVC (s : Store) (key k : NamespacedName) (o : PersistentVolumeClaim) :
    (s.putPVC key o).reclaim? k = s.reclaim? k := rfl

@[simp] theorem pv?_putPVC (s : Store) (key : NamespacedName) (o : PersistentVolumeClaim)
    (k : String) : (s.putPVC key o).pv? k = s.pv? k := rfl

@[simp] theorem reclaim?_putPV (s : Store) (name : String) (k : NamespacedName)
    (o : PersistentVolume) : (s.putPV name o).reclaim? k = s.reclaim? k := rfl

@[simp] theorem pvc?_putPV (s : Store) (name : String) (k : NamespacedName)
    (o : PersistentVolume) : (s.putPV name o).pvc? k = s.pvc? k := rfl

@[simp] theorem reclaim?_addPVC (s : Store) (k : NamespacedName) (o : PersistentVolumeClaim) :
    (s.addPVC o).reclaim? k = s.reclaim? k := rfl

@[simp] theorem pv?_addPVC (s : Store) (o : PersistentVolumeClaim) (k : String) :
    (s.addPVC o).pv? k = s.pv? k := rfl

@[simp] theorem pvc?_addReclaim (s : Store) (k : NamespacedName) (o : PVCReclaim) :
    (s.addReclaim o).pvc? k = s.pvc? k := rfl

@[simp] theorem pv?_addReclaim (s : Store) (o : PVCReclaim) (k : String) :
    (s.addReclaim o).pv? k = s.pv? k := rfl

theorem pvc?_putPVC_same {s : Store} {key : NamespacedName} {old o : PersistentVolumeClaim}
    (h : s.pvc? key = some old) (ho : keyOf o.ObjectMeta = key) :
    (s.putPVC key o).pvc? key = some o :=
  find?_replace_same (fun x : PersistentVolumeClaim => hasKey x.ObjectMeta key) o
    ((hasKey_iff _ _).2 ho) _ _ h

theorem pvc?_putPVC_other {s : Store} {key key' : NamespacedName} {o : PersistentVolumeClaim}
    (ho : keyOf o.ObjectMeta = key) (hne : key' ≠ key) :
    (s.putPVC key o).pvc? key' = s.pvc? key' :=
  find?_replace_other (fun x : PersistentVolumeClaim => hasKey x.ObjectMeta key)
    (fun x : PersistentVolumeClaim => hasKey x.ObjectMeta key') o (hasKey_other ho hne)
    (fun _ hy => hasKey_other (keyOf_of_hasKey hy) hne) _

theorem pv?_putPV_same {s : Store} {name : String} {old o : PersistentVolume}
    (h : s.pv? name = some old) (ho : o.ObjectMeta.Name = name) :
    (s.putPV name o).pv? name = some o :=
  find?_replace_same (fun x : PersistentVolume => decide (x.ObjectMeta.Name = name)) o
    (by simp [ho]) _ _ h

theorem pv?_putPV_other {s : Store} {name name' : String} {o : PersistentVolume}
    (ho : o.ObjectMeta.Name = name) (hne : name' ≠ name) :
    (s.putPV name o).pv? name' = s.pv? name' :=
  find?_replace_other (fun x : PersistentVolume => decide (x.ObjectMeta.Name = name))
    (fun x : PersistentVolume => decide (x.ObjectMeta.Name = name')) o
    (by simp [ho, Ne.symm hne])
    (fun y hy => by
      have : y.ObjectMeta.Name = name := by simpa using hy
      simp [this, Ne.symm hne]) _

theorem pvc?_addPVC_same {s : Store} {key : NamespacedName} {o : PersistentVolumeClaim}
    (h : s.pvc? key = none) (ho : keyOf o.ObjectMeta = key) :
    (s.addPVC o).pvc? key = some o :=
  find?_append_new (fun x : PersistentVolumeClaim => hasKey x.ObjectMeta key) o
    ((hasKey_iff _ _).2 ho) _ h

theorem pvc?_addPVC_other {s : Store} {key key' : NamespacedName} {o : PersistentVolumeClaim}
    (ho : keyOf o.ObjectMeta = key) (hne : key' ≠ key) :
    (s.addPVC o).pvc? key' = s.pvc? key' :=
  find?_append_other (fun x : PersistentVolumeClaim => hasKey x.ObjectMeta key') o
    (hasKey_other ho hne) _

theorem reclaim?_addReclaim_same {s : Store} {key : NamespacedName} {o : PVCReclaim}
    (h : s.reclaim? key = none) (ho : keyOf o.ObjectMeta = key) :
    (s.addReclaim o).reclaim? key = some o :=
  find?_append_new (fun x : PVCReclaim => hasKey x.ObjectMeta key) o
    ((hasKey_iff _ _).2 ho) _ h

theorem reclaim?_addReclaim_other {s : Store} {key key' : NamespacedName} {o : PVCReclaim}
    (ho : keyOf o.ObjectMeta = key) (hne : key' ≠ key) :
    (s.addReclaim o).reclaim? key' = s.reclaim? key' :=
  find?_append_other (fun x : PVCReclaim => hasKey x.ObjectMeta key') o
    (hasKey_other ho hne) _

/-! ### Store operations on a state that holds (or lacks) the object -/

theorem getReclaim_found {s : Store} {key : NamespacedName} {r : PVCReclaim}
    (h : s.reclaim? key = some r) :
    Store.getReclaim key s = (Except.ok (decodeReclaim r), s) := by
  simp [Store.getReclaim, h]

theorem getReclaim_missing {s : Store} {key : NamespacedName} (h : s.reclaim? key = none) :
    Store.getReclaim key s = (Except.error (errNotFound "pvcreclaims" key.Name), s) := by
  simp [Store.getReclaim, h]

theorem getPVC_found {s : Store} {key : NamespacedName} {o : PersistentVolumeClaim}
    (h : s.pvc? key = some o) : Store.getPVC key s = (Except.ok (decodePVC o), s) := by
  simp [Store.getPVC, h]

theorem getPVC_missing {s : Store} {key : NamespacedName} (h : s.pvc? key = none) :
    Store.getPVC key s =
      (Except.error (errNotFound "persistentvolumeclaims" key.Name), s) := by
  simp [Store.getPVC, h]

theorem getPV_found {s : Store} {name : String} {o : PersistentVolume}
    (h : s.pv? name = some o) : Store.getPV name s = (Except.ok (decodePV o), s) := by
  simp [Store.getPV, h]

theorem getPV_missing {s : Store} {name : String} (h : s.pv? name = none) :
    Store.getPV name s = (Except.error (errNotFound "persistentvolumes" name), s) := by
  simp [Store.getPV, h]

theorem patchReclaim_found {s : Store} {key : NamespacedName} (base obj : PVCReclaim)
    {old : PVCReclaim}
    (hk : keyOf obj.ObjectMeta = key) (h : s.reclaim? key = some old) :
    Store.patchReclaim base obj s =
      (Except.ok (patchReclaimObject base obj old),
        s.putReclaim key (patchReclaimObject base obj old)) := by
  simp [Store.patchReclaim, hk, h]

theorem statusPatchReclaim_found {s : Store} {key : NamespacedName} (base obj : PVCReclaim)
    {old : PVCReclaim}
    (hk : keyOf obj.ObjectMeta = key) (h : s.reclaim? key = some old) :
    Store.statusPatchReclaim base obj s =
      (Except.ok (decodeReclaim (patchReclaimStatus base obj old)),
        s.putReclaim key (patchReclaimStatus base obj old)) := by
  simp [Store.statusPatchReclaim, hk, h]

theorem updateReclaim_found {s : Store} {key : NamespacedName} (obj : PVCReclaim)
    {old : PVCReclaim}
    (hk : keyOf obj.ObjectMeta = key) (h : s.reclaim? key = some old) :
    Store.updateReclaim obj s =
      (Except.ok (storedReclaim obj old.ObjectMeta.UID old.Status),
        s.putReclaim key (storedReclaim obj old.ObjectMeta.UID old.Status)) := by
  simp [Store.updateReclaim, hk, h]

theorem createReclaim_new {s : Store} {key : NamespacedName} (obj : PVCReclaim)
    (hk : keyOf obj.ObjectMeta = key) (h : s.reclaim? key = none) :
    Store.createReclaim obj s =
      (Except.ok (storedReclaim obj (newUID s.uids) {}),
        s.addReclaim (storedReclaim obj (newUID s.uids) {})) := by
  simp [Store.createReclaim, hk, h]

theorem deleteReclaim_found {s : Store} {key : NamespacedName} (obj : PVCReclaim)
    {old : PVCReclaim}
    (hk : keyOf obj.ObjectMeta = key) (h : s.reclaim? key = some old) :
    Store.deleteReclaim obj s = (Except.ok (), s.dropReclaim key) := by
  simp [Store.deleteReclaim, hk, h]

theorem createPVC_new {s : Store} {key : NamespacedName} (obj : PersistentVolumeClaim)
    (hk : keyOf obj.ObjectMeta = key) (h : s.pvc? key = none) :
    Store.createPVC obj s =
      (Except.ok (storedPVC obj (newUID s.uids)), s.addPVC (storedPVC obj (newUID s.uids))) := by
  simp [Store.createPVC, hk, h]

theorem statusPatchPVC_found {s : Store} {key : NamespacedName}
    (base obj : PersistentVolumeClaim) {old : PersistentVolumeClaim}
    (hk : keyOf obj.ObjectMeta = key) (h : s.pvc? key = some old) :
    Store.statusPatchPVC base obj s =
      (Except.ok (decodePVC (patchClaimStatus base obj old)),
        s.putPVC key (patchClaimStatus base obj old)) := by
  simp [Store.statusPatchPVC, hk, h]

theorem patchPV_found {s : Store} {n : String} (base obj : PersistentVolume)
    {old : PersistentVolume}
    (hk : obj.ObjectMeta.Name = n) (h : s.pv? n = some old) :
    Store.patchPV base obj s =
      (Except.ok (patchVolumeObject base obj old),
        s.putPV n (patchVolumeObject base obj old)) := by
  simp [Store.patchPV, hk, h]

theorem foldl_keep {α β : Type} (f : β → α → β) (l : List α) (b : β)
    (h : ∀ acc a, a ∈ l → f acc a = acc) : l.foldl f b = b := by
  induction l generalizing b with
  | nil => rfl
  | cons a t ih =>
    simp only [List.foldl_cons]
    rw [h b a (List.mem_cons_self a t)]
    exact ih b (fun acc x hx => h acc x (List.mem_cons_of_mem a hx))

theorem patchMap_unchanged (b s : StrMap) : patchMap b b s = omitEmpty s := by
  unfold patchMap
  rw [foldl_keep _ _ _ (fun acc a _ => by simp)]
  cases s with
  | none => rfl
  | some l => rfl

theorem patchMeta_unchanged (b s : ObjectMeta) : patchMeta b b s = encodeMeta s := by
  simp [patchMeta, encodeMeta, patchMap_unchanged]

theorem omitEmpty_idem (m : StrMap) : omitEmpty (omitEmpty m) = omitEmpty m := by
  rcases m with _ | ⟨_ | _⟩ <;> rfl

theorem encodeMeta_idem (m : ObjectMeta) : encodeMeta (encodeMeta m) = encodeMeta m := by
  simp [encodeMeta, omitEmpty_idem]

/-! ### Objects after a patch against their own base -/

theorem patchReclaimStatus_stored (b : PVCReclaim) (st : PVCReclaimStatus) :
    patchReclaimStatus b (withStatus b st) b = withStatus b st := by
  simp [patchReclaimStatus, withStatus, patchField_stored]

theorem patchReclaimObject_clearRestore (r : PVCReclaim) :
    patchReclaimObject (decodeReclaim r) (clearRestore (decodeReclaim r)) r =
      clearRestore (decodeReclaim r) := by
  simp [patchReclaimObject, clearRestore, decodeReclaim, patchMeta_unchanged,
    patchRef_unchanged, patchClaimSpec_unchanged, patchField_stored]

theorem decodeReclaim_idem (r : PVCReclaim) :
    decodeReclaim (decodeReclaim r) = decodeReclaim r := by
  simp [decodeReclaim, encodeMeta_idem]

/-! ### Paths of the Reclaim Reconciler -/

theorem Reconcile_of_record {s : Store} {f : Nat → Option APIError} {lg : List Call}
    {req : Request} {r : PVCReclaim} (hf0 : f 0 = none) (hf1 : f 1 = none)
    (hr : s.reclaim? req.NamespacedName = some r) :
    PVCReclaimController.Reconcile req { store := s, faults := f, log := lg } =
      PVCReclaimController.reconcileRecord (decodeReclaim r)
        { store := s, faults := fun i => f (i + 1 + 1),
          log := lg ++ [Call.GetReclaim req.NamespacedName] ++
            [Call.GetPVC req.NamespacedName] } := by
  have hf1' : (fun i => f (i + 1)) 0 = none := hf1
  cases hc : s.pvc? req.NamespacedName <;>
    simp [PVCReclaimController.Reconcile, call_free _ _ _ _ _ hf0,
      call_free _ (fun i => f (i + 1)) _ _ _ hf1',
      getReclaim_found hr, IsNotFound, getPVC_found, getPVC_missing, hc, errNotFound]

theorem reconcileRecord_notReleased {s : Store} {f : Nat → Option APIError} {lg : List Call}
    {r : PVCReclaim} {volumeRef : ObjectReference} {pv : PersistentVolume}
    (hf : f 0 = none)
    (href : r.Spec.PersistentVolumeRef = some volumeRef)
    (hpv : s.pv? volumeRef.Name = some pv)
    (hrestore : r.Spec.Restore = true)
    (hphase : pv.Status.Phase ≠ VolumeReleased) :
    PVCReclaimController.reconcileRecord (decodeReclaim r)
        { store := s, faults := f, log := lg } =
      PVCReclaimController.rejectRestore (decodeReclaim r) (decodePV pv)
        { store := s, faults := fun i => f (i + 1), log := lg ++ [Call.GetPV volumeRef.Name] } := by
  have href' : (decodeReclaim r).Spec.PersistentVolumeRef = some volumeRef := href
  have hrestore' : (decodeReclaim r).Spec.Restore = true := hrestore
  have hphase' : (decodePV pv).Status.Phase ≠ VolumeReleased := hphase
  unfold PVCReclaimController.reconcileRecord
  simp only [href', call_free _ _ _ _ _ hf, getPV_found hpv, hrestore']
  simp [hphase']

theorem reconcileRecord_released {s : Store} {f : Nat → Option APIError} {lg : List Call}
    {r : PVCReclaim} {volumeRef : ObjectReference} {pv : PersistentVolume}
    (hf : f 0 = none)
    (href : r.Spec.PersistentVolumeRef = some volumeRef)
    (hpv : s.pv? volumeRef.Name = some pv)
    (hrestore : r.Spec.Restore = true)
    (hphase : pv.Status.Phase = VolumeReleased) :
    PVCReclaimController.reconcileRecord (decodeReclaim r)
        { store := s, faults := f, log := lg } =
      PVCReclaimController.restore (decodeReclaim r) (decodePV pv)
        { store := s, faults := fun i => f (i + 1), log := lg ++ [Call.GetPV volumeRef.Name] } := by
  have href' : (decodeReclaim r).Spec.PersistentVolumeRef = some volumeRef := href
  have hrestore' : (decodeReclaim r).Spec.Restore = true := hrestore
  have hphase' : (decodePV pv).Status.Phase = VolumeReleased := hphase
  unfold PVCReclaimController.reconcileRecord
  simp only [href', call_free _ _ _ _ _ hf, getPV_found hpv, hrestore']
  simp [hphase']

theorem rejectRestore_run {s : Store} {f : Nat → Option APIError} {lg : List Call}
    {key : NamespacedName} {r : PVCReclaim} (pv : PersistentVolume)
    (hf0 : f 0 = none) (hf1 : f 1 = none) (hr : s.reclaim? key = some r) :
    PVCReclaimController.rejectRestore (decodeReclaim r) pv
        { store := s, faults := f, log := lg } =
      (Outcome.returned none,
        { store := (s.putReclaim key (clearRestore (decodeReclaim r))).putReclaim key
            (withStatus (clearRestore (decodeReclaim r))
              (notReleasedStatus (clearRestore (decodeReclaim r)) pv))
          faults := fun i => f (i + 1 + 1)
          log := lg ++ [Call.PatchReclaim (decodeReclaim r) (clearRestore (decodeReclaim r))] ++
            [Call.StatusPatchReclaim (clearRestore (decodeReclaim r))
              (withStatus (clearRestore (decodeReclaim r))
                (notReleasedStatus (clearRestore (decodeReclaim r)) pv))] }) := by
  have hk : keyOf r.ObjectMeta = key := reclaim?_key hr
  have h1 : (s.putReclaim key (clearRestore (decodeReclaim r))).reclaim? key =
      some (clearRestore (decodeReclaim r)) := reclaim?_putReclaim_same hr hk
  have hf1' : (fun i => f (i + 1)) 0 = none := hf1
  unfold PVCReclaimController.rejectRestore
  rw [call_free _ _ _ _ _ hf0, patchReclaim_found _ (clearRestore (decodeReclaim r)) hk hr,
    patchReclaimObject_clearRestore]
  simp only []
  rw [call_free _ (fun i => f (i + 1)) _ _ _ hf1', statusPatchReclaim_found _
    (withStatus (clearRestore (decodeReclaim r)) _) hk h1, patchReclaimStatus_stored]

theorem patchRef_stored (b m : Option ObjectReference) : patchRef b m b = m := by
  unfold patchRef
  by_cases h : m = b
  · simp [h]
  · cases m with
    | none => simp [h]
    | some m' => simp [h, patchField_stored]

theorem patchReclaimStatus_of_status {b s : PVCReclaim} (h : b.Status = s.Status)
    (st : PVCReclaimStatus) : patchReclaimStatus b (withStatus b st) s = withStatus s st := by
  simp [patchReclaimStatus, withStatus, h, patchField_stored]

theorem restore_step {s : Store} {f : Nat → Option APIError} {lg : List Call}
    {key : NamespacedName} {r : PVCReclaim} (pv : PersistentVolume)
    (hf : f 0 = none) (hr : s.reclaim? key = some r) :
    PVCReclaimController.restore (decodeReclaim r) pv
        { store := s, faults := f, log := lg } =
      PVCReclaimController.recreate
        (withStatus (decodeReclaim r) (inProgressStatus (decodeReclaim r) pv)) pv
        { store := s.putReclaim key (withStatus r (inProgressStatus (decodeReclaim r) pv))
          faults := fun i => f (i + 1)
          log := lg ++ [Call.StatusPatchReclaim (decodeReclaim r)
            (withStatus (decodeReclaim r) (inProgressStatus (decodeReclaim r) pv))] } := by
  have hk : keyOf r.ObjectMeta = key := reclaim?_key hr
  unfold PVCReclaimController.restore
  rw [call_free _ _ _ _ _ hf, statusPatchReclaim_found _ (withStatus (decodeReclaim r) _) hk hr,
    patchReclaimStatus_of_status (b := decodeReclaim r) (s := r) rfl]
  rfl

theorem recreate_new {s : Store} {f : Nat → Option APIError} {lg : List Call}
    {key : NamespacedName} (m : PVCReclaim) (pv : PersistentVolume)
    (hf : f 0 = none) (hk : keyOf m.ObjectMeta = key) (hc : s.pvc? key = none) :
    PVCReclaimController.recreate m pv { store := s, faults := f, log := lg } =
      PVCReclaimController.rebind (withLabels m (recreatedClaim m).ObjectMeta.Labels) pv
        (storedPVC (recreatedClaim m) (newUID s.uids))
        { store := s.addPVC (storedPVC (recreatedClaim m) (newUID s.uids))
          faults := fun i => f (i + 1)
          log := lg ++ [Call.CreatePVC (recreatedClaim m)] } := by
  unfold PVCReclaimController.recreate
  rw [call_free _ _ _ _ _ hf, createPVC_new (recreatedClaim m) hk hc]

theorem rebind_step {s : Store} {f : Nat → Option APIError} {lg : List Call}
    {key : NamespacedName} (m : PVCReclaim) (pv : PersistentVolume)
    (pvc : PersistentVolumeClaim) {old : PersistentVolumeClaim}
    (hf0 : f 0 = none) (hf1 : f 1 = none)
    (hkm : keyOf m.ObjectMeta = key) (hkp : keyOf pvc.ObjectMeta = key)
    (hold : s.pvc? key = some old) :
    PVCReclaimController.rebind m pv pvc { store := s, faults := f, log := lg } =
      PVCReclaimController.patchVolume m pv
        (decodePVC (patchClaimStatus pvc (withBoundPhase pvc) old))
        { store := s.putPVC key (patchClaimStatus pvc (withBoundPhase pvc) old)
          faults := fun i => f (i + 1 + 1)
          log := lg ++ [Call.StatusPatchPVC pvc (withBoundPhase pvc)] ++ [Call.GetPVC key] } := by
  have hko : keyOf (patchClaimStatus pvc (withBoundPhase pvc) old).ObjectMeta = key :=
    (pvc?_key hold : keyOf old.ObjectMeta = key)
  have h1 := pvc?_putPVC_same hold hko
  have hf1' : (fun i => f (i + 1)) 0 = none := hf1
  unfold PVCReclaimController.rebind
  rw [call_free _ _ _ _ _ hf0, statusPatchPVC_found pvc (withBoundPhase pvc) hkp hold]
  simp only [hkm]
  rw [call_free _ (fun i => f (i + 1)) _ _ _ hf1', getPVC_found h1]

theorem patchVolume_run {s : Store} {f : Nat → Option APIError} {lg : List Call}
    {key : NamespacedName} (m : PVCReclaim) (pv : PersistentVolume)
    (pvc : PersistentVolumeClaim) {claimRef : ObjectReference} {old : PersistentVolume}
    {r : PVCReclaim}
    (hf0 : f 0 = none) (hf1 : f 1 = none) (hf2 : f 2 = none)
    (hcr : pv.Spec.ClaimRef = some claimRef)
    (hpv : s.pv? pv.ObjectMeta.Name = some old)
    (hkm : keyOf m.ObjectMeta = key) (hr : s.reclaim? key = some r)
    (hst : m.Status = r.Status) :
    PVCReclaimController.patchVolume m pv pvc { store := s, faults := f, log := lg } =
      (Outcome.returned none,
        { store := (((s.putPV pv.ObjectMeta.Name
              (patchVolumeObject pv (reboundVolume pv claimRef pvc.ObjectMeta.UID) old)).putReclaim
              key
              (withStatus r (successStatus m
                (patchVolumeObject pv (reboundVolume pv claimRef pvc.ObjectMeta.UID)
                  old)))).dropReclaim key)
          faults := fun i => f (i + 1 + 1 + 1)
          log := lg ++ [Call.PatchPV pv (reboundVolume pv claimRef pvc.ObjectMeta.UID)] ++
            [Call.StatusPatchReclaim m (withStatus m (successStatus m
              (patchVolumeObject pv (reboundVolume pv claimRef pvc.ObjectMeta.UID) old)))] ++
            [Call.DeleteReclaim (decodeReclaim (withStatus r (successStatus m
              (patchVolumeObject pv (reboundVolume pv claimRef pvc.ObjectMeta.UID)
                old))))] }) := by
  have hkr : keyOf r.ObjectMeta = key := reclaim?_key hr
  have hf1' : (fun i => f (i + 1)) 0 = none := hf1
  have hf2' : (fun i => f (i + 1 + 1)) 0 = none := hf2
  unfold PVCReclaimController.patchVolume
  simp only [hcr]
  rw [call_free _ _ _ _ _ hf0,
    patchPV_found (n := pv.ObjectMeta.Name) pv
      (reboundVolume pv claimRef pvc.ObjectMeta.UID) rfl hpv]
  generalize patchVolumeObject pv (reboundVolume pv claimRef pvc.ObjectMeta.UID) old = pvNew
  have hr1 : (s.putPV pv.ObjectMeta.Name pvNew).reclaim? key = some r := hr
  have hkm1 : keyOf (withStatus m (successStatus m pvNew)).ObjectMeta = key := hkm
  have hkr1 : keyOf (withStatus r (successStatus m pvNew)).ObjectMeta = key := hkr
  have hkr2 : keyOf (decodeReclaim (withStatus r (successStatus m pvNew))).ObjectMeta = key := hkr
  simp only []
  rw [call_free _ (fun i => f (i + 1)) _ _ _ hf1',
    statusPatchReclaim_found m (withStatus m (successStatus m pvNew)) hkm1 hr1,
    patchReclaimStatus_of_status hst]
  simp only []
  rw [call_free _ (fun i => f (i + 1 + 1)) _ _ _ hf2',
    deleteReclaim_found (decodeReclaim (withStatus r (successStatus m pvNew))) hkr2
      (reclaim?_putReclaim_same hr1 hkr1)]

theorem Reconcile_restore_run {s : Store} {f : Nat → Option APIError} {lg : List Call}
    {key : NamespacedName} {r : PVCReclaim} {volumeRef claimRef : ObjectReference}
    {pv : PersistentVolume}
    (hf : ∀ i, i < 10 → f i = none)
    (hr : s.reclaim? key = some r)
    (hrestore : r.Spec.Restore = true)
    (href : r.Spec.PersistentVolumeRef = some volumeRef)
    (hpv : s.pv? volumeRef.Name = some pv)
    (hphase : pv.Status.Phase = VolumeReleased)
    (hcr : pv.Spec.ClaimRef = some claimRef)
    (hc : s.pvc? key = none) :
    PVCReclaimController.Reconcile { NamespacedName := key }
        { store := s, faults := f, log := lg } =
      (Outcome.returned none,
        { store :=
            ((((((s.putReclaim key (withStatus r (inProgressStatus (decodeReclaim r) (decodePV
            pv)))).addPVC (storedPVC (recreatedClaim (withStatus (decodeReclaim r)
            (inProgressStatus (decodeReclaim r) (decodePV pv)))) (newUID s.uids))).putPVC key
            (patchClaimStatus (storedPVC (recreatedClaim (withStatus (decodeReclaim r)
            (inProgressStatus (decodeReclaim r) (decodePV pv)))) (newUID s.uids))
            (withBoundPhase (storedPVC (recreatedClaim (withStatus (decodeReclaim r)
            (inProgressStatus (decodeReclaim r) (decodePV pv)))) (newUID s.uids))) (storedPVC
            (recreatedClaim (withStatus (decodeReclaim r) (inProgressStatus (decodeReclaim r)
            (decodePV pv)))) (newUID s.uids)))).putPV (decodePV pv).ObjectMeta.Name
            (patchVolumeObject (decodePV pv) (reboundVolume (decodePV pv) claimRef (decodePVC
            (patchClaimStatus (storedPVC (recreatedClaim (withStatus (decodeReclaim r)
            (inProgressStatus (decodeReclaim r) (decodePV pv)))) (newUID s.uids))
            (withBoundPhase (storedPVC (recreatedClaim (withStatus (decodeReclaim r)
            (inProgressStatus (decodeReclaim r) (decodePV pv)))) (newUID s.uids))) (storedPVC
            (recreatedClaim (withStatus (decodeReclaim r) (inProgressStatus (decodeReclaim r)
            (decodePV pv)))) (newUID s.uids)))).ObjectMeta.UID) pv)).putReclaim key (withStatus
            (withStatus r (inProgressStatus (decodeReclaim r) (decodePV pv))) (successStatus
            (withLabels (withStatus (decodeReclaim r) (inProgressStatus (decodeReclaim r)
            (decodePV pv))) (recreatedClaim (withStatus (decodeReclaim r) (inProgressStatus
            (decodeReclaim r) (decodePV pv)))).ObjectMeta.Labels) (patchVolumeObject (decodePV
            pv) (reboundVolume (decodePV pv) claimRef (decodePVC (patchClaimStatus (storedPVC
            (recreatedClaim (withStatus (decodeReclaim r) (inProgressStatus (decodeReclaim r)
            (decodePV pv)))) (newUID s.uids)) (withBoundPhase (storedPVC (recreatedClaim
            (withStatus (decodeReclaim r) (inProgressStatus (decodeReclaim r) (decodePV pv))))
            (newUID s.uids))) (storedPVC (recreatedClaim (withStatus (decodeReclaim r)
            (inProgressStatus (decodeReclaim r) (decodePV pv)))) (newUID
            s.uids)))).ObjectMeta.UID) pv)))).dropReclaim key)
          faults := fun i => f (i + 1 + 1 + 1 + 1 + 1 + 1 + 1 + 1 + 1 + 1)
          log :=
            lg ++ [Call.GetReclaim key] ++ [Call.GetPVC key] ++ [Call.GetPV volumeRef.Name] ++
            [Call.StatusPatchReclaim (decodeReclaim r) (withStatus (decodeReclaim r)
            (inProgressStatus (decodeReclaim r) (decodePV pv)))] ++ [Call.CreatePVC
            (recreatedClaim (withStatus (decodeReclaim r) (inProgressStatus (decodeReclaim r)
            (decodePV pv))))] ++ [Call.StatusPatchPVC (storedPVC (recreatedClaim (withStatus
            (decodeReclaim r) (inProgressStatus (decodeReclaim r) (decodePV pv)))) (newUID
            s.uids)) (withBoundPhase (storedPVC (recreatedClaim (withStatus (decodeReclaim r)
            (inProgressStatus (decodeReclaim r) (decodePV pv)))) (newUID s.uids)))] ++
            [Call.GetPVC key] ++ [Call.PatchPV (decodePV pv) (reboundVolume (decodePV pv)
            claimRef (decodePVC (patchClaimStatus (storedPVC (recreatedClaim (withStatus
            (decodeReclaim r) (inProgressStatus (decodeReclaim r) (decodePV pv)))) (newUID
            s.uids)) (withBoundPhase (storedPVC (recreatedClaim (withStatus (decodeReclaim r)
            (inProgressStatus (decodeReclaim r) (decodePV pv)))) (newUID s.uids))) (storedPVC
            (recreatedClaim (withStatus (decodeReclaim r) (inProgressStatus (decodeReclaim r)
            (decodePV pv)))) (newUID s.uids)))).ObjectMeta.UID)] ++ [Call.StatusPatchReclaim
            (withLabels (withStatus (decodeReclaim r) (inProgressStatus (decodeReclaim r)
            (decodePV pv))) (recreatedClaim (withStatus (decodeReclaim r) (inProgressStatus
            (decodeReclaim r) (decodePV pv)))).ObjectMeta.Labels) (withStatus (withLabels
            (withStatus (decodeReclaim r) (inProgressStatus (decodeReclaim r) (decodePV pv)))
            (recreatedClaim (withStatus (decodeReclaim r) (inProgressStatus (decodeReclaim r)
            (decodePV pv)))).ObjectMeta.Labels) (successStatus (withLabels (withStatus
            (decodeReclaim r) (inProgressStatus (decodeReclaim r) (decodePV pv)))
            (recreatedClaim (withStatus (decodeReclaim r) (inProgressStatus (decodeReclaim r)
            (decodePV pv)))).ObjectMeta.Labels) (patchVolumeObject (decodePV pv) (reboundVolume
            (decodePV pv) claimRef (decodePVC (patchClaimStatus (storedPVC (recreatedClaim
            (withStatus (decodeReclaim r) (inProgressStatus (decodeReclaim r) (decodePV pv))))
            (newUID s.uids)) (withBoundPhase (storedPVC (recreatedClaim (withStatus
            (decodeReclaim r) (inProgressStatus (decodeReclaim r) (decodePV pv)))) (newUID
            s.uids))) (storedPVC (recreatedClaim (withStatus (decodeReclaim r)
            (inProgressStatus (decodeReclaim r) (decodePV pv)))) (newUID
            s.uids)))).ObjectMeta.UID) pv)))] ++ [Call.DeleteReclaim (decodeReclaim (withStatus
            (withStatus r (inProgressStatus (decodeReclaim r) (decodePV pv))) (successStatus
            (withLabels (withStatus (decodeReclaim r) (inProgressStatus (decodeReclaim r)
            (decodePV pv))) (recreatedClaim (withStatus (decodeReclaim r) (inProgressStatus
            (decodeReclaim r) (decodePV pv)))).ObjectMeta.Labels) (patchVolumeObject (decodePV
            pv) (reboundVolume (decodePV pv) claimRef (decodePVC (patchClaimStatus (storedPVC
            (recreatedClaim (withStatus (decodeReclaim r) (inProgressStatus (decodeReclaim r)
            (decodePV pv)))) (newUID s.uids)) (withBoundPhase (storedPVC (recreatedClaim
            (withStatus (decodeReclaim r) (inProgressStatus (decodeReclaim r) (decodePV pv))))
            (newUID s.uids))) (storedPVC (recreatedClaim (withStatus (decodeReclaim r)
            (inProgressStatus (decodeReclaim r) (decodePV pv)))) (newUID
            s.uids)))).ObjectMeta.UID) pv))))] }) := by
  have hk : keyOf r.ObjectMeta = key := reclaim?_key hr
  have hn : pv.ObjectMeta.Name = volumeRef.Name := pv?_name hpv
  have hpv' : s.pv? (decodePV pv).ObjectMeta.Name = some pv := by
    rw [show (decodePV pv).ObjectMeta.Name = pv.ObjectMeta.Name from rfl, hn]
    exact hpv
  have hk1 : keyOf (withStatus (decodeReclaim r) (inProgressStatus (decodeReclaim r) (decodePV
    pv))).ObjectMeta = key := hk
  have hk2 : keyOf (withLabels (withStatus (decodeReclaim r) (inProgressStatus (decodeReclaim
    r) (decodePV pv))) (recreatedClaim (withStatus (decodeReclaim r) (inProgressStatus
    (decodeReclaim r) (decodePV pv)))).ObjectMeta.Labels).ObjectMeta = key := hk
  have hkc : keyOf (storedPVC (recreatedClaim (withStatus (decodeReclaim r) (inProgressStatus
    (decodeReclaim r) (decodePV pv)))) (newUID s.uids)).ObjectMeta = key := hk
  have hc1 : (s.putReclaim key (withStatus r (inProgressStatus (decodeReclaim r) (decodePV
    pv)))).pvc? key = none := hc
  rw [Reconcile_of_record (hf 0 (by omega)) (hf 1 (by omega)) hr,
    reconcileRecord_released (hf 2 (by omega)) href hpv hrestore hphase,
    restore_step (decodePV pv) (hf 3 (by omega)) hr,
    recreate_new (withStatus (decodeReclaim r) (inProgressStatus (decodeReclaim r) (decodePV
      pv))) (decodePV pv) (hf 4 (by omega)) hk1 hc1]
  rw [show (s.putReclaim key (withStatus r (inProgressStatus (decodeReclaim r) (decodePV pv)))).uids
    = s.uids from rfl,
    rebind_step (withLabels (withStatus (decodeReclaim r) (inProgressStatus (decodeReclaim r)
      (decodePV pv))) (recreatedClaim (withStatus (decodeReclaim r) (inProgressStatus
      (decodeReclaim r) (decodePV pv)))).ObjectMeta.Labels) (decodePV pv) (storedPVC
      (recreatedClaim (withStatus (decodeReclaim r) (inProgressStatus (decodeReclaim r)
      (decodePV pv)))) (newUID s.uids)) (hf 5 (by omega)) (hf 6 (by omega)) hk2 hkc
      (pvc?_addPVC_same hc1 hkc),
    patchVolume_run (r := (withStatus r (inProgressStatus (decodeReclaim r) (decodePV pv))))
      (withLabels (withStatus (decodeReclaim r) (inProgressStatus (decodeReclaim r) (decodePV
      pv))) (recreatedClaim (withStatus (decodeReclaim r) (inProgressStatus (decodeReclaim r)
      (decodePV pv)))).ObjectMeta.Labels) (decodePV pv) _
      (hf 7 (by omega)) (hf 8 (by omega)) (hf 9 (by omega)) hcr ?_ hk2 ?_ rfl]
  · exact hpv'
  · exact reclaim?_putReclaim_same hr hk

/-! ### The call log -/

theorem call_log {α : Type} (c : Client) (e : Call) (op : Store → Except APIError α × Store) :
    (c.call e op).2.log = c.log ++ [e] := by
  unfold Client.call
  split <;> rfl

theorem call_log_of_eq {α : Type} {c c' : Client} {e : Call}
    {op : Store → Except APIError α × Store} {res : Except APIError α}
    (h : c.call e op = (res, c')) : c'.log = c.log ++ [e] := by
  have := call_log c e op
  rw [h] at this
  exact this

theorem patchVolume_log (m : PVCReclaim) (pv : PersistentVolume) (pvc : PersistentVolumeClaim)
    (c : Client) :
    ∃ l, (PVCReclaimController.patchVolume m pv pvc c).2.log = c.log ++ l ∧
      ∀ o, Call.CreatePVC o ∉ l := by
  unfold PVCReclaimController.patchVolume
  cases pv.Spec.ClaimRef with
  | none => exact ⟨[], by simp, by simp⟩
  | some claimRef =>
    simp only []
    rcases h1 : c.call (Call.PatchPV pv (reboundVolume pv claimRef pvc.ObjectMeta.UID))
      (Store.patchPV pv (reboundVolume pv claimRef pvc.ObjectMeta.UID)) with ⟨res1, c1⟩
    have l1 := call_log_of_eq h1
    cases res1 with
    | error err => exact ⟨[_], l1, by simp⟩
    | ok pv2 =>
      simp only []
      rcases h2 : c1.call (Call.StatusPatchReclaim m (withStatus m (successStatus m pv2)))
        (Store.statusPatchReclaim m (withStatus m (successStatus m pv2))) with ⟨res2, c2⟩
      have l2 := call_log_of_eq h2
      cases res2 with
      | error err => exact ⟨_, by rw [l2, l1, List.append_assoc], by simp⟩
      | ok m2 =>
        simp only []
        rcases h3 : c2.call (Call.DeleteReclaim m2) (Store.deleteReclaim m2) with ⟨res3, c3⟩
        have l3 := call_log_of_eq h3
        cases res3 with
        | error err => exact ⟨_, by rw [l3, l2, l1, List.append_assoc, List.append_assoc], by simp⟩
        | ok u => exact ⟨_, by rw [l3, l2, l1, List.append_assoc, List.append_assoc], by simp⟩

theorem rebind_log (m : PVCReclaim) (pv : PersistentVolume) (pvc : PersistentVolumeClaim)
    (c : Client) :
    ∃ l, (PVCReclaimController.rebind m pv pvc c).2.log = c.log ++ l ∧
      ∀ o, Call.CreatePVC o ∉ l := by
  unfold PVCReclaimController.rebind
  rcases h1 : c.call (Call.StatusPatchPVC pvc (withBoundPhase pvc))
    (Store.statusPatchPVC pvc (withBoundPhase pvc)) with ⟨res1, c1⟩
  have l1 := call_log_of_eq h1
  cases res1 with
  | error err => exact ⟨[_], l1, by simp⟩
  | ok o1 =>
    simp only []
    rcases h2 : c1.call (Call.GetPVC (keyOf m.ObjectMeta))
      (Store.getPVC (keyOf m.ObjectMeta)) with ⟨res2, c2⟩
    have l2 := call_log_of_eq h2
    cases res2 with
    | error err => exact ⟨_, by rw [l2, l1, List.append_assoc], by simp⟩
    | ok pvc2 =>
      simp only []
      obtain ⟨l, hl, hno⟩ := patchVolume_log m pv pvc2 c2
      refine ⟨_, by rw [hl, l2, l1, List.append_assoc, List.append_assoc], ?_⟩
      intro o ho
      simp at ho
      exact hno o ho

theorem recreate_log (m : PVCReclaim) (pv : PersistentVolume) (c : Client) :
    ∃ l, (PVCReclaimController.recreate m pv c).2.log =
        c.log ++ Call.CreatePVC (recreatedClaim m) :: l ∧
      ∀ o, Call.CreatePVC o ∉ l := by
  unfold PVCReclaimController.recreate
  rcases h1 : c.call (Call.CreatePVC (recreatedClaim m))
    (Store.createPVC (recreatedClaim m)) with ⟨res1, c1⟩
  have l1 := call_log_of_eq h1
  cases res1 with
  | ok created =>
    simp only []
    obtain ⟨l, hl, hno⟩ := rebind_log (withLabels m (recreatedClaim m).ObjectMeta.Labels) pv
      created c1
    exact ⟨l, by rw [hl, l1, List.append_assoc]; rfl, hno⟩
  | error err =>
    simp only []
    split
    · rcases h2 : c1.call
        (Call.StatusPatchReclaim (withLabels m (recreatedClaim m).ObjectMeta.Labels)
          (withStatus (withLabels m (recreatedClaim m).ObjectMeta.Labels)
            (recreateFailedStatus m err)))
        (Store.statusPatchReclaim (withLabels m (recreatedClaim m).ObjectMeta.Labels)
          (withStatus (withLabels m (recreatedClaim m).ObjectMeta.Labels)
            (recreateFailedStatus m err))) with ⟨res2, c2⟩
      have l2 := call_log_of_eq h2
      cases res2 with
      | error e2 => exact ⟨_, by rw [l2, l1, List.append_assoc]; rfl, by simp⟩
      | ok o2 => exact ⟨_, by rw [l2, l1, List.append_assoc]; rfl, by simp⟩
    · obtain ⟨l, hl, hno⟩ := rebind_log (withLabels m (recreatedClaim m).ObjectMeta.Labels) pv
        (recreatedClaim m) c1
      exact ⟨l, by rw [hl, l1, List.append_assoc]; rfl, hno⟩

/-! ### Go maps -/

theorem alistGet_alistDel (l : List (String × String)) (k k' : String) :
    alistGet (alistDel l k) k' = if k' = k then none else alistGet l k' := by
  induction l with
  | nil => simp [alistDel, alistGet]
  | cons p t ih =>
    obtain ⟨a, v⟩ := p
    unfold alistDel at ih ⊢
    by_cases ha : a = k
    · subst ha
      by_cases hk : k' = a
      · subst hk
        simpa [List.filter, alistGet] using ih
      · have hk' : ¬ a = k' := fun h => hk h.symm
        simpa [List.filter, alistGet, hk, hk'] using ih
    · by_cases hk : a = k'
      · subst hk
        simp [List.filter, alistGet, ha]
      · simpa [List.filter, alistGet, ha, hk] using ih

theorem mapGet_mapDelete (m : StrMap) (k k' : String) :
    mapGet (mapDelete m k) k' = if k' = k then none else mapGet m k' := by
  cases m with
  | none => simp [mapDelete, mapGet]
  | some l => simp [mapDelete, mapGet, alistGet_alistDel]

theorem mapGet_omitEmpty (m : StrMap) (k : String) : mapGet (omitEmpty m) k = mapGet m k := by
  rcases m with _ | ⟨_ | _⟩ <;> rfl

theorem alistGet_append_single (l : List (String × String)) (k v k' : String) :
    alistGet (l ++ [(k, v)]) k' =
      match alistGet l k' with
      | some x => some x
      | none => if k = k' then some v else none := by
  induction l with
  | nil => simp [alistGet]
  | cons p t ih =>
    obtain ⟨a, b⟩ := p
    by_cases ha : a = k'
    · simp [alistGet, ha]
    · simpa [alistGet, ha] using ih

theorem alistGet_alistSet (l : List (String × String)) (k v k' : String) :
    alistGet (alistSet l k v) k' = if k' = k then some v else alistGet l k' := by
  unfold alistSet
  rw [alistGet_append_single, alistGet_alistDel]
  by_cases h : k' = k
  · simp [h]
  · have h' : ¬ k = k' := fun e => h e.symm
    simp only [h, h', if_false]
    cases alistGet l k' <;> rfl

theorem alistGet_of_not_mem (l : List (String × String)) (k : String)
    (h : k ∉ l.map Prod.fst) : alistGet l k = none := by
  induction l with
  | nil => rfl
  | cons p t ih =>
    obtain ⟨a, b⟩ := p
    simp only [List.map_cons, List.mem_cons, not_or] at h
    have ha : ¬ a = k := fun e => h.1 e.symm
    simp [alistGet, ha, ih h.2]

theorem mapGet_of_not_mem (m : StrMap) (k : String) (h : k ∉ mapKeys m) : mapGet m k = none := by
  cases m with
  | none => rfl
  | some l => exact alistGet_of_not_mem l k h

theorem mapGet_strip_fold (ks : List String) (m : StrMap) (k : String) :
    mapGet (ks.foldl
        (fun m annKey =>
          if !stringsContains annKey pvAnnotationPrefix then mapDelete m annKey else m) m) k =
      if k ∈ ks ∧ stringsContains k pvAnnotationPrefix = false then none else mapGet m k := by
  induction ks generalizing m with
  | nil => simp
  | cons a t ih =>
    simp only [List.foldl_cons]
    rw [ih]
    by_cases hkt : k ∈ t ∧ stringsContains k pvAnnotationPrefix = false
    · simp [hkt]
    · by_cases hc : stringsContains a pvAnnotationPrefix = true
      · have hne : ¬ (k = a ∧ stringsContains k pvAnnotationPrefix = false) := by
          rintro ⟨rfl, h⟩
          simp [hc] at h
        simp only [hc, Bool.not_true, Bool.false_eq_true, if_false, hkt, List.mem_cons]
        have : ¬ ((k = a ∨ k ∈ t) ∧ stringsContains k pvAnnotationPrefix = false) := by
          rintro ⟨h1 | h1, h2⟩
          · exact hne ⟨h1, h2⟩
          · exact hkt ⟨h1, h2⟩
        simp [this]
      · simp only [Bool.not_eq_true] at hc
        simp only [hc, Bool.not_false, if_true, hkt, if_false, mapGet_mapDelete, List.mem_cons]
        by_cases hka : k = a
        · subst hka
          simp [hc]
        · have : ¬ ((k = a ∨ k ∈ t) ∧ stringsContains k pvAnnotationPrefix = false) := by
            rintro ⟨h1 | h1, h2⟩
            · exact hka h1
            · exact hkt ⟨h1, h2⟩
          simp [hka, this, hkt]

theorem mapGet_stripAnnotations (m : StrMap) (k : String) :
    mapGet (stripAnnotations m) k =
      if stringsContains k pvAnnotationPrefix then mapGet m k else none := by
  unfold stripAnnotations
  rw [mapGet_strip_fold]
  by_cases hc : stringsContains k pvAnnotationPrefix = true
  · simp [hc]
  · simp only [Bool.not_eq_true] at hc
    by_cases hk : k ∈ mapKeys m
    · simp [hc, hk]
    · simp [hc, hk, mapGet_of_not_mem m k hk]

theorem alistGet_patch_fold (b m : StrMap) (ks : List String) (acc : List (String × String))
    (k : String) :
    alistGet (ks.foldl
        (fun acc k =>
          if mapGet m k = mapGet b k then acc
          else match mapGet m k with
            | some v => alistSet acc k v
            | none => alistDel acc k) acc) k =
      if k ∈ ks ∧ mapGet m k ≠ mapGet b k then mapGet m k else alistGet acc k := by
  induction ks generalizing acc with
  | nil => simp
  | cons a t ih =>
    simp only [List.foldl_cons]
    rw [ih]
    by_cases hkt : k ∈ t ∧ mapGet m k ≠ mapGet b k
    · simp [hkt]
    · simp only [hkt, if_false, List.mem_cons]
      by_cases hka : k = a
      · subst hka
        by_cases hch : mapGet m k = mapGet b k
        · simp [hch]
        · simp only [hch, if_false, true_or, ne_eq, not_false_eq_true, and_self, if_true]
          cases hm : mapGet m k with
          | none => simp [alistGet_alistDel]
          | some v => simp [alistGet_alistSet]
      · have hnot : ¬ ((k = a ∨ k ∈ t) ∧ mapGet m k ≠ mapGet b k) := by
          rintro ⟨h1 | h1, h2⟩
          · exact hka h1
          · exact hkt ⟨h1, h2⟩
        simp only [hnot, if_false]
        by_cases hch : mapGet m a = mapGet b a
        · simp [hch]
        · simp only [hch, if_false]
          cases hm : mapGet m a with
          | none => simp [alistGet_alistDel, hka]
          | some v => simp [alistGet_alistSet, hka]

theorem mapGet_patchMap (b m s : StrMap) (k : String) :
    mapGet (patchMap b m s) k =
      if k ∈ mapKeys b ++ mapKeys m ∧ mapGet m k ≠ mapGet b k then mapGet m k
      else mapGet s k := by
  unfold patchMap
  rw [mapGet_omitEmpty]
  show alistGet _ k = _
  rw [alistGet_patch_fold]
  cases s <;> rfl

theorem mapGet_patchMap_of_base (b m s : StrMap) (hs : ∀ k, mapGet s k = mapGet b k)
    (k : String) : mapGet (patchMap b m s) k = mapGet m k := by
  rw [mapGet_patchMap]
  by_cases hch : mapGet m k = mapGet b k
  · simp [hch, hs k]
  · by_cases hk : k ∈ mapKeys b ++ mapKeys m
    · simp [hch, hk]
    · exfalso
      simp only [List.mem_append, not_or] at hk
      exact hch (by rw [mapGet_of_not_mem m k hk.2, mapGet_of_not_mem b k hk.1])

theorem recreate_refused {s : Store} {f : Nat → Option APIError} {lg : List Call}
    {key : NamespacedName} (m : PVCReclaim) (pv : PersistentVolume) {o : PVCReclaim}
    {err : APIError}
    (hf0 : f 0 = some err) (hne : err.Reason ≠ StatusReason.AlreadyExists) (hf1 : f 1 = none)
    (hk : keyOf m.ObjectMeta = key) (hr : s.reclaim? key = some o)
    (hst : m.Status = o.Status) :
    PVCReclaimController.recreate m pv { store := s, faults := f, log := lg } =
      (Outcome.returned (some err),
        { store := s.putReclaim key (withStatus o (recreateFailedStatus m err))
          faults := fun i => f (i + 1 + 1)
          log := lg ++ [Call.CreatePVC (recreatedClaim m)] ++
            [Call.StatusPatchReclaim (withLabels m (recreatedClaim m).ObjectMeta.Labels)
              (withStatus (withLabels m (recreatedClaim m).ObjectMeta.Labels)
                (recreateFailedStatus m err))] }) := by
  have hf1' : (fun i => f (i + 1)) 0 = none := hf1
  have hk' : keyOf (withStatus (withLabels m (recreatedClaim m).ObjectMeta.Labels)
      (recreateFailedStatus m err)).ObjectMeta = key := hk
  have hst' : (withLabels m (recreatedClaim m).ObjectMeta.Labels).Status = o.Status := hst
  unfold PVCReclaimController.recreate
  rw [call_fault _ _ _ _ _ err hf0]
  simp only [IsAlreadyExists, hne, decide_False, Bool.not_false, if_true]
  rw [call_free _ (fun i => f (i + 1)) _ _ _ hf1',
    statusPatchReclaim_found (withLabels m (recreatedClaim m).ObjectMeta.Labels)
      (withStatus (withLabels m (recreatedClaim m).ObjectMeta.Labels)
        (recreateFailedStatus m err)) hk' hr,
    patchReclaimStatus_of_status hst']

theorem reconcileRecord_orphan {s : Store} {f : Nat → Option APIError} {lg : List Call}
    {key : NamespacedName} {r : PVCReclaim} {volumeRef : ObjectReference}
    (hf0 : f 0 = none) (hf1 : f 1 = none)
    (hr : s.reclaim? key = some r)
    (href : r.Spec.PersistentVolumeRef = some volumeRef)
    (hpv : s.pv? volumeRef.Name = none) :
    PVCReclaimController.reconcileRecord (decodeReclaim r)
        { store := s, faults := f, log := lg } =
      (Outcome.returned none,
        { store := s.dropReclaim key
          faults := fun i => f (i + 1 + 1)
          log := lg ++ [Call.GetPV volumeRef.Name] ++
            [Call.DeleteReclaim (decodeReclaim r)] }) := by
  have href' : (decodeReclaim r).Spec.PersistentVolumeRef = some volumeRef := href
  have hk : keyOf (decodeReclaim r).ObjectMeta = key :=
    (reclaim?_key hr : keyOf r.ObjectMeta = key)
  have hf1' : (fun i => f (i + 1)) 0 = none := hf1
  unfold PVCReclaimController.reconcileRecord
  simp only [href', call_free _ _ _ _ _ hf0, getPV_missing hpv]
  simp only [IsNotFound, errNotFound, decide_True, Bool.not_true, Bool.false_eq_true, if_false]
  rw [call_free _ (fun i => f (i + 1)) _ _ _ hf1', deleteReclaim_found (decodeReclaim r) hk hr]

theorem reconcileRecord_idle {s : Store} {f : Nat → Option APIError} {lg : List Call}
    {r : PVCReclaim} {volumeRef : ObjectReference} {pv : PersistentVolume}
    (hf : f 0 = none)
    (href : r.Spec.PersistentVolumeRef = some volumeRef)
    (hpv : s.pv? volumeRef.Name = some pv)
    (hrestore : r.Spec.Restore = false) :
    PVCReclaimController.reconcileRecord (decodeReclaim r)
        { store := s, faults := f, log := lg } =
      (Outcome.returned none,
        { store := s, faults := fun i => f (i + 1)
          log := lg ++ [Call.GetPV volumeRef.Name] }) := by
  have href' : (decodeReclaim r).Spec.PersistentVolumeRef = some volumeRef := href
  have hrestore' : (decodeReclaim r).Spec.Restore = false := hrestore
  unfold PVCReclaimController.reconcileRecord
  simp only [href', call_free _ _ _ _ _ hf, getPV_found hpv, hrestore']
  simp

theorem assignAll_alistEntries (l : List (String × String)) :
    ∀ (seen : List String) (m : List (String × String)),
      ∃ m', assignAll (some m) (alistEntries seen l) = some (some m') ∧
        ∀ k, alistGet m' k =
          if k ∈ seen then alistGet m k else (alistGet l k).or (alistGet m k) := by
  induction l with
  | nil =>
    intro seen m
    exact ⟨m, rfl, fun k => by simp [alistGet]⟩
  | cons p t ih =>
    obtain ⟨a, v⟩ := p
    intro seen m
    by_cases ha : a ∈ seen
    · obtain ⟨m', h1, h2⟩ := ih seen m
      refine ⟨m', by simpa [alistEntries, ha] using h1, fun k => ?_⟩
      rw [h2 k]
      by_cases hk : k ∈ seen
      · simp [hk]
      · have hne : ¬ a = k := fun e => hk (e ▸ ha)
        simp [hk, alistGet, hne]
    · obtain ⟨m', h1, h2⟩ := ih (a :: seen) (alistSet m a v)
      refine ⟨m', by simpa [alistEntries, ha, assignAll, mapAssign] using h1, fun k => ?_⟩
      rw [h2 k]
      by_cases hka : k = a
      · subst hka
        simp [ha, alistGet, alistGet_alistSet]
      · have hne : ¬ a = k := fun e => hka e.symm
        by_cases hk : k ∈ seen
        · simp [hk, hka, alistGet_alistSet]
        · simp [hk, hka, hne, alistGet, alistGet_alistSet]

theorem assignAll_mapRange (m : List (String × String)) (src : StrMap) :
    ∃ m', assignAll (some m) (mapRange src) = some (some m') ∧
      ∀ k, alistGet m' k = (mapGet src k).or (alistGet m k) := by
  cases src with
  | none => exact ⟨m, rfl, fun k => by simp [mapGet]⟩
  | some l =>
    obtain ⟨m', h1, h2⟩ := assignAll_alistEntries l [] m
    exact ⟨m', h1, fun k => by simpa [mapGet] using h2 k⟩

theorem omitEmpty_alistSet (l : List (String × String)) (k v : String) :
    omitEmpty (some (alistSet l k v)) = some (alistSet l k v) := by
  unfold alistSet
  cases h : alistDel l k ++ [(k, v)] with
  | nil => simp at h
  | cons a t => rfl

/-! ### Paths of the Claim Mirror -/

theorem mirror_created {s : Store} {f : Nat → Option APIError} {lg : List Call}
    {req : Request} {pvc : PersistentVolumeClaim} {pv : PersistentVolume}
    (hf : ∀ i, i < 4 → f i = none)
    (hc : s.pvc? req.NamespacedName = some pvc)
    (hname : pvc.Spec.VolumeName ≠ "")
    (hbound : pvc.Status.Phase = ClaimBound)
    (hpv : s.pv? pvc.Spec.VolumeName = some pv)
    (hr : s.reclaim? req.NamespacedName = none) :
    PVCController.Reconcile req { store := s, faults := f, log := lg } =
      PVCController.syncReclaim
        (storedReclaim (newReclaimFor (decodePVC pvc) (decodePV pv)) (newUID s.uids) {})
        (claimAfterMirror (decodePVC pvc) (decodePV pv))
        { store := s.addReclaim
            (storedReclaim (newReclaimFor (decodePVC pvc) (decodePV pv)) (newUID s.uids) {})
          faults := fun i => f (i + 1 + 1 + 1 + 1)
          log := lg ++ [Call.GetPVC req.NamespacedName] ++ [Call.GetPV pvc.Spec.VolumeName] ++
            [Call.GetReclaim req.NamespacedName] ++
            [Call.CreateReclaim (newReclaimFor (decodePVC pvc) (decodePV pv))] } := by
  have hk : keyOf (decodePVC pvc).ObjectMeta = req.NamespacedName :=
    (pvc?_key hc : keyOf pvc.ObjectMeta = req.NamespacedName)
  have hk' : keyOf (newReclaimFor (decodePVC pvc) (decodePV pv)).ObjectMeta =
      req.NamespacedName := hk
  have hname' : ¬ (decodePVC pvc).Spec.VolumeName = "" := hname
  have hbound' : (decodePVC pvc).Status.Phase = ClaimBound := hbound
  have hv : (decodePVC pvc).Spec.VolumeName = pvc.Spec.VolumeName := rfl
  have h1 : (fun i => f (i + 1)) 0 = none := hf 1 (by omega)
  have h2 : (fun i => f (i + 1 + 1)) 0 = none := hf 2 (by omega)
  have h3 : (fun i => f (i + 1 + 1 + 1)) 0 = none := hf 3 (by omega)
  unfold PVCController.Reconcile
  rw [call_free _ _ _ _ _ (hf 0 (by omega)), getPVC_found hc]
  simp only [hname', hbound', ne_eq, not_true_eq_false, or_self, if_false]
  unfold PVCController.getOrCreateClaimRef
  rw [hv, call_free _ (fun i => f (i + 1)) _ _ _ h1, getPV_found hpv]
  simp only [hk]
  rw [call_free _ (fun i => f (i + 1 + 1)) _ _ _ h2, getReclaim_missing hr]
  simp only [IsNotFound, errNotFound, decide_True, Bool.not_true, Bool.false_eq_true, if_false]
  rw [call_free _ (fun i => f (i + 1 + 1 + 1)) _ _ _ h3,
    createReclaim_new (newReclaimFor (decodePVC pvc) (decodePV pv)) hk' hr]

theorem mirror_found {s : Store} {f : Nat → Option APIError} {lg : List Call}
    {req : Request} {pvc : PersistentVolumeClaim} {pv : PersistentVolume} {r : PVCReclaim}
    (hf : ∀ i, i < 3 → f i = none)
    (hc : s.pvc? req.NamespacedName = some pvc)
    (hname : pvc.Spec.VolumeName ≠ "")
    (hbound : pvc.Status.Phase = ClaimBound)
    (hpv : s.pv? pvc.Spec.VolumeName = some pv)
    (hr : s.reclaim? req.NamespacedName = some r) :
    PVCController.Reconcile req { store := s, faults := f, log := lg } =
      PVCController.syncReclaim (decodeReclaim r) (decodePVC pvc)
        { store := s
          faults := fun i => f (i + 1 + 1 + 1)
          log := lg ++ [Call.GetPVC req.NamespacedName] ++ [Call.GetPV pvc.Spec.VolumeName] ++
            [Call.GetReclaim req.NamespacedName] } := by
  have hk : keyOf (decodePVC pvc).ObjectMeta = req.NamespacedName :=
    (pvc?_key hc : keyOf pvc.ObjectMeta = req.NamespacedName)
  have hname' : ¬ (decodePVC pvc).Spec.VolumeName = "" := hname
  have hbound' : (decodePVC pvc).Status.Phase = ClaimBound := hbound
  have hv : (decodePVC pvc).Spec.VolumeName = pvc.Spec.VolumeName := rfl
  have h1 : (fun i => f (i + 1)) 0 = none := hf 1 (by omega)
  have h2 : (fun i => f (i + 1 + 1)) 0 = none := hf 2 (by omega)
  unfold PVCController.Reconcile
  rw [call_free _ _ _ _ _ (hf 0 (by omega)), getPVC_found hc]
  simp only [hname', hbound', ne_eq, not_true_eq_false, or_self, if_false]
  unfold PVCController.getOrCreateClaimRef
  rw [hv, call_free _ (fun i => f (i + 1)) _ _ _ h1, getPV_found hpv]
  simp only [hk]
  rw [call_free _ (fun i => f (i + 1 + 1)) _ _ _ h2, getReclaim_found hr]

theorem syncReclaim_run {s : Store} {f : Nat → Option APIError} {lg : List Call}
    {k : NamespacedName} (m : PVCReclaim) (p : PersistentVolumeClaim) {labels : StrMap}
    {old : PVCReclaim}
    (hf0 : f 0 = none) (hf1 : f 1 = none)
    (hl : assignAll m.ObjectMeta.Labels (mapRange p.ObjectMeta.Labels) = some labels)
    (hk : keyOf m.ObjectMeta = k) (hr : s.reclaim? k = some old) :
    PVCController.syncReclaim m p { store := s, faults := f, log := lg } =
      (Outcome.returned none,
        { store := (s.putReclaim k
              (storedReclaim (syncedReclaim m p labels) old.ObjectMeta.UID old.Status)).putReclaim k
            (withStatus (storedReclaim (syncedReclaim m p labels) old.ObjectMeta.UID old.Status)
              (mirroredStatus p
                (storedReclaim (syncedReclaim m p labels) old.ObjectMeta.UID old.Status)))
          faults := fun i => f (i + 1 + 1)
          log := lg ++ [Call.UpdateReclaim (syncedReclaim m p labels)] ++
            [Call.StatusPatchReclaim
              (storedReclaim (syncedReclaim m p labels) old.ObjectMeta.UID old.Status)
              (withStatus
                (storedReclaim (syncedReclaim m p labels) old.ObjectMeta.UID old.Status)
                (mirroredStatus p
                  (storedReclaim (syncedReclaim m p labels) old.ObjectMeta.UID
                    old.Status)))] }) := by
  have hf1' : (fun i => f (i + 1)) 0 = none := hf1
  have hk1 : keyOf (syncedReclaim m p labels).ObjectMeta = k := hk
  have hk2 : keyOf (storedReclaim (syncedReclaim m p labels) old.ObjectMeta.UID
      old.Status).ObjectMeta = k := hk
  have hk3 : keyOf (withStatus
      (storedReclaim (syncedReclaim m p labels) old.ObjectMeta.UID old.Status)
      (mirroredStatus p (storedReclaim (syncedReclaim m p labels) old.ObjectMeta.UID
        old.Status))).ObjectMeta = k := hk
  unfold PVCController.syncReclaim
  simp only [hl]
  rw [call_free _ _ _ _ _ hf0, updateReclaim_found (syncedReclaim m p labels) hk1 hr]
  simp only []
  rw [call_free _ (fun i => f (i + 1)) _ _ _ hf1',
    statusPatchReclaim_found _ _ hk3 (reclaim?_putReclaim_same hr hk2),
    patchReclaimStatus_stored]

theorem claimAfterMirror_annotations (p : PersistentVolumeClaim) (pv : PersistentVolume) :
    (claimAfterMirror p pv).ObjectMeta.Annotations = p.ObjectMeta.Annotations := by
  unfold claimAfterMirror
  split <;> rfl

theorem mapGet_mirroredLabels (p : PersistentVolumeClaim) (pv : PersistentVolume) (k : String) :
    alistGet (mirroredLabels p pv) k =
      if k = reclaimPVLabel then some pv.ObjectMeta.Name else mapGet p.ObjectMeta.Labels k := by
  unfold mirroredLabels
  rw [alistGet_alistSet]
  cases p.ObjectMeta.Labels <;> rfl

theorem mirror_labels_after_create (p : PersistentVolumeClaim) (pv : PersistentVolume) :
    ∃ labels, assignAll (some (mirroredLabels p pv))
        (mapRange (claimAfterMirror p pv).ObjectMeta.Labels) = some labels ∧
      ∀ k, mapGet labels k =
        if k = reclaimPVLabel then some pv.ObjectMeta.Name else mapGet p.ObjectMeta.Labels k := by
  obtain ⟨m', h1, h2⟩ := assignAll_mapRange (mirroredLabels p pv)
    (claimAfterMirror p pv).ObjectMeta.Labels
  refine ⟨some m', h1, fun k => ?_⟩
  show alistGet m' k = _
  rw [h2 k, ← mapGet_mirroredLabels]
  unfold claimAfterMirror
  cases hl : p.ObjectMeta.Labels with
  | none => simp [hl, mapGet]
  | some l =>
    simp only [mapGet]
    cases alistGet (mirroredLabels p pv) k <;> rfl

/-! ### One run of the Claim Mirror, summarised -/

theorem omitEmpty_of_binding {m : StrMap} {k v : String} (h : mapGet m k = some v) :
    ∃ l, omitEmpty m = some l ∧ ∀ k', alistGet l k' = mapGet m k' := by
  rcases m with _ | ⟨_ | ⟨p, t⟩⟩
  · simp [mapGet] at h
  · simp [mapGet, alistGet] at h
  · exact ⟨p :: t, rfl, fun _ => rfl⟩

theorem mapRange_of_empty {m : StrMap} (h : ∀ k, mapGet m k = none) : mapRange m = [] := by
  rcases m with _ | ⟨_ | ⟨⟨a, v⟩, t⟩⟩
  · rfl
  · rfl
  · have := h a
    simp [mapGet, alistGet] at this

theorem assignAll_safe (dst src : StrMap)
    (h : (∃ k v, mapGet dst k = some v) ∨ ∀ k, mapGet src k = none) :
    ∃ labels, assignAll (omitEmpty dst) (mapRange src) = some labels ∧
      ∀ k, mapGet labels k = (mapGet src k).or (mapGet dst k) := by
  rcases h with ⟨k, v, hb⟩ | hs
  · obtain ⟨l, hl, hget⟩ := omitEmpty_of_binding hb
    obtain ⟨m', h1, h2⟩ := assignAll_mapRange l src
    refine ⟨some m', by rw [hl]; exact h1, fun k' => ?_⟩
    show alistGet m' k' = _
    rw [h2 k', hget k']
  · refine ⟨omitEmpty dst, by rw [mapRange_of_empty hs]; rfl, fun k => ?_⟩
    rw [hs k, mapGet_omitEmpty]
    rfl

theorem filter_length_replace {α : Type} (p : α → Bool) (o : α) (hp : p o = true) :
    ∀ l : List α, ((l.map (fun y => if p y then o else y)).filter p).length =
      (l.filter p).length
  | [] => rfl
  | a :: t => by
    by_cases ha : p a = true
    · simp [List.filter, ha, hp, filter_length_replace p o hp t]
    · simp only [Bool.not_eq_true] at ha
      simp [List.filter, ha, filter_length_replace p o hp t]

theorem count_putReclaim (s : Store) (k : NamespacedName) (o : PVCReclaim)
    (ho : keyOf o.ObjectMeta = k) :
    ((s.putReclaim k o).reclaims.filter (fun x => hasKey x.ObjectMeta k)).length =
      (s.reclaims.filter (fun x => hasKey x.ObjectMeta k)).length :=
  filter_length_replace (fun x : PVCReclaim => hasKey x.ObjectMeta k) o ((hasKey_iff _ _).2 ho) _

theorem count_of_missing {s : Store} {k : NamespacedName} (h : s.reclaim? k = none) :
    (s.reclaims.filter (fun x => hasKey x.ObjectMeta k)).length = 0 := by
  have h' : ∀ x ∈ s.reclaims, ¬ hasKey x.ObjectMeta k = true := by
    simpa [Store.reclaim?, List.find?_eq_none] using h
  simp only [List.length_eq_zero, List.filter_eq_nil_iff]
  exact h'

theorem count_of_found {s : Store} {k : NamespacedName} {r : PVCReclaim}
    (h : s.reclaim? k = some r) :
    1 ≤ (s.reclaims.filter (fun x => hasKey x.ObjectMeta k)).length := by
  have hmem : r ∈ s.reclaims.filter (fun x => hasKey x.ObjectMeta k) :=
    List.mem_filter.2 ⟨List.mem_of_find?_eq_some h, by simpa using List.find?_some h⟩
  exact List.length_pos_of_mem hmem

theorem mirroredStatus_congr (pvc : PersistentVolumeClaim) {a b : PVCReclaim}
    (h1 : a.ObjectMeta.Namespace = b.ObjectMeta.Namespace)
    (h2 : a.ObjectMeta.Name = b.ObjectMeta.Name) :
    mirroredStatus pvc a = mirroredStatus pvc b := by
  simp [mirroredStatus, h1, h2]

theorem claimAfterMirror_key (p : PersistentVolumeClaim) (pv : PersistentVolume) :
    (claimAfterMirror p pv).ObjectMeta.Namespace = p.ObjectMeta.Namespace ∧
    (claimAfterMirror p pv).ObjectMeta.Name = p.ObjectMeta.Name := by
  unfold claimAfterMirror
  split <;> exact ⟨rfl, rfl⟩

theorem mirror_found_summary (c : Client)
    {req : Request} {pvc : PersistentVolumeClaim} {pv : PersistentVolume} {r : PVCReclaim}
    (hf : ∀ i, c.faults i = none)
    (hc : c.store.pvc? req.NamespacedName = some pvc)
    (hname : pvc.Spec.VolumeName ≠ "")
    (hbound : pvc.Status.Phase = ClaimBound)
    (hpv : c.store.pv? pvc.Spec.VolumeName = some pv)
    (hr : c.store.reclaim? req.NamespacedName = some r)
    (hsafe : (∃ k v, mapGet r.ObjectMeta.Labels k = some v) ∨
      ∀ k, mapGet pvc.ObjectMeta.Labels k = none) :
    (PVCController.Reconcile req c).1 =
      Outcome.returned none ∧
    (∀ i, (PVCController.Reconcile req c).2.faults i = none) ∧
    (PVCController.Reconcile req c).2.store.pvcs = c.store.pvcs ∧
    (PVCController.Reconcile req c).2.store.pvs = c.store.pvs ∧
    ((PVCController.Reconcile req c).2.store.reclaims.filter
      (fun x => hasKey x.ObjectMeta req.NamespacedName)).length =
        (c.store.reclaims.filter (fun x => hasKey x.ObjectMeta req.NamespacedName)).length ∧
    ∃ r' : PVCReclaim,
      (PVCController.Reconcile req c).2.store.reclaim? req.NamespacedName = some r' ∧
      r'.ObjectMeta.Namespace = r.ObjectMeta.Namespace ∧
      r'.ObjectMeta.Name = r.ObjectMeta.Name ∧
      r'.ObjectMeta.UID = r.ObjectMeta.UID ∧
      r'.Spec.PersistentVolumeRef = r.Spec.PersistentVolumeRef ∧
      r'.Spec.PersistentVolumeClaimSpec = r.Spec.PersistentVolumeClaimSpec ∧
      r'.Spec.Restore = false ∧
      r'.Status = mirroredStatus pvc r' ∧
      (∀ k, mapGet r'.ObjectMeta.Labels k =
        (mapGet pvc.ObjectMeta.Labels k).or (mapGet r.ObjectMeta.Labels k)) ∧
      (∀ k, mapGet r'.ObjectMeta.Annotations k = mapGet pvc.ObjectMeta.Annotations k) := by
  obtain ⟨s, f, lg⟩ := c
  simp only at hf hc hpv hr
  have hk : keyOf r.ObjectMeta = req.NamespacedName := reclaim?_key hr
  have hsafe' : (∃ k v, mapGet r.ObjectMeta.Labels k = some v) ∨
      ∀ k, mapGet (omitEmpty pvc.ObjectMeta.Labels) k = none := by
    rcases hsafe with h | h
    · exact Or.inl h
    · exact Or.inr fun k => by rw [mapGet_omitEmpty]; exact h k
  obtain ⟨labels, hl, hlabels⟩ :=
    assignAll_safe r.ObjectMeta.Labels (omitEmpty pvc.ObjectMeta.Labels) hsafe'
  have hl' : assignAll (decodeReclaim r).ObjectMeta.Labels
      (mapRange (decodePVC pvc).ObjectMeta.Labels) = some labels := hl
  have hkd : keyOf (decodeReclaim r).ObjectMeta = req.NamespacedName := hk
  rw [mirror_found (fun i _ => hf i) hc hname hbound hpv hr,
    syncReclaim_run (decodeReclaim r) (decodePVC pvc) (hf 3) (hf 4) hl' hkd hr]
  refine ⟨rfl, fun i => hf _, rfl, rfl, ?_, _,
    reclaim?_putReclaim_same (reclaim?_putReclaim_same hr hk) hk,
    rfl, rfl, rfl, rfl, rfl, rfl, rfl, fun k => ?_, fun k => ?_⟩
  · exact (count_putReclaim _ _ _ (by exact hk)).trans (count_putReclaim _ _ _ (by exact hk))
  · show mapGet (omitEmpty labels) k = _
    rw [mapGet_omitEmpty, hlabels, mapGet_omitEmpty]
  · show mapGet (omitEmpty (omitEmpty pvc.ObjectMeta.Annotations)) k = _
    rw [mapGet_omitEmpty, mapGet_omitEmpty]

theorem mirror_created_summary (c : Client)
    {req : Request} {pvc : PersistentVolumeClaim} {pv : PersistentVolume}
    (hf : ∀ i, c.faults i = none)
    (hc : c.store.pvc? req.NamespacedName = some pvc)
    (hname : pvc.Spec.VolumeName ≠ "")
    (hbound : pvc.Status.Phase = ClaimBound)
    (hpv : c.store.pv? pvc.Spec.VolumeName = some pv)
    (hr : c.store.reclaim? req.NamespacedName = none) :
    (PVCController.Reconcile req c).1 =
      Outcome.returned none ∧
    (∀ i, (PVCController.Reconcile req c).2.faults i = none) ∧
    (PVCController.Reconcile req c).2.store.pvcs = c.store.pvcs ∧
    (PVCController.Reconcile req c).2.store.pvs = c.store.pvs ∧
    ((PVCController.Reconcile req c).2.store.reclaims.filter
      (fun x => hasKey x.ObjectMeta req.NamespacedName)).length = 1 ∧
    ∃ r' : PVCReclaim,
      (PVCController.Reconcile req c).2.store.reclaim? req.NamespacedName = some r' ∧
      r'.Spec.Restore = false ∧
      r'.Status = mirroredStatus pvc r' ∧
      (∀ k, mapGet r'.ObjectMeta.Labels k =
        if k = reclaimPVLabel then some pv.ObjectMeta.Name
        else mapGet pvc.ObjectMeta.Labels k) ∧
      (∀ k, mapGet r'.ObjectMeta.Annotations k = mapGet pvc.ObjectMeta.Annotations k) := by
  obtain ⟨s, f, lg⟩ := c
  simp only at hf hc hpv hr
  have hk : keyOf pvc.ObjectMeta = req.NamespacedName := pvc?_key hc
  obtain ⟨labels, hl, hlabels⟩ := mirror_labels_after_create (decodePVC pvc) (decodePV pv)
  have hl' : assignAll
      (storedReclaim (newReclaimFor (decodePVC pvc) (decodePV pv)) (newUID s.uids)
        {}).ObjectMeta.Labels
      (mapRange (claimAfterMirror (decodePVC pvc) (decodePV pv)).ObjectMeta.Labels) =
      some labels := by
    show assignAll (omitEmpty (some (mirroredLabels (decodePVC pvc) (decodePV pv)))) _ = _
    rw [show mirroredLabels (decodePVC pvc) (decodePV pv) = alistSet _ _ _ from rfl,
      omitEmpty_alistSet]
    exact hl
  have hstatus : ∀ x : PVCReclaim,
      mirroredStatus (claimAfterMirror (decodePVC pvc) (decodePV pv)) x = mirroredStatus pvc x := by
    intro x
    obtain ⟨h1, h2⟩ := claimAfterMirror_key (decodePVC pvc) (decodePV pv)
    simp only [mirroredStatus, h1, h2]
    rfl
  rw [mirror_created (fun i _ => hf i) hc hname hbound hpv hr,
    syncReclaim_run _ _ (hf 4) (hf 5) hl' hk (reclaim?_addReclaim_same hr hk)]
  refine ⟨rfl, fun i => hf _, rfl, rfl, ?_, _,
    reclaim?_putReclaim_same (reclaim?_putReclaim_same (reclaim?_addReclaim_same hr hk) hk) hk,
    rfl, ?_, fun k => ?_, fun k => ?_⟩
  · refine (count_putReclaim _ _ _ (by exact hk)).trans
      ((count_putReclaim _ _ _ (by exact hk)).trans ?_)
    show ((s.reclaims ++ [_]).filter _).length = 1
    have hkey : hasKey (storedReclaim (newReclaimFor (decodePVC pvc) (decodePV pv))
        (newUID s.uids) {}).ObjectMeta req.NamespacedName = true := (hasKey_iff _ _).2 hk
    rw [List.filter_append, List.length_append, count_of_missing hr]
    simp [List.filter, hkey]
  · exact (hstatus _).trans (mirroredStatus_congr pvc rfl rfl)
  · show mapGet (omitEmpty labels) k = _
    rw [mapGet_omitEmpty, hlabels]
    show (if k = reclaimPVLabel then some pv.ObjectMeta.Name
      else mapGet (omitEmpty pvc.ObjectMeta.Labels) k) = _
    rw [mapGet_omitEmpty]
  · show mapGet (omitEmpty
      (claimAfterMirror (decodePVC pvc) (decodePV pv)).ObjectMeta.Annotations) k = _
    rw [mapGet_omitEmpty, claimAfterMirror_annotations]
    exact mapGet_omitEmpty _ k

/-! ### The Volume-Event Router -/

theorem foldl_append_single {α β : Type} (f : α → β) (l : List α) (init : List β) :
    l.foldl (fun acc x => acc ++ [f x]) init = init ++ l.map f := by
  induction l generalizing init with
  | nil => simp
  | cons a t ih => simp [List.foldl, ih]

theorem requestFor_decodeReclaim (r : PVCReclaim) : requestFor (decodeReclaim r) = requestFor r :=
  rfl

theorem mapFunc_of_volume (pv : PersistentVolume) (c : Client) :
    pvEnqueuePVCReclaimReconcileRequestMapFunc (Object.Volume pv) c =
      match c.call (Call.ListReclaims reclaimPVLabel pv.ObjectMeta.Name)
          (Store.listReclaims reclaimPVLabel pv.ObjectMeta.Name) with
      | (Except.error _, c1) => ([], c1)
      | (Except.ok pvcReclaims, c1) => (pvcReclaims.map requestFor, c1) := by
  simp only [pvEnqueuePVCReclaimReconcileRequestMapFunc, foldl_append_single, List.nil_append]

/-! ### The label loop on a record without labels -/

theorem omitEmpty_of_no_binding {m : StrMap} (h : ∀ k, mapGet m k = none) :
    omitEmpty m = none := by
  rcases m with _ | ⟨_ | ⟨⟨a, v⟩, t⟩⟩
  · rfl
  · rfl
  · have := h a
    simp [mapGet, alistGet] at this

theorem mapRange_of_binding {m : StrMap} {k v : String} (h : mapGet m k = some v) :
    ∃ p t, mapRange (omitEmpty m) = p :: t := by
  rcases m with _ | ⟨_ | ⟨⟨a, w⟩, t⟩⟩
  · simp [mapGet] at h
  · simp [mapGet, alistGet] at h
  · exact ⟨(a, w), alistEntries [a] t, by simp [omitEmpty, mapRange, alistEntries]⟩

theorem assignAll_nil_map {l : List (String × String)} (p : String × String)
    (t : List (String × String)) (h : l = p :: t) : assignAll none l = none := by
  subst h
  rfl

/-! ### The frozen fields of a record along a run -/

theorem sameFrozen_refl (r : PVCReclaim) : sameFrozen r r :=
  ⟨rfl, rfl⟩

theorem sameFrozen_trans {a b d : PVCReclaim} (h1 : sameFrozen a b) (h2 : sameFrozen b d) :
    sameFrozen a d :=
  ⟨h2.1.trans h1.1, h2.2.trans h1.2⟩

theorem keeps_refl (s : Store) : Keeps s s :=
  fun _ r hr => ⟨r, hr, sameFrozen_refl r⟩

theorem keeps_of_eq {s s' : Store} (h : s' = s) : Keeps s s' :=
  h ▸ keeps_refl s

theorem keeps_trans {s s' s'' : Store} (h1 : Keeps s s') (h2 : Keeps s' s'') : Keeps s s'' := by
  intro key r hr
  obtain ⟨r', hr', hf⟩ := h1 key r hr
  obtain ⟨r'', hr'', hf'⟩ := h2 key r' hr'
  exact ⟨r'', hr'', sameFrozen_trans hf hf'⟩

theorem keepsFound_of_keeps {s s' : Store} (h : Keeps s s') : KeepsFound s s' := by
  intro key r r' hr hr'
  obtain ⟨r'', h1, h2⟩ := h key r hr
  rw [hr'] at h1
  cases h1
  exact h2

theorem keepsFound_after {s s' s'' : Store} (h1 : Keeps s s') (h2 : KeepsFound s' s'') :
    KeepsFound s s'' := by
  intro key r r'' hr hr''
  obtain ⟨r', hr', hf⟩ := h1 key r hr
  exact sameFrozen_trans hf (h2 key r' r'' hr' hr'')

theorem call_keeps_of_eq {α : Type} {c c1 : Client} {e : Call}
    {op : Store → Except APIError α × Store} {res : Except APIError α}
    (hcall : c.call e op = (res, c1)) (h : Keeps c.store (op c.store).2) :
    Keeps c.store c1.store := by
  unfold Client.call at hcall
  split at hcall
  · cases hcall
    exact keeps_refl _
  · cases hcall
    exact h

theorem call_keepsFound_of_eq {α : Type} {c c1 : Client} {e : Call}
    {op : Store → Except APIError α × Store} {res : Except APIError α}
    (hcall : c.call e op = (res, c1)) (h : KeepsFound c.store (op c.store).2) :
    KeepsFound c.store c1.store := by
  unfold Client.call at hcall
  split at hcall
  · cases hcall
    exact keepsFound_of_keeps (keeps_refl _)
  · cases hcall
    exact h

theorem call_ok_inv {α : Type} {c c1 : Client} {e : Call}
    {op : Store → Except APIError α × Store} {x : α}
    (hcall : c.call e op = (Except.ok x, c1)) :
    (op c.store).1 = Except.ok x ∧ c1.store = (op c.store).2 := by
  unfold Client.call at hcall
  split at hcall
  · simp at hcall
  · simp only [Prod.mk.injEq] at hcall
    obtain ⟨h1, h2⟩ := hcall
    subst h2
    exact ⟨h1, rfl⟩

theorem putReclaim_keeps {s : Store} {k : NamespacedName} {old o : PVCReclaim}
    (hfind : s.reclaim? k = some old) (hk : keyOf o.ObjectMeta = k) (hf : sameFrozen old o) :
    Keeps s (s.putReclaim k o) := by
  intro key r hr
  by_cases hkey : key = k
  · subst hkey
    rw [hfind] at hr
    cases hr
    exact ⟨o, reclaim?_putReclaim_same hfind hk, hf⟩
  · exact ⟨r, by rw [reclaim?_putReclaim_other hk hkey]; exact hr, sameFrozen_refl r⟩

theorem getPVC_keeps (key : NamespacedName) (s : Store) : Keeps s (Store.getPVC key s).2 := by
  unfold Store.getPVC
  split <;> exact keeps_refl s

theorem getPV_keeps (name : String) (s : Store) : Keeps s (Store.getPV name s).2 := by
  unfold Store.getPV
  split <;> exact keeps_refl s

theorem getReclaim_keeps (key : NamespacedName) (s : Store) :
    Keeps s (Store.getReclaim key s).2 := by
  unfold Store.getReclaim
  split <;> exact keeps_refl s

theorem keeps_of_reclaim? {s s' : Store} (h : ∀ key, s'.reclaim? key = s.reclaim? key) :
    Keeps s s' :=
  fun key r hr => ⟨r, by rw [h key]; exact hr, sameFrozen_refl r⟩

theorem createPVC_keeps (obj : PersistentVolumeClaim) (s : Store) :
    Keeps s (s.createPVC obj).2 := by
  unfold Store.createPVC
  split
  · exact keeps_refl s
  · exact keeps_of_reclaim? fun _ => rfl

theorem statusPatchPVC_keeps (base obj : PersistentVolumeClaim) (s : Store) :
    Keeps s (s.statusPatchPVC base obj).2 := by
  unfold Store.statusPatchPVC
  split
  · exact keeps_refl s
  · exact keeps_of_reclaim? fun _ => rfl

theorem patchPV_keeps (base obj : PersistentVolume) (s : Store) :
    Keeps s (s.patchPV base obj).2 := by
  unfold Store.patchPV
  split
  · exact keeps_refl s
  · exact keeps_of_reclaim? fun _ => rfl

theorem reclaim?_addReclaim_of_found {s : Store} {key : NamespacedName} {r : PVCReclaim}
    (o : PVCReclaim) (h : s.reclaim? key = some r) : (s.addReclaim o).reclaim? key = some r := by
  unfold Store.reclaim? Store.addReclaim
  unfold Store.reclaim? at h
  simp [List.find?_append, h]

theorem createReclaim_keeps (obj : PVCReclaim) (s : Store) : Keeps s (s.createReclaim obj).2 := by
  unfold Store.createReclaim
  split
  · exact keeps_refl s
  · exact fun key r hr => ⟨r, reclaim?_addReclaim_of_found _ hr, sameFrozen_refl r⟩

theorem statusPatchReclaim_keeps (base obj : PVCReclaim) (s : Store) :
    Keeps s (s.statusPatchReclaim base obj).2 := by
  unfold Store.statusPatchReclaim
  split
  · exact keeps_refl s
  · rename_i old hfind
    have hk : keyOf (patchReclaimStatus base obj old).ObjectMeta = keyOf obj.ObjectMeta :=
      (reclaim?_key hfind : keyOf old.ObjectMeta = _)
    exact putReclaim_keeps hfind hk ⟨rfl, rfl⟩

theorem patchReclaim_keeps (base obj : PVCReclaim) (s : Store)
    (h1 : obj.Spec.PersistentVolumeRef = base.Spec.PersistentVolumeRef)
    (h2 : obj.Spec.PersistentVolumeClaimSpec = base.Spec.PersistentVolumeClaimSpec) :
    Keeps s (s.patchReclaim base obj).2 := by
  unfold Store.patchReclaim
  split
  · exact keeps_refl s
  · rename_i old hfind
    have hk : keyOf (patchReclaimObject base obj old).ObjectMeta = keyOf obj.ObjectMeta :=
      (reclaim?_key hfind : keyOf old.ObjectMeta = _)
    refine putReclaim_keeps hfind hk ⟨?_, ?_⟩
    · show patchRef _ _ _ = _
      rw [h1, patchRef_unchanged]
    · show patchClaimSpec _ _ _ = _
      rw [h2, patchClaimSpec_unchanged]

theorem updateReclaim_keeps (obj : PVCReclaim) (s : Store) (h : Tracks obj s) :
    Keeps s (s.updateReclaim obj).2 := by
  unfold Store.updateReclaim
  split
  · exact keeps_refl s
  · rename_i old hfind
    exact putReclaim_keeps hfind rfl (h old hfind)

theorem deleteReclaim_keepsFound (obj : PVCReclaim) (s : Store) :
    KeepsFound s (s.deleteReclaim obj).2 := by
  unfold Store.deleteReclaim
  split
  · exact keepsFound_of_keeps (keeps_refl s)
  · intro key r r' hr hr'
    by_cases hkey : key = keyOf obj.ObjectMeta
    · subst hkey
      rw [reclaim?_dropReclaim_same] at hr'
      cases hr'
    · rw [reclaim?_dropReclaim_other hkey, hr] at hr'
      cases hr'
      exact sameFrozen_refl r

theorem getReclaim_ok_inv {key : NamespacedName} {s : Store} {m : PVCReclaim}
    (h : (Store.getReclaim key s).1 = Except.ok m) :
    (∃ o, s.reclaim? key = some o ∧ m = decodeReclaim o) ∧ (Store.getReclaim key s).2 = s := by
  unfold Store.getReclaim at h ⊢
  split at h
  · rename_i o hfind
    cases h
    exact ⟨⟨o, hfind, rfl⟩, by simp [hfind]⟩
  · cases h

theorem createReclaim_ok_inv {obj m : PVCReclaim} {s : Store}
    (h : (s.createReclaim obj).1 = Except.ok m) :
    s.reclaim? (keyOf obj.ObjectMeta) = none ∧ keyOf m.ObjectMeta = keyOf obj.ObjectMeta ∧
      (s.createReclaim obj).2 = s.addReclaim m := by
  unfold Store.createReclaim at h ⊢
  split at h
  · cases h
  · rename_i hfind
    cases h
    exact ⟨hfind, rfl, by simp [hfind]⟩

theorem tracks_of_found {s : Store} {key : NamespacedName} {o : PVCReclaim}
    (h : s.reclaim? key = some o) : Tracks (decodeReclaim o) s := by
  intro old hold
  have hk : keyOf (decodeReclaim o).ObjectMeta = key :=
    (reclaim?_key h : keyOf o.ObjectMeta = key)
  rw [hk, h] at hold
  cases hold
  exact ⟨rfl, rfl⟩

theorem tracks_of_added {s : Store} {m : PVCReclaim}
    (h : s.reclaim? (keyOf m.ObjectMeta) = none) : Tracks m (s.addReclaim m) := by
  intro old hold
  rw [reclaim?_addReclaim_same h rfl] at hold
  cases hold
  exact sameFrozen_refl m

theorem syncReclaim_keeps (m : PVCReclaim) (pvc : PersistentVolumeClaim) (c : Client)
    (ht : Tracks m c.store) :
    Keeps c.store (PVCController.syncReclaim m pvc c).2.store := by
  unfold PVCController.syncReclaim
  split
  · exact keeps_refl _
  · rename_i labels _
    have ht' : Tracks (syncedReclaim m pvc labels) c.store := ht
    split
    · rename_i hcall
      exact call_keeps_of_eq hcall (updateReclaim_keeps _ _ ht')
    · rename_i hcall
      have h1 := call_keeps_of_eq hcall (updateReclaim_keeps _ _ ht')
      split
      · rename_i hcall2
        exact keeps_trans h1 (call_keeps_of_eq hcall2 (statusPatchReclaim_keeps _ _ _))
      · rename_i hcall2
        exact keeps_trans h1 (call_keeps_of_eq hcall2 (statusPatchReclaim_keeps _ _ _))

theorem getOrCreateClaimRef_keeps (pvc : PersistentVolumeClaim) (c : Client) :
    Keeps c.store (PVCController.getOrCreateClaimRef pvc c).2.store ∧
    ∀ m p, (PVCController.getOrCreateClaimRef pvc c).1 = Except.ok (m, p) →
      Tracks m (PVCController.getOrCreateClaimRef pvc c).2.store := by
  unfold PVCController.getOrCreateClaimRef
  split
  · rename_i hcall
    exact ⟨call_keeps_of_eq hcall (getPV_keeps _ _), fun m p h => by simp at h⟩
  · rename_i pv c1 hcall
    have h1 := call_keeps_of_eq hcall (getPV_keeps _ _)
    split
    · rename_i m c2 hcall2
      have h2 := call_keeps_of_eq hcall2 (getReclaim_keeps _ _)
      refine ⟨keeps_trans h1 h2, fun m' p h => ?_⟩
      simp only [Except.ok.injEq, Prod.mk.injEq] at h
      obtain ⟨rfl, -⟩ := h
      obtain ⟨hres, hstore⟩ := call_ok_inv hcall2
      obtain ⟨⟨o, hfind, rfl⟩, hsame⟩ := getReclaim_ok_inv hres
      show Tracks _ c2.store
      rw [hstore, hsame]
      exact tracks_of_found hfind
    · rename_i err c2 hcall2
      have h2 := call_keeps_of_eq hcall2 (getReclaim_keeps _ _)
      split
      · exact ⟨keeps_trans h1 h2, fun m p h => by simp at h⟩
      · split
        · rename_i hcall3
          exact ⟨keeps_trans h1 (keeps_trans h2 (call_keeps_of_eq hcall3
            (createReclaim_keeps _ _))), fun m p h => by simp at h⟩
        · rename_i m c3 hcall3
          refine ⟨keeps_trans h1 (keeps_trans h2 (call_keeps_of_eq hcall3
            (createReclaim_keeps _ _))), fun m' p h => ?_⟩
          simp only [Except.ok.injEq, Prod.mk.injEq] at h
          obtain ⟨rfl, -⟩ := h
          obtain ⟨hres, hstore⟩ := call_ok_inv hcall3
          obtain ⟨hnone, hk, hadd⟩ := createReclaim_ok_inv hres
          show Tracks _ c3.store
          rw [hstore, hadd]
          exact tracks_of_added (by rw [hk]; exact hnone)

theorem mirror_keeps (req : Request) (c : Client) :
    Keeps c.store (PVCController.Reconcile req c).2.store := by
  unfold PVCController.Reconcile
  split
  · rename_i hcall
    exact call_keeps_of_eq hcall (getPVC_keeps _ _)
  · rename_i pvc c1 hcall
    have h1 := call_keeps_of_eq hcall (getPVC_keeps _ _)
    split
    · exact h1
    · obtain ⟨h2, h3⟩ := getOrCreateClaimRef_keeps pvc c1
      split
      · rename_i hres
        rw [hres] at h2
        exact keeps_trans h1 h2
      · rename_i m p c2 hres
        rw [hres] at h2
        have ht : Tracks m c2.store := by
          have := h3 m p (by rw [hres])
          rw [hres] at this
          exact this
        exact keeps_trans h1 (keeps_trans h2 (syncReclaim_keeps m p c2 ht))

theorem patchMirrored_keeps (pvc : PersistentVolumeClaim) (m : PVCReclaim) (c : Client) :
    Keeps c.store (PVCReclaimController.patchMirrored pvc m c).2.store := by
  unfold PVCReclaimController.patchMirrored
  split
  · rename_i hcall
    exact call_keeps_of_eq hcall (statusPatchReclaim_keeps _ _ _)
  · rename_i hcall
    exact call_keeps_of_eq hcall (statusPatchReclaim_keeps _ _ _)

theorem mirrorClaim_keeps (pvc : PersistentVolumeClaim) (c : Client) :
    Keeps c.store (PVCReclaimController.mirrorClaim pvc c).2.store := by
  unfold PVCReclaimController.mirrorClaim
  split
  · exact keeps_refl _
  · split
    · rename_i hcall
      exact call_keeps_of_eq hcall (getPV_keeps _ _)
    · rename_i pv c1 hcall
      have h1 := call_keeps_of_eq hcall (getPV_keeps _ _)
      split
      · rename_i m c2 hcall2
        exact keeps_trans h1 (keeps_trans (call_keeps_of_eq hcall2 (createReclaim_keeps _ _))
          (patchMirrored_keeps _ _ _))
      · rename_i err c2 hcall2
        have h2 := call_keeps_of_eq hcall2 (createReclaim_keeps _ _)
        split
        · exact keeps_trans h1 h2
        · exact keeps_trans h1 (keeps_trans h2 (patchMirrored_keeps _ _ _))

theorem patchVolume_keepsFound (m : PVCReclaim) (pv : PersistentVolume)
    (pvc : PersistentVolumeClaim) (c : Client) :
    KeepsFound c.store (PVCReclaimController.patchVolume m pv pvc c).2.store := by
  unfold PVCReclaimController.patchVolume
  split
  · exact keepsFound_of_keeps (keeps_refl _)
  · split
    · rename_i hcall
      exact keepsFound_of_keeps (call_keeps_of_eq hcall (patchPV_keeps _ _ _))
    · rename_i hcall
      have h1 := call_keeps_of_eq hcall (patchPV_keeps _ _ _)
      split
      · rename_i hcall2
        exact keepsFound_of_keeps
          (keeps_trans h1 (call_keeps_of_eq hcall2 (statusPatchReclaim_keeps _ _ _)))
      · rename_i hcall2
        have h2 := keeps_trans h1 (call_keeps_of_eq hcall2 (statusPatchReclaim_keeps _ _ _))
        split
        · rename_i hcall3
          exact keepsFound_after h2 (call_keepsFound_of_eq hcall3 (deleteReclaim_keepsFound _ _))
        · rename_i hcall3
          exact keepsFound_after h2 (call_keepsFound_of_eq hcall3 (deleteReclaim_keepsFound _ _))

theorem rebind_keepsFound (m : PVCReclaim) (pv : PersistentVolume)
    (pvc : PersistentVolumeClaim) (c : Client) :
    KeepsFound c.store (PVCReclaimController.rebind m pv pvc c).2.store := by
  unfold PVCReclaimController.rebind
  split
  · rename_i hcall
    exact keepsFound_of_keeps (call_keeps_of_eq hcall (statusPatchPVC_keeps _ _ _))
  · rename_i hcall
    have h1 := call_keeps_of_eq hcall (statusPatchPVC_keeps _ _ _)
    split
    · rename_i hcall2
      exact keepsFound_of_keeps (keeps_trans h1 (call_keeps_of_eq hcall2 (getPVC_keeps _ _)))
    · rename_i hcall2
      exact keepsFound_after (keeps_trans h1 (call_keeps_of_eq hcall2 (getPVC_keeps _ _)))
        (patchVolume_keepsFound _ _ _ _)

theorem recreate_keepsFound (m : PVCReclaim) (pv : PersistentVolume) (c : Client) :
    KeepsFound c.store (PVCReclaimController.recreate m pv c).2.store := by
  unfold PVCReclaimController.recreate
  split
  · rename_i hcall
    exact keepsFound_after (call_keeps_of_eq hcall (createPVC_keeps _ _))
      (rebind_keepsFound _ _ _ _)
  · rename_i hcall
    have h1 := call_keeps_of_eq hcall (createPVC_keeps _ _)
    split
    · split
      · rename_i hcall2
        exact keepsFound_of_keeps
          (keeps_trans h1 (call_keeps_of_eq hcall2 (statusPatchReclaim_keeps _ _ _)))
      · rename_i hcall2
        exact keepsFound_of_keeps
          (keeps_trans h1 (call_keeps_of_eq hcall2 (statusPatchReclaim_keeps _ _ _)))
    · exact keepsFound_after h1 (rebind_keepsFound _ _ _ _)

theorem restore_keepsFound (m : PVCReclaim) (pv : PersistentVolume) (c : Client) :
    KeepsFound c.store (PVCReclaimController.restore m pv c).2.store := by
  unfold PVCReclaimController.restore
  split
  · rename_i hcall
    exact keepsFound_of_keeps (call_keeps_of_eq hcall (statusPatchReclaim_keeps _ _ _))
  · rename_i hcall
    exact keepsFound_after (call_keeps_of_eq hcall (statusPatchReclaim_keeps _ _ _))
      (recreate_keepsFound _ _ _)

theorem rejectRestore_keeps (m : PVCReclaim) (pv : PersistentVolume) (c : Client) :
    Keeps c.store (PVCReclaimController.rejectRestore m pv c).2.store := by
  unfold PVCReclaimController.rejectRestore
  split
  · rename_i hcall
    exact call_keeps_of_eq hcall (patchReclaim_keeps _ _ _ rfl rfl)
  · rename_i hcall
    have h1 := call_keeps_of_eq hcall (patchReclaim_keeps _ _ _ rfl rfl)
    split
    · rename_i hcall2
      exact keeps_trans h1 (call_keeps_of_eq hcall2 (statusPatchReclaim_keeps _ _ _))
    · rename_i hcall2
      exact keeps_trans h1 (call_keeps_of_eq hcall2 (statusPatchReclaim_keeps _ _ _))

theorem reconcileRecord_keepsFound (m : PVCReclaim) (c : Client) :
    KeepsFound c.store (PVCReclaimController.reconcileRecord m c).2.store := by
  unfold PVCReclaimController.reconcileRecord
  split
  · exact keepsFound_of_keeps (keeps_refl _)
  · split
    · rename_i hcall
      have h1 := call_keeps_of_eq hcall (getPV_keeps _ _)
      split
      · exact keepsFound_of_keeps h1
      · split
        · rename_i hcall2
          exact keepsFound_after h1 (call_keepsFound_of_eq hcall2 (deleteReclaim_keepsFound _ _))
        · rename_i hcall2
          exact keepsFound_after h1 (call_keepsFound_of_eq hcall2 (deleteReclaim_keepsFound _ _))
    · rename_i hcall
      have h1 := call_keeps_of_eq hcall (getPV_keeps _ _)
      split
      · exact keepsFound_of_keeps h1
      · split
        · exact keepsFound_of_keeps (keeps_trans h1 (rejectRestore_keeps _ _ _))
        · exact keepsFound_after h1 (restore_keepsFound _ _ _)

theorem reconciler_keepsFound (req : Request) (c : Client) :
    KeepsFound c.store (PVCReclaimController.Reconcile req c).2.store := by
  unfold PVCReclaimController.Reconcile
  rcases hcall : c.call (Call.GetReclaim req.NamespacedName)
      (Store.getReclaim req.NamespacedName) with ⟨res, c1⟩
  have h1 := call_keeps_of_eq hcall (getReclaim_keeps _ _)
  simp only []
  split
  · exact keepsFound_of_keeps h1
  · rcases hcall2 : c1.call (Call.GetPVC req.NamespacedName)
        (Store.getPVC req.NamespacedName) with ⟨pvcRes, c2⟩
    have h2 := keeps_trans h1 (call_keeps_of_eq hcall2 (getPVC_keeps _ _))
    simp only []
    split
    · exact keepsFound_of_keeps h2
    · split
      · exact keepsFound_of_keeps h2
      · split
        · exact keepsFound_of_keeps (keeps_trans h2 (mirrorClaim_keeps _ _))
        · exact keepsFound_after h2 (reconcileRecord_keepsFound _ _)

/-! ### The mirror path of the Reclaim Reconciler -/

theorem Reconcile_of_claim {s : Store} {f : Nat → Option APIError} {lg : List Call}
    {req : Request} {pvc : PersistentVolumeClaim} (hf0 : f 0 = none) (hf1 : f 1 = none)
    (hr : s.reclaim? req.NamespacedName = none)
    (hc : s.pvc? req.NamespacedName = some pvc) :
    PVCReclaimController.Reconcile req { store := s, faults := f, log := lg } =
      PVCReclaimController.mirrorClaim (decodePVC pvc)
        { store := s, faults := fun i => f (i + 1 + 1),
          log := lg ++ [Call.GetReclaim req.NamespacedName] ++
            [Call.GetPVC req.NamespacedName] } := by
  have hf1' : (fun i => f (i + 1)) 0 = none := hf1
  simp [PVCReclaimController.Reconcile, call_free _ _ _ _ _ hf0,
    call_free _ (fun i => f (i + 1)) _ _ _ hf1', getReclaim_missing hr, IsNotFound,
    getPVC_found hc, errNotFound]

theorem mirrorClaim_created {s : Store} {f : Nat → Option APIError} {lg : List Call}
    {key : NamespacedName} {pvc : PersistentVolumeClaim} {pv : PersistentVolume}
    (hf0 : f 0 = none) (hf1 : f 1 = none) (hf2 : f 2 = none)
    (hk : keyOf pvc.ObjectMeta = key)
    (hname : pvc.Spec.VolumeName ≠ "")
    (hbound : pvc.Status.Phase = ClaimBound)
    (hpv : s.pv? pvc.Spec.VolumeName = some pv)
    (hr : s.reclaim? key = none) :
    PVCReclaimController.mirrorClaim (decodePVC pvc) { store := s, faults := f, log := lg } =
      (Outcome.returned none,
        { store := (s.addReclaim
              (storedReclaim (newReclaimFor (decodePVC pvc) (decodePV pv)) (newUID s.uids)
                {})).putReclaim key
            (withStatus
              (storedReclaim (newReclaimFor (decodePVC pvc) (decodePV pv)) (newUID s.uids) {})
              (mirroredStatus (decodePVC pvc)
                (storedReclaim (newReclaimFor (decodePVC pvc) (decodePV pv)) (newUID s.uids)
                  {})))
          faults := fun i => f (i + 1 + 1 + 1)
          log := lg ++ [Call.GetPV pvc.Spec.VolumeName] ++
            [Call.CreateReclaim (newReclaimFor (decodePVC pvc) (decodePV pv))] ++
            [Call.StatusPatchReclaim
              (storedReclaim (newReclaimFor (decodePVC pvc) (decodePV pv)) (newUID s.uids) {})
              (withStatus
                (storedReclaim (newReclaimFor (decodePVC pvc) (decodePV pv)) (newUID s.uids)
                  {})
                (mirroredStatus (decodePVC pvc)
                  (storedReclaim (newReclaimFor (decodePVC pvc) (decodePV pv)) (newUID s.uids)
                    {})))] }) := by
  have hk' : keyOf (newReclaimFor (decodePVC pvc) (decodePV pv)).ObjectMeta = key := hk
  have hk2 : keyOf (withStatus
      (storedReclaim (newReclaimFor (decodePVC pvc) (decodePV pv)) (newUID s.uids) {})
      (mirroredStatus (decodePVC pvc)
        (storedReclaim (newReclaimFor (decodePVC pvc) (decodePV pv)) (newUID s.uids)
          {}))).ObjectMeta = key := hk
  have hk3 : keyOf (storedReclaim (newReclaimFor (decodePVC pvc) (decodePV pv))
      (newUID s.uids) {}).ObjectMeta = key := hk
  have hname' : ¬ (decodePVC pvc).Spec.VolumeName = "" := hname
  have hbound' : (decodePVC pvc).Status.Phase = ClaimBound := hbound
  have hv : (decodePVC pvc).Spec.VolumeName = pvc.Spec.VolumeName := rfl
  have h1 : (fun i => f (i + 1)) 0 = none := hf1
  have h2 : (fun i => f (i + 1 + 1)) 0 = none := hf2
  unfold PVCReclaimController.mirrorClaim
  simp only [hname', hbound', ne_eq, not_true_eq_false, or_self, if_false]
  rw [hv, call_free _ _ _ _ _ hf0, getPV_found hpv]
  simp only []
  rw [call_free _ (fun i => f (i + 1)) _ _ _ h1,
    createReclaim_new (newReclaimFor (decodePVC pvc) (decodePV pv)) hk' hr]
  simp only []
  unfold PVCReclaimController.patchMirrored
  rw [call_free _ (fun i => f (i + 1 + 1)) _ _ _ h2,
    statusPatchReclaim_found _ _ hk2 (reclaim?_addReclaim_same hr hk3),
    patchReclaimStatus_stored]

theorem mirrorClaim_missing_volume {s : Store} {f : Nat → Option APIError} {lg : List Call}
    {pvc : PersistentVolumeClaim}
    (hf0 : f 0 = none)
    (hname : pvc.Spec.VolumeName ≠ "")
    (hbound : pvc.Status.Phase = ClaimBound)
    (hpv : s.pv? pvc.Spec.VolumeName = none) :
    PVCReclaimController.mirrorClaim (decodePVC pvc) { store := s, faults := f, log := lg } =
      (Outcome.returned none,
        { store := s, faults := fun i => f (i + 1),
          log := lg ++ [Call.GetPV pvc.Spec.VolumeName] }) := by
  have hname' : ¬ (decodePVC pvc).Spec.VolumeName = "" := hname
  have hbound' : (decodePVC pvc).Status.Phase = ClaimBound := hbound
  have hv : (decodePVC pvc).Spec.VolumeName = pvc.Spec.VolumeName := rfl
  unfold PVCReclaimController.mirrorClaim
  simp only [hname', hbound', ne_eq, not_true_eq_false, or_self, if_false]
  rw [hv, call_free _ _ _ _ _ hf0, getPV_missing hpv]
  simp [IgnoreNotFound, IsNotFound, errNotFound]

theorem map_replace_of_missing {α : Type} (p : α → Bool) (o : α) :
    ∀ l : List α, l.find? p = none → l.map (fun y => if p y then o else y) = l
  | [], _ => rfl
  | a :: t, h => by
    have ha : p a = false := by
      cases hp : p a
      · rfl
      · simp [List.find?, hp] at h
    have ht : t.find? p = none := by simpa [List.find?, ha] using h
    simp [ha, map_replace_of_missing p o t ht]

theorem reclaims_put_after_add {s : Store} {key : NamespacedName} (m o : PVCReclaim)
    (hr : s.reclaim? key = none) (hm : keyOf m.ObjectMeta = key) :
    ((s.addReclaim m).putReclaim key o).reclaims = s.reclaims ++ [o] := by
  have hkey : hasKey m.ObjectMeta key = true := (hasKey_iff _ _).2 hm
  show (s.reclaims ++ [m]).map _ = _
  rw [List.map_append, map_replace_of_missing _ o s.reclaims hr]
  simp [hkey]

theorem reclaims_put_put {s : Store} {key : NamespacedName} (o o' : PVCReclaim)
    (ho : keyOf o.ObjectMeta = key) :
    ((s.putReclaim key o).putReclaim key o').reclaims = (s.putReclaim key o').reclaims := by
  have hkey : hasKey o.ObjectMeta key = true := (hasKey_iff _ _).2 ho
  show (s.reclaims.map _).map _ = s.reclaims.map _
  rw [List.map_map]
  apply List.map_congr_left
  intro x _
  by_cases hx : hasKey x.ObjectMeta key = true
  · simp [hx, hkey]
  · simp [hx]

theorem mirror_missing_volume {s : Store} {f : Nat → Option APIError} {lg : List Call}
    {req : Request} {pvc : PersistentVolumeClaim}
    (hf0 : f 0 = none) (hf1 : f 1 = none)
    (hc : s.pvc? req.NamespacedName = some pvc)
    (hname : pvc.Spec.VolumeName ≠ "")
    (hbound : pvc.Status.Phase = ClaimBound)
    (hpv : s.pv? pvc.Spec.VolumeName = none) :
    PVCController.Reconcile req { store := s, faults := f, log := lg } =
      (Outcome.returned (some (errNotFound "persistentvolumes" pvc.Spec.VolumeName)),
        { store := s, faults := fun i => f (i + 1 + 1),
          log := lg ++ [Call.GetPVC req.NamespacedName] ++
            [Call.GetPV pvc.Spec.VolumeName] }) := by
  have hname' : ¬ (decodePVC pvc).Spec.VolumeName = "" := hname
  have hbound' : (decodePVC pvc).Status.Phase = ClaimBound := hbound
  have hv : (decodePVC pvc).Spec.VolumeName = pvc.Spec.VolumeName := rfl
  have h1 : (fun i => f (i + 1)) 0 = none := hf1
  unfold PVCController.Reconcile
  rw [call_free _ _ _ _ _ hf0, getPVC_found hc]
  simp only [hname', hbound', ne_eq, not_true_eq_false, or_self, if_false]
  unfold PVCController.getOrCreateClaimRef
  rw [hv, call_free _ (fun i => f (i + 1)) _ _ _ h1, getPV_missing hpv]

/-! ### Failures of store calls along a run -/

theorem quiet_refl (c : Client) : QuietRun c c :=
  ⟨[], by simp, fun i => by simp, fun i e err h => by simp at h⟩

theorem quiet_trans {c c' c'' : Client} (h1 : QuietRun c c') (h2 : QuietRun c' c'') :
    QuietRun c c'' := by
  obtain ⟨m1, hl1, hf1, hq1⟩ := h1
  obtain ⟨m2, hl2, hf2, hq2⟩ := h2
  refine ⟨m1 ++ m2, by rw [hl2, hl1, List.append_assoc], fun i => ?_, fun i e err he hfault => ?_⟩
  · rw [hf2, hf1, List.length_append]
    congr 1
    omega
  · by_cases hi : i < m1.length
    · rw [List.getElem?_append_left hi] at he
      exact hq1 i e err he hfault
    · have hi' : m1.length ≤ i := Nat.le_of_not_lt hi
      rw [List.getElem?_append_right hi'] at he
      refine hq2 (i - m1.length) e err he ?_
      rw [hf1]
      have : m1.length + (i - m1.length) = i := by omega
      rw [this]
      exact hfault

theorem quiet_call {α : Type} {c c1 : Client} {e : Call}
    {op : Store → Except APIError α × Store} {res : Except APIError α}
    (hcall : c.call e op = (res, c1))
    (h : ∀ err, res = Except.error err → expectedFailure e err = true) :
    QuietRun c c1 := by
  unfold Client.call at hcall
  split at hcall
  · rename_i err0 hfault
    simp only [Prod.mk.injEq] at hcall
    obtain ⟨hres, rfl⟩ := hcall
    refine ⟨[e], rfl, fun i => by simp [Nat.add_comm], fun i e' err he hf => ?_⟩
    cases i with
    | zero =>
      simp only [List.getElem?_cons_zero, Option.some.injEq] at he
      subst he
      rw [hfault] at hf
      cases hf
      exact h _ hres.symm
    | succ n => simp at he
  · rename_i hfault
    simp only [Prod.mk.injEq] at hcall
    obtain ⟨hres, rfl⟩ := hcall
    refine ⟨[e], rfl, fun i => by simp [Nat.add_comm], fun i e' err he hf => ?_⟩
    cases i with
    | zero => rw [hfault] at hf; cases hf
    | succ n => simp at he

theorem quiet_call_ok {α : Type} {c c1 : Client} {e : Call}
    {op : Store → Except APIError α × Store} {x : α}
    (hcall : c.call e op = (Except.ok x, c1)) : QuietRun c c1 :=
  quiet_call hcall (fun _ h => by cases h)

theorem quiet_call_error {α : Type} {c c1 : Client} {e : Call}
    {op : Store → Except APIError α × Store} {err : APIError}
    (hcall : c.call e op = ((Except.error err : Except APIError α), c1))
    (h : expectedFailure e err = true) : QuietRun c c1 :=
  quiet_call hcall (fun err' h' => by cases h'; exact h)

theorem reported_or_quiet_after {c c1 : Client} {o : Outcome} {c2 : Client}
    (h1 : QuietRun c c1)
    (h2 : (∃ err, o = Outcome.returned (some err)) ∨ QuietRun c1 c2) :
    (∃ err, o = Outcome.returned (some err)) ∨ QuietRun c c2 :=
  h2.imp id (quiet_trans h1)

theorem expected_get_of_notFound {e : Call} {err : APIError} (he : e.isGet = true)
    (h : IsNotFound (some err) = true) : expectedFailure e err = true := by
  simp only [IsNotFound, decide_eq_true_eq] at h
  simp [expectedFailure, he, h]

theorem expected_create_of_alreadyExists {e : Call} {err : APIError} (he : e.isCreate = true)
    (h : IsAlreadyExists (some err) = true) : expectedFailure e err = true := by
  simp only [IsAlreadyExists, decide_eq_true_eq] at h
  simp [expectedFailure, he, h]

theorem syncReclaim_reports (m : PVCReclaim) (pvc : PersistentVolumeClaim) (c : Client) :
    (∃ err, (PVCController.syncReclaim m pvc c).1 = Outcome.returned (some err)) ∨
      QuietRun c (PVCController.syncReclaim m pvc c).2 := by
  unfold PVCController.syncReclaim
  split
  · exact Or.inr (quiet_refl _)
  · split
    · exact Or.inl ⟨_, rfl⟩
    · rename_i hcall
      split
      · exact Or.inl ⟨_, rfl⟩
      · rename_i hcall2
        exact Or.inr (quiet_trans (quiet_call_ok hcall) (quiet_call_ok hcall2))

theorem getOrCreateClaimRef_reports (pvc : PersistentVolumeClaim) (c : Client) :
    (∃ err, (PVCController.getOrCreateClaimRef pvc c).1 = Except.error err) ∨
      QuietRun c (PVCController.getOrCreateClaimRef pvc c).2 := by
  unfold PVCController.getOrCreateClaimRef
  split
  · exact Or.inl ⟨_, rfl⟩
  · rename_i hcall
    split
    · rename_i hcall2
      exact Or.inr (quiet_trans (quiet_call_ok hcall) (quiet_call_ok hcall2))
    · rename_i err c2 hcall2
      split
      · exact Or.inl ⟨_, rfl⟩
      · rename_i hnf
        have hexp : expectedFailure (Call.GetReclaim (keyOf pvc.ObjectMeta)) err = true :=
          expected_get_of_notFound rfl (by simpa using hnf)
        split
        · exact Or.inl ⟨_, rfl⟩
        · rename_i hcall3
          exact Or.inr (quiet_trans (quiet_call_ok hcall)
            (quiet_trans (quiet_call_error hcall2 hexp) (quiet_call_ok hcall3)))

theorem mirror_reports (req : Request) (c : Client) :
    (∃ err, (PVCController.Reconcile req c).1 = Outcome.returned (some err)) ∨
      QuietRun c (PVCController.Reconcile req c).2 := by
  unfold PVCController.Reconcile
  split
  · rename_i err c1 hcall
    by_cases hnf : IsNotFound (some err) = true
    · exact Or.inr (quiet_call_error hcall (expected_get_of_notFound rfl hnf))
    · exact Or.inl ⟨err, by simp [IgnoreNotFound, hnf]⟩
  · rename_i pvc c1 hcall
    split
    · exact Or.inr (quiet_call_ok hcall)
    · have h2 := getOrCreateClaimRef_reports pvc c1
      split
      · exact Or.inl ⟨_, rfl⟩
      · rename_i m p c2 hres
        rw [hres] at h2
        rcases h2 with ⟨err, h⟩ | h
        · cases h
        · exact reported_or_quiet_after (quiet_trans (quiet_call_ok hcall) h)
            (syncReclaim_reports m p c2)

theorem patchMirrored_reports (pvc : PersistentVolumeClaim) (m : PVCReclaim) (c : Client) :
    (∃ err, (PVCReclaimController.patchMirrored pvc m c).1 = Outcome.returned (some err)) ∨
      QuietRun c (PVCReclaimController.patchMirrored pvc m c).2 := by
  unfold PVCReclaimController.patchMirrored
  split
  · exact Or.inl ⟨_, rfl⟩
  · rename_i hcall
    exact Or.inr (quiet_call_ok hcall)

theorem mirrorClaim_reports (pvc : PersistentVolumeClaim) (c : Client) :
    (∃ err, (PVCReclaimController.mirrorClaim pvc c).1 = Outcome.returned (some err)) ∨
      QuietRun c (PVCReclaimController.mirrorClaim pvc c).2 := by
  unfold PVCReclaimController.mirrorClaim
  split
  · exact Or.inr (quiet_refl _)
  · split
    · rename_i err c1 hcall
      by_cases hnf : IsNotFound (some err) = true
      · exact Or.inr (quiet_call_error hcall (expected_get_of_notFound rfl hnf))
      · exact Or.inl ⟨err, by simp [IgnoreNotFound, hnf]⟩
    · rename_i pv c1 hcall
      split
      · rename_i hcall2
        exact reported_or_quiet_after (quiet_trans (quiet_call_ok hcall) (quiet_call_ok hcall2))
          (patchMirrored_reports _ _ _)
      · rename_i err c2 hcall2
        split
        · exact Or.inl ⟨_, rfl⟩
        · rename_i hae
          have hexp : expectedFailure
              (Call.CreateReclaim (newReclaimFor pvc pv)) err = true :=
            expected_create_of_alreadyExists rfl (by simpa using hae)
          exact reported_or_quiet_after
            (quiet_trans (quiet_call_ok hcall) (quiet_call_error hcall2 hexp))
            (patchMirrored_reports _ _ _)

theorem patchVolume_reports (m : PVCReclaim) (pv : PersistentVolume)
    (pvc : PersistentVolumeClaim) (c : Client) :
    (∃ err, (PVCReclaimController.patchVolume m pv pvc c).1 = Outcome.returned (some err)) ∨
      QuietRun c (PVCReclaimController.patchVolume m pv pvc c).2 := by
  unfold PVCReclaimController.patchVolume
  split
  · exact Or.inr (quiet_refl _)
  · split
    · exact Or.inl ⟨_, rfl⟩
    · rename_i hcall
      split
      · exact Or.inl ⟨_, rfl⟩
      · rename_i hcall2
        split
        · exact Or.inl ⟨_, rfl⟩
        · rename_i hcall3
          exact Or.inr (quiet_trans (quiet_call_ok hcall)
            (quiet_trans (quiet_call_ok hcall2) (quiet_call_ok hcall3)))

theorem rebind_reports (m : PVCReclaim) (pv : PersistentVolume)
    (pvc : PersistentVolumeClaim) (c : Client) :
    (∃ err, (PVCReclaimController.rebind m pv pvc c).1 = Outcome.returned (some err)) ∨
      QuietRun c (PVCReclaimController.rebind m pv pvc c).2 := by
  unfold PVCReclaimController.rebind
  split
  · exact Or.inl ⟨_, rfl⟩
  · rename_i hcall
    split
    · exact Or.inl ⟨_, rfl⟩
    · rename_i hcall2
      exact reported_or_quiet_after (quiet_trans (quiet_call_ok hcall) (quiet_call_ok hcall2))
        (patchVolume_reports _ _ _ _)

theorem recreate_reports (m : PVCReclaim) (pv : PersistentVolume) (c : Client) :
    (∃ err, (PVCReclaimController.recreate m pv c).1 = Outcome.returned (some err)) ∨
      QuietRun c (PVCReclaimController.recreate m pv c).2 := by
  unfold PVCReclaimController.recreate
  split
  · rename_i hcall
    exact reported_or_quiet_after (quiet_call_ok hcall) (rebind_reports _ _ _ _)
  · rename_i err c1 hcall
    split
    · split
      · exact Or.inl ⟨_, rfl⟩
      · exact Or.inl ⟨_, rfl⟩
    · rename_i hae
      have hexp : expectedFailure (Call.CreatePVC (recreatedClaim m)) err = true :=
        expected_create_of_alreadyExists rfl (by simpa using hae)
      exact reported_or_quiet_after (quiet_call_error hcall hexp) (rebind_reports _ _ _ _)

theorem restore_reports (m : PVCReclaim) (pv : PersistentVolume) (c : Client) :
    (∃ err, (PVCReclaimController.restore m pv c).1 = Outcome.returned (some err)) ∨
      QuietRun c (PVCReclaimController.restore m pv c).2 := by
  unfold PVCReclaimController.restore
  split
  · exact Or.inl ⟨_, rfl⟩
  · rename_i hcall
    exact reported_or_quiet_after (quiet_call_ok hcall) (recreate_reports _ _ _)

theorem rejectRestore_reports (m : PVCReclaim) (pv : PersistentVolume) (c : Client) :
    (∃ err, (PVCReclaimController.rejectRestore m pv c).1 = Outcome.returned (some err)) ∨
      QuietRun c (PVCReclaimController.rejectRestore m pv c).2 := by
  unfold PVCReclaimController.rejectRestore
  split
  · exact Or.inl ⟨_, rfl⟩
  · rename_i hcall
    split
    · exact Or.inl ⟨_, rfl⟩
    · rename_i hcall2
      exact Or.inr (quiet_trans (quiet_call_ok hcall) (quiet_call_ok hcall2))

theorem reconcileRecord_reports (m : PVCReclaim) (c : Client) :
    (∃ err, (PVCReclaimController.reconcileRecord m c).1 = Outcome.returned (some err)) ∨
      QuietRun c (PVCReclaimController.reconcileRecord m c).2 := by
  unfold PVCReclaimController.reconcileRecord
  split
  · exact Or.inr (quiet_refl _)
  · rename_i volumeRef _
    split
    · rename_i err c1 hcall
      split
      · exact Or.inl ⟨_, rfl⟩
      · rename_i hnf
        have hexp : expectedFailure (Call.GetPV volumeRef.Name) err = true :=
          expected_get_of_notFound rfl (by simpa using hnf)
        split
        · exact Or.inl ⟨_, rfl⟩
        · rename_i hcall2
          exact Or.inr (quiet_trans (quiet_call_error hcall hexp) (quiet_call_ok hcall2))
    · rename_i hcall
      split
      · exact Or.inr (quiet_call_ok hcall)
      · split
        · exact reported_or_quiet_after (quiet_call_ok hcall) (rejectRestore_reports _ _ _)
        · exact reported_or_quiet_after (quiet_call_ok hcall) (restore_reports _ _ _)

theorem quiet_getElem {c c' : Client} (h : QuietRun c c') {i : Nat} {e : Call} {err : APIError}
    (hcalled : (c'.log.drop c.log.length)[i]? = some e) (hfault : c.faults i = some err) :
    expectedFailure e err = true := by
  obtain ⟨made, hlog, -, hq⟩ := h
  rw [hlog, List.drop_left] at hcalled
  exact hq i e err hcalled hfault

/-- The Claim Mirror reports every unexpected failure: when a call of a run is hit by a
fault that is not an expected failure of that call (a not-found on a `get`, an
already-exists on a `create`), `PVCController.Reconcile` returns a non-nil error. -/
theorem mirror_reports_unexpected_failures (c : Client) (req : Request) (i : Nat) (e : Call)
    (err : APIError)
    (hcalled : ((PVCController.Reconcile req c).2.log.drop c.log.length)[i]? = some e)
    (hfault : c.faults i = some err)
    (hunexpected : expectedFailure e err = false) :
    ∃ err', (PVCController.Reconcile req c).1 = Outcome.returned (some err') := by
  rcases mirror_reports req c with h | h
  · exact h
  · have := quiet_getElem h hcalled hfault
    rw [hunexpected] at this
    cases this

theorem reconciler_reports (req : Request) (c : Client) :
    (∃ err, (PVCReclaimController.Reconcile req c).1 = Outcome.returned (some err)) ∨
      QuietRun c (PVCReclaimController.Reconcile req c).2 ∨
      ((∃ r, c.store.reclaim? req.NamespacedName = some r) ∧ c.faults 0 = none ∧
        (PVCReclaimController.Reconcile req c).2.log =
          c.log ++ [Call.GetReclaim req.NamespacedName, Call.GetPVC req.NamespacedName]) := by
  unfold PVCReclaimController.Reconcile
  rcases hcall : c.call (Call.GetReclaim req.NamespacedName)
      (Store.getReclaim req.NamespacedName) with ⟨res, c1⟩
  have hlog1 : c1.log = c.log ++ [Call.GetReclaim req.NamespacedName] := by
    have := call_log c (Call.GetReclaim req.NamespacedName) (Store.getReclaim req.NamespacedName)
    rw [hcall] at this
    exact this
  simp only []
  rcases hcall2 : c1.call (Call.GetPVC req.NamespacedName)
      (Store.getPVC req.NamespacedName) with ⟨pvcRes, c2⟩
  have hlog2 : c2.log = c1.log ++ [Call.GetPVC req.NamespacedName] := by
    have := call_log c1 (Call.GetPVC req.NamespacedName) (Store.getPVC req.NamespacedName)
    rw [hcall2] at this
    exact this
  simp only []
  cases res with
  | error e0 =>
    by_cases hnf0 : IsNotFound (some e0) = true
    · have hq1 : QuietRun c c1 := quiet_call_error hcall (expected_get_of_notFound rfl hnf0)
      cases pvcRes with
      | error e1 =>
        by_cases hnf1 : IsNotFound (some e1) = true
        · refine Or.inr (Or.inl ?_)
          simp only [hnf0, hnf1]
          simpa using quiet_trans hq1
            (quiet_call_error hcall2 (expected_get_of_notFound rfl hnf1))
        · refine Or.inl ⟨e0, ?_⟩
          simp [hnf0, hnf1]
      | ok pvc =>
        have h := reported_or_quiet_after (quiet_trans hq1 (quiet_call_ok hcall2))
          (mirrorClaim_reports pvc c2)
        simp only [hnf0]
        rcases h with h | h
        · exact Or.inl (by simpa [IsNotFound] using h)
        · exact Or.inr (Or.inl (by simpa [IsNotFound] using h))
    · refine Or.inl ⟨e0, ?_⟩
      simp [hnf0]
  | ok r =>
    have hq1 : QuietRun c c1 := quiet_call_ok hcall
    cases pvcRes with
    | error e1 =>
      by_cases hnf1 : IsNotFound (some e1) = true
      · have h := reported_or_quiet_after
          (quiet_trans hq1 (quiet_call_error hcall2 (expected_get_of_notFound rfl hnf1)))
          (reconcileRecord_reports r c2)
        have hreason : e1.Reason = StatusReason.NotFound := by simpa [IsNotFound] using hnf1
        rcases h with h | h
        · exact Or.inl (by simpa [IsNotFound, hreason] using h)
        · exact Or.inr (Or.inl (by simpa [IsNotFound, hreason] using h))
      · have hreason : ¬ e1.Reason = StatusReason.NotFound := by simpa [IsNotFound] using hnf1
        refine Or.inr (Or.inr ?_)
        obtain ⟨hres, -⟩ := call_ok_inv hcall
        obtain ⟨⟨o, hfind, -⟩, -⟩ := getReclaim_ok_inv hres
        refine ⟨⟨o, hfind⟩, ?_, ?_⟩
        · cases hf0 : c.faults 0 with
          | none => rfl
          | some e =>
            simp [Client.call, hf0] at hcall
        · simp [IsNotFound, hreason, hlog2, hlog1]
    | ok pvc =>
      have h := reported_or_quiet_after (quiet_trans hq1 (quiet_call_ok hcall2))
        (reconcileRecord_reports r c2)
      rcases h with h | h
      · exact Or.inl (by simpa [IsNotFound] using h)
      · exact Or.inr (Or.inl (by simpa [IsNotFound] using h))

/-- The Reclaim Reconciler reports every unexpected failure but one: when a call of a
run is hit by a fault that is not an expected failure of that call, and the call is not
the fetch of the Claim (the second call) after a record was handed out,
`PVCReclaimController.Reconcile` returns a non-nil error. -/
theorem reconciler_reports_unexpected_failures (c : Client) (req : Request) (i : Nat)
    (e : Call) (err : APIError)
    (hcalled : ((PVCReclaimController.Reconcile req c).2.log.drop c.log.length)[i]? = some e)
    (hfault : c.faults i = some err)
    (hunexpected : expectedFailure e err = false)
    (hother : i = 1 → c.faults 0 ≠ none ∨ c.store.reclaim? req.NamespacedName = none) :
    ∃ err', (PVCReclaimController.Reconcile req c).1 = Outcome.returned (some err') := by
  rcases reconciler_reports req c with h | h | ⟨⟨r, hr⟩, hf0, hlog⟩
  · exact h
  · have := quiet_getElem h hcalled hfault
    rw [hunexpected] at this
    cases this
  · exfalso
    rw [hlog, List.drop_left] at hcalled
    match i, hcalled, hfault, hother with
    | 0, _, hfault, _ => rw [hf0] at hfault; cases hfault
    | 1, _, _, hother =>
      rcases hother rfl with h | h
      · exact h hf0
      · rw [hr] at h; cases h
    | n + 2, hcalled, _, _ => simp at hcalled

/-- A version conflict on the update of the record makes the Claim Mirror return a
non-nil error. -/
theorem mirror_reports_update_conflict :
    ∃ err, (PVCController.Reconcile mirrorRequest conflictingClient).1 =
      Outcome.returned (some err) :=
  mirror_reports_unexpected_failures conflictingClient mirrorRequest 4
    (((PVCController.Reconcile mirrorRequest conflictingClient).2.log.drop
      conflictingClient.log.length)[4]?.getD (Call.GetPV ""))
    conflictError (by decide) rfl (by decide)

/-- A version conflict on the first status patch of a restore makes the Reclaim
Reconciler return a non-nil error. -/
theorem reconciler_reports_patch_conflict :
    ∃ err, (PVCReclaimController.Reconcile testRequest conflictingRestoreClient).1 =
      Outcome.returned (some err) :=
  reconciler_reports_unexpected_failures conflictingRestoreClient testRequest 3
    (((PVCReclaimController.Reconcile testRequest conflictingRestoreClient).2.log.drop
      conflictingRestoreClient.log.length)[3]?.getD (Call.GetPV ""))
    conflictError (by decide) rfl (by decide) (by decide)

/-! ## The claims -/

/-- C1: when a record with `restore = true` exists and its Volume exists in a phase
other than Released, a run of the Reclaim Reconciler in which every store call succeeds
returns no error, leaves the record present with `restore = false` and
`recoverStatus = RecoveryFailed`, and creates no Claim (the Claims of the store are
untouched and no create of a Claim is submitted). -/
theorem c1_restore_rejected_when_volume_not_released (c : Client) (req : Request)
    (r : PVCReclaim) (volumeRef : ObjectReference) (pv : PersistentVolume)
    (hf : ∀ i, c.faults i = none)
    (hr : c.store.reclaim? req.NamespacedName = some r)
    (hrestore : r.Spec.Restore = true)
    (href : r.Spec.PersistentVolumeRef = some volumeRef)
    (hpv : c.store.pv? volumeRef.Name = some pv)
    (hphase : pv.Status.Phase ≠ VolumeReleased) :
    (PVCReclaimController.Reconcile req c).1 = Outcome.returned none ∧
    (∃ r', (PVCReclaimController.Reconcile req c).2.store.reclaim? req.NamespacedName = some r' ∧
        r'.Spec.Restore = false ∧ r'.Status.RecoverStatus = RecoveryFailed) ∧
    (PVCReclaimController.Reconcile req c).2.store.pvcs = c.store.pvcs ∧
    (∀ o, Call.CreatePVC o ∈ (PVCReclaimController.Reconcile req c).2.log →
      Call.CreatePVC o ∈ c.log) := by
  obtain ⟨s, f, lg⟩ := c
  simp only at hf hr hpv
  have hk : keyOf r.ObjectMeta = req.NamespacedName := reclaim?_key hr
  rw [Reconcile_of_record (hf 0) (hf 1) hr,
    reconcileRecord_notReleased (hf 2) href hpv hrestore hphase,
    rejectRestore_run (decodePV pv) (hf 3) (hf 4) hr]
  refine ⟨rfl, ⟨_, reclaim?_putReclaim_same (reclaim?_putReclaim_same hr hk) hk, rfl, rfl⟩,
    rfl, ?_⟩
  intro o ho
  simpa using ho

/-- C1 at the state of `TestPVCReclaimController_Reconcile_PVNotReleased`. -/
theorem c1_witness :
    (PVCReclaimController.Reconcile testRequest notReleasedClient).1 = Outcome.returned none :=
  (c1_restore_rejected_when_volume_not_released notReleasedClient testRequest
    notReleasedRecord testVolumeRef boundVolume (fun _ => rfl) (by decide) rfl rfl (by decide)
    (by decide)).1

/-- C2: when a record with `restore = true` exists, its Volume is Released and carries
a claim reference, and no Claim with the identity exists, a run of the Reclaim
Reconciler in which every store call succeeds returns no error and ends with the record
deleted, a Claim with the record's namespace and name present in phase Bound, and the
Volume's claim-reference UID equal to that Claim's UID. -/
theorem c2_restore_recreates_claim_and_deletes_record (c : Client) (req : Request)
    (r : PVCReclaim) (volumeRef claimRef : ObjectReference) (pv : PersistentVolume)
    (hf : ∀ i, c.faults i = none)
    (hr : c.store.reclaim? req.NamespacedName = some r)
    (hrestore : r.Spec.Restore = true)
    (href : r.Spec.PersistentVolumeRef = some volumeRef)
    (hpv : c.store.pv? volumeRef.Name = some pv)
    (hphase : pv.Status.Phase = VolumeReleased)
    (hcr : pv.Spec.ClaimRef = some claimRef)
    (hc : c.store.pvc? req.NamespacedName = none) :
    (PVCReclaimController.Reconcile req c).1 = Outcome.returned none ∧
    (PVCReclaimController.Reconcile req c).2.store.reclaim? req.NamespacedName = none ∧
    ∃ (pvc : PersistentVolumeClaim) (pv' : PersistentVolume) (claimRef' : ObjectReference),
      (PVCReclaimController.Reconcile req c).2.store.pvc? req.NamespacedName = some pvc ∧
      pvc.ObjectMeta.Namespace = r.ObjectMeta.Namespace ∧
      pvc.ObjectMeta.Name = r.ObjectMeta.Name ∧
      pvc.Status.Phase = ClaimBound ∧
      (PVCReclaimController.Reconcile req c).2.store.pv? volumeRef.Name = some pv' ∧
      pv'.Spec.ClaimRef = some claimRef' ∧
      claimRef'.UID = pvc.ObjectMeta.UID := by
  obtain ⟨s, f, lg⟩ := c
  obtain ⟨key⟩ := req
  simp only at hf hr hpv hc
  have hk : keyOf r.ObjectMeta = key := reclaim?_key hr
  have hn : pv.ObjectMeta.Name = volumeRef.Name := pv?_name hpv
  rw [Reconcile_restore_run (fun i _ => hf i) hr hrestore href hpv hphase hcr hc]
  have hpvc : ∀ (s' : Store) (o : PersistentVolumeClaim), s'.pvc? key = none →
      keyOf o.ObjectMeta = key → ∀ o', keyOf o'.ObjectMeta = key →
      ((s'.addPVC o).putPVC key o').pvc? key = some o' :=
    fun s' o h1 h2 o' h3 => pvc?_putPVC_same (pvc?_addPVC_same h1 h2) h3
  have hpv0 : s.pv? pv.ObjectMeta.Name = some pv := hn ▸ hpv
  have hpvF : ∀ (o1 : PVCReclaim) (o2 o3 : PersistentVolumeClaim) (o : PersistentVolume),
      o.ObjectMeta.Name = pv.ObjectMeta.Name → ∀ (k : NamespacedName) (r' : PVCReclaim),
      (((((((s.putReclaim key o1).addPVC o2).putPVC key o3).putPV pv.ObjectMeta.Name
        o).putReclaim k r').dropReclaim k)).pv? volumeRef.Name = some o :=
    fun o1 o2 o3 o h2 _ _ =>
      hn ▸ pv?_putPV_same (s := ((s.putReclaim key o1).addPVC o2).putPVC key o3) hpv0 h2
  have hcrF : ∀ u : String,
      (patchVolumeObject (decodePV pv) (reboundVolume (decodePV pv) claimRef u) pv).Spec.ClaimRef =
        (reboundVolume (decodePV pv) claimRef u).Spec.ClaimRef := fun u => by
    show patchRef pv.Spec.ClaimRef _ pv.Spec.ClaimRef = _
    rw [patchRef_stored]
  refine ⟨rfl, reclaim?_dropReclaim_same _ _, ?_⟩
  refine ⟨_, _, _, hpvc _ _ hc hk _ hk, rfl, rfl, ?_, hpvF _ _ _ _ (by rfl) _ _, hcrF _, rfl⟩
  simp [patchClaimStatus, patchField_stored, withBoundPhase]

/-- C2 at the state of `TestPVCReclaimController_Reconcile_PVCReclaimRestore_Success`. -/
theorem c2_witness :
    (PVCReclaimController.Reconcile testRequest restoreClient).2.store.reclaim?
      testRequest.NamespacedName = none :=
  (c2_restore_recreates_claim_and_deletes_record restoreClient testRequest restoreRecord
    testVolumeRef testClaimRef releasedVolume (fun _ => rfl) (by decide) rfl rfl (by decide)
    rfl rfl (by decide)).2.1

/-- C3: whenever the restore sequence runs on a record (`restore = true`, Volume
Released, the fetches and the in-progress status patch succeed), the run submits
exactly one Claim for creation, and that Claim has the record's namespace and name, a
spec equal to the record's `claimSpec`, the record's annotations, and the record's
labels with exactly the Volume-name label removed. -/
theorem c3_recreated_claim_copies_record (c : Client) (req : Request)
    (r : PVCReclaim) (volumeRef : ObjectReference) (pv : PersistentVolume)
    (hf : ∀ i, i < 4 → c.faults i = none)
    (hr : c.store.reclaim? req.NamespacedName = some r)
    (hrestore : r.Spec.Restore = true)
    (href : r.Spec.PersistentVolumeRef = some volumeRef)
    (hpv : c.store.pv? volumeRef.Name = some pv)
    (hphase : pv.Status.Phase = VolumeReleased) :
    ∃ (pvc : PersistentVolumeClaim) (pre post : List Call),
      (PVCReclaimController.Reconcile req c).2.log = c.log ++ pre ++ Call.CreatePVC pvc :: post ∧
      (∀ o, Call.CreatePVC o ∉ pre) ∧ (∀ o, Call.CreatePVC o ∉ post) ∧
      pvc.ObjectMeta.Namespace = r.ObjectMeta.Namespace ∧
      pvc.ObjectMeta.Name = r.ObjectMeta.Name ∧
      pvc.Spec = r.Spec.PersistentVolumeClaimSpec ∧
      (∀ k, mapGet pvc.ObjectMeta.Annotations k = mapGet r.ObjectMeta.Annotations k) ∧
      (∀ k, mapGet pvc.ObjectMeta.Labels k =
        if k = reclaimPVLabel then none else mapGet r.ObjectMeta.Labels k) := by
  obtain ⟨s, f, lg⟩ := c
  simp only at hf hr hpv
  rw [Reconcile_of_record (hf 0 (by omega)) (hf 1 (by omega)) hr,
    reconcileRecord_released (hf 2 (by omega)) href hpv hrestore hphase,
    restore_step (decodePV pv) (hf 3 (by omega)) hr]
  obtain ⟨post, hlog, hpost⟩ := recreate_log
    (withStatus (decodeReclaim r) (inProgressStatus (decodeReclaim r) (decodePV pv)))
    (decodePV pv)
    { store := s.putReclaim req.NamespacedName
        (withStatus r (inProgressStatus (decodeReclaim r) (decodePV pv)))
      faults := fun i => f (i + 1 + 1 + 1 + 1)
      log := lg ++ [Call.GetReclaim req.NamespacedName] ++ [Call.GetPVC req.NamespacedName] ++
        [Call.GetPV volumeRef.Name] ++
        [Call.StatusPatchReclaim (decodeReclaim r)
          (withStatus (decodeReclaim r) (inProgressStatus (decodeReclaim r) (decodePV pv)))] }
  refine ⟨recreatedClaim
    (withStatus (decodeReclaim r) (inProgressStatus (decodeReclaim r) (decodePV pv))),
    [Call.GetReclaim req.NamespacedName, Call.GetPVC req.NamespacedName,
      Call.GetPV volumeRef.Name,
      Call.StatusPatchReclaim (decodeReclaim r)
        (withStatus (decodeReclaim r) (inProgressStatus (decodeReclaim r) (decodePV pv)))],
    post, ?_, ?_, hpost, rfl, rfl, rfl, ?_, ?_⟩
  · rw [hlog]
    simp [List.append_assoc]
  · intro o
    simp
  · intro k
    exact mapGet_omitEmpty _ k
  · intro k
    show mapGet (mapDelete (omitEmpty r.ObjectMeta.Labels) reclaimPVLabel) k = _
    rw [mapGet_mapDelete, mapGet_omitEmpty]

/-- C3 at the state of `TestPVCReclaimController_Reconcile_PVCReclaimRestore_Success`. -/
theorem c3_witness :
    ∃ (pvc : PersistentVolumeClaim) (pre post : List Call),
      (PVCReclaimController.Reconcile testRequest restoreClient).2.log =
        restoreClient.log ++ pre ++ Call.CreatePVC pvc :: post ∧
      pvc.Spec = restoreRecord.Spec.PersistentVolumeClaimSpec := by
  obtain ⟨pvc, pre, post, h1, _, _, _, _, h2, _⟩ :=
    c3_recreated_claim_copies_record restoreClient testRequest restoreRecord testVolumeRef
      releasedVolume (fun _ _ => rfl) (by decide) rfl rfl (by decide) rfl
  exact ⟨pvc, pre, post, h1, h2⟩

/-- Annotations of the Volume after a successful restore: exactly the earlier
annotations whose key contains `pvAnnotationPrefix` (anywhere in the key). -/
theorem restore_keeps_annotations_containing_prefix (c : Client) (req : Request)
    (r : PVCReclaim) (volumeRef claimRef : ObjectReference) (pv : PersistentVolume)
    (hf : ∀ i, c.faults i = none)
    (hr : c.store.reclaim? req.NamespacedName = some r)
    (hrestore : r.Spec.Restore = true)
    (href : r.Spec.PersistentVolumeRef = some volumeRef)
    (hpv : c.store.pv? volumeRef.Name = some pv)
    (hphase : pv.Status.Phase = VolumeReleased)
    (hcr : pv.Spec.ClaimRef = some claimRef)
    (hc : c.store.pvc? req.NamespacedName = none) :
    (PVCReclaimController.Reconcile req c).1 = Outcome.returned none ∧
    ∃ pv' : PersistentVolume,
      (PVCReclaimController.Reconcile req c).2.store.pv? volumeRef.Name = some pv' ∧
      ∀ k, mapGet pv'.ObjectMeta.Annotations k =
        if stringsContains k pvAnnotationPrefix then mapGet pv.ObjectMeta.Annotations k
        else none := by
  obtain ⟨s, f, lg⟩ := c
  obtain ⟨key⟩ := req
  simp only at hf hr hpv hc
  have hn : pv.ObjectMeta.Name = volumeRef.Name := pv?_name hpv
  rw [Reconcile_restore_run (fun i _ => hf i) hr hrestore href hpv hphase hcr hc]
  have hpv0 : s.pv? pv.ObjectMeta.Name = some pv := hn ▸ hpv
  have hpvF : ∀ (o1 : PVCReclaim) (o2 o3 : PersistentVolumeClaim) (o : PersistentVolume),
      o.ObjectMeta.Name = pv.ObjectMeta.Name → ∀ (k : NamespacedName) (r' : PVCReclaim),
      (((((((s.putReclaim key o1).addPVC o2).putPVC key o3).putPV pv.ObjectMeta.Name
        o).putReclaim k r').dropReclaim k)).pv? volumeRef.Name = some o :=
    fun o1 o2 o3 o h2 _ _ =>
      hn ▸ pv?_putPV_same (s := ((s.putReclaim key o1).addPVC o2).putPVC key o3) hpv0 h2
  refine ⟨rfl, _, hpvF _ _ _ _ (by rfl) _ _, ?_⟩
  intro k
  show mapGet (patchMap (omitEmpty pv.ObjectMeta.Annotations)
    (stripAnnotations (omitEmpty pv.ObjectMeta.Annotations)) pv.ObjectMeta.Annotations) k = _
  rw [mapGet_patchMap_of_base _ _ _ (fun k => (mapGet_omitEmpty _ k).symm),
    mapGet_stripAnnotations, mapGet_omitEmpty]

/-- C4 at a failing input: the restore succeeds and the Volume keeps the annotation
`backup.pv.kubernetes.io/owner`, whose key contains `pv.kubernetes.io` but does not
begin with it. -/
theorem c4_annotation_with_inner_prefix_survives :
    stringsHasPrefix "backup.pv.kubernetes.io/owner" pvAnnotationPrefix = false ∧
    (PVCReclaimController.Reconcile testRequest annotatedClient).1 = Outcome.returned none ∧
    ∃ pv' : PersistentVolume,
      (PVCReclaimController.Reconcile testRequest annotatedClient).2.store.pv? "test-pv" =
        some pv' ∧
      mapGet pv'.ObjectMeta.Annotations "backup.pv.kubernetes.io/owner" = some "team-a" := by
  obtain ⟨h1, pv', h2, h3⟩ :=
    restore_keeps_annotations_containing_prefix annotatedClient testRequest restoreRecord
      testVolumeRef testClaimRef annotatedVolume (fun _ => rfl) (by decide) rfl rfl (by decide)
      rfl rfl (by decide)
  refine ⟨by decide, h1, pv', h2, ?_⟩
  rw [h3]
  decide

/-- C5: when a record with `restore = true` exists, its Volume is Released, the create
of the Claim fails with an error other than already-exists and the status patch after
it succeeds, the run stops there (its last two calls are the refused create and that
status patch): the record remains with `recoverStatus = RecoveryFailed`, a reason that
contains the text of the creation error and `restore` still true, and the Volumes and
Claims of the store are unmodified. -/
theorem c5_failed_recreate_is_recorded (c : Client) (req : Request)
    (r : PVCReclaim) (volumeRef : ObjectReference) (pv : PersistentVolume) (err : APIError)
    (hf : ∀ i, i < 4 → c.faults i = none)
    (hcreate : c.faults 4 = some err)
    (hne : err.Reason ≠ StatusReason.AlreadyExists)
    (hpatch : c.faults 5 = none)
    (hr : c.store.reclaim? req.NamespacedName = some r)
    (hrestore : r.Spec.Restore = true)
    (href : r.Spec.PersistentVolumeRef = some volumeRef)
    (hpv : c.store.pv? volumeRef.Name = some pv)
    (hphase : pv.Status.Phase = VolumeReleased) :
    (∃ r' : PVCReclaim,
      (PVCReclaimController.Reconcile req c).2.store.reclaim? req.NamespacedName = some r' ∧
      r'.Status.RecoverStatus = RecoveryFailed ∧
      (∃ before after : String, r'.Status.Reason = before ++ err.Message ++ after) ∧
      r'.Spec.Restore = true) ∧
    (PVCReclaimController.Reconcile req c).2.store.pvs = c.store.pvs ∧
    (PVCReclaimController.Reconcile req c).2.store.pvcs = c.store.pvcs ∧
    (∃ (base failed : PVCReclaim) (pvc : PersistentVolumeClaim) (earlier : List Call),
      (PVCReclaimController.Reconcile req c).2.log =
        c.log ++ earlier ++ [Call.CreatePVC pvc, Call.StatusPatchReclaim base failed] ∧
      ∀ e ∈ earlier, e = Call.GetReclaim req.NamespacedName ∨
        e = Call.GetPVC req.NamespacedName ∨ e = Call.GetPV volumeRef.Name ∨
        ∃ b o, e = Call.StatusPatchReclaim b o) := by
  obtain ⟨s, f, lg⟩ := c
  simp only at hf hr hpv hcreate hpatch
  have hk : keyOf r.ObjectMeta = req.NamespacedName := reclaim?_key hr
  have hk1 : keyOf (withStatus (decodeReclaim r)
      (inProgressStatus (decodeReclaim r) (decodePV pv))).ObjectMeta = req.NamespacedName := hk
  rw [Reconcile_of_record (hf 0 (by omega)) (hf 1 (by omega)) hr,
    reconcileRecord_released (hf 2 (by omega)) href hpv hrestore hphase,
    restore_step (decodePV pv) (hf 3 (by omega)) hr,
    recreate_refused (o := withStatus r
        (inProgressStatus (decodeReclaim r) (decodePV pv)))
      (withStatus (decodeReclaim r) (inProgressStatus (decodeReclaim r) (decodePV pv)))
      (decodePV pv) hcreate hne hpatch hk1 (reclaim?_putReclaim_same hr hk) rfl]
  refine ⟨⟨_, reclaim?_putReclaim_same (reclaim?_putReclaim_same hr hk) hk, rfl,
    ⟨"Failed to re-create PVC " ++ slashed r.ObjectMeta.Namespace r.ObjectMeta.Name ++
      ", error: ", "", ?_⟩, hrestore⟩, rfl, rfl,
    withLabels (withStatus (decodeReclaim r) (inProgressStatus (decodeReclaim r) (decodePV pv)))
      (recreatedClaim (withStatus (decodeReclaim r) (inProgressStatus (decodeReclaim r)
        (decodePV pv)))).ObjectMeta.Labels,
    withStatus (withLabels (withStatus (decodeReclaim r) (inProgressStatus (decodeReclaim r)
      (decodePV pv)))
      (recreatedClaim (withStatus (decodeReclaim r) (inProgressStatus (decodeReclaim r)
        (decodePV pv)))).ObjectMeta.Labels)
      (recreateFailedStatus (withStatus (decodeReclaim r) (inProgressStatus (decodeReclaim r)
        (decodePV pv))) err),
    recreatedClaim (withStatus (decodeReclaim r) (inProgressStatus (decodeReclaim r) (decodePV
      pv))),
    [Call.GetReclaim req.NamespacedName, Call.GetPVC req.NamespacedName,
      Call.GetPV volumeRef.Name,
      Call.StatusPatchReclaim (decodeReclaim r)
        (withStatus (decodeReclaim r) (inProgressStatus (decodeReclaim r) (decodePV pv)))],
    ?_, ?_⟩
  · rw [String.append_empty]
    rfl
  · simp [List.append_assoc]
  · intro e he
    simp only [List.mem_cons, List.mem_singleton, List.not_mem_nil, or_false] at he
    rcases he with h | h | h | h
    · exact Or.inl h
    · exact Or.inr (Or.inl h)
    · exact Or.inr (Or.inr (Or.inl h))
    · exact Or.inr (Or.inr (Or.inr ⟨_, _, h⟩))

/-- C5 at the restore test with a store that refuses the create of the Claim. -/
theorem c5_witness :
    (PVCReclaimController.Reconcile testRequest refusingClient).2.store.pvs =
      refusingClient.store.pvs :=
  (c5_failed_recreate_is_recorded refusingClient testRequest restoreRecord testVolumeRef
    releasedVolume quotaError (fun i hi => by
      have : i ≠ 4 := by omega
      simp [refusingClient, this])
    rfl (by decide) rfl (by decide) rfl rfl (by decide) rfl).2.1

/-- C6: when a record exists and no Volume has the name in its `volumeRef`, a run of the
Reclaim Reconciler in which every store call succeeds returns no error and deletes that
record; every other record, every Claim and every Volume is left as it was and nothing
is created (the calls are the three fetches and the delete).  Neither the `restore`
flag nor the presence of a Claim with the identity is assumed. -/
theorem c6_orphaned_record_is_deleted (c : Client) (req : Request)
    (r : PVCReclaim) (volumeRef : ObjectReference)
    (hf : ∀ i, c.faults i = none)
    (hr : c.store.reclaim? req.NamespacedName = some r)
    (href : r.Spec.PersistentVolumeRef = some volumeRef)
    (hpv : c.store.pv? volumeRef.Name = none) :
    (PVCReclaimController.Reconcile req c).1 = Outcome.returned none ∧
    (PVCReclaimController.Reconcile req c).2.store.reclaim? req.NamespacedName = none ∧
    (∀ key, key ≠ req.NamespacedName →
      (PVCReclaimController.Reconcile req c).2.store.reclaim? key = c.store.reclaim? key) ∧
    (PVCReclaimController.Reconcile req c).2.store.pvcs = c.store.pvcs ∧
    (PVCReclaimController.Reconcile req c).2.store.pvs = c.store.pvs ∧
    (PVCReclaimController.Reconcile req c).2.log =
      c.log ++ [Call.GetReclaim req.NamespacedName, Call.GetPVC req.NamespacedName,
        Call.GetPV volumeRef.Name, Call.DeleteReclaim (decodeReclaim r)] := by
  obtain ⟨s, f, lg⟩ := c
  simp only at hf hr hpv
  rw [Reconcile_of_record (hf 0) (hf 1) hr, reconcileRecord_orphan (hf 2) (hf 3) hr href hpv]
  refine ⟨rfl, reclaim?_dropReclaim_same _ _, fun key hne => reclaim?_dropReclaim_other hne,
    rfl, rfl, ?_⟩
  simp [List.append_assoc]

/-- C6 at the state of `TestPVCReclaimController_Reconcile_PVNotFoundForReclaim`. -/
theorem c6_witness :
    (PVCReclaimController.Reconcile testRequest orphanClient).2.store.reclaim?
      testRequest.NamespacedName = none :=
  (c6_orphaned_record_is_deleted orphanClient testRequest orphanRecord
    { Kind := "PersistentVolume", APIVersion := "v1", Name := "missing-pv" }
    (fun _ => rfl) (by decide) rfl (by decide)).2.1

/-- C7: when a record with `restore = false` exists and its Volume exists (in any
phase), a run of the Reclaim Reconciler in which every store call is answered by the
store returns no error and leaves the whole store unchanged; the run only fetches.
Nothing is assumed about a Claim with the identity, so the record stays when the Claim
is gone. -/
theorem c7_idle_record_is_left_alone (c : Client) (req : Request)
    (r : PVCReclaim) (volumeRef : ObjectReference) (pv : PersistentVolume)
    (hf : ∀ i, c.faults i = none)
    (hr : c.store.reclaim? req.NamespacedName = some r)
    (hrestore : r.Spec.Restore = false)
    (href : r.Spec.PersistentVolumeRef = some volumeRef)
    (hpv : c.store.pv? volumeRef.Name = some pv) :
    (PVCReclaimController.Reconcile req c).1 = Outcome.returned none ∧
    (PVCReclaimController.Reconcile req c).2.store = c.store ∧
    (PVCReclaimController.Reconcile req c).2.log =
      c.log ++ [Call.GetReclaim req.NamespacedName, Call.GetPVC req.NamespacedName,
        Call.GetPV volumeRef.Name] := by
  obtain ⟨s, f, lg⟩ := c
  simp only at hf hr hpv
  rw [Reconcile_of_record (hf 0) (hf 1) hr, reconcileRecord_idle (hf 2) href hpv hrestore]
  refine ⟨rfl, rfl, ?_⟩
  simp [List.append_assoc]

/-- C7 at the state of `TestPVCReclaimController_Reconcile_ReclaimFound`. -/
theorem c7_witness :
    (PVCReclaimController.Reconcile testRequest foundClient).2.store = foundClient.store :=
  (c7_idle_record_is_left_alone foundClient testRequest foundRecord foundVolumeRef foundVolume
    (fun _ => rfl) (by decide) rfl rfl (by decide)).2.1

/-- C8: for a requested identity whose Claim is absent, or present with a phase other
than Bound or with an empty bound-volume-name, a fault-free run of the Claim Mirror
returns no error and leaves the store unchanged, and so does a run of the Reclaim
Reconciler when no record exists for the identity. -/
theorem c8_unbound_claim_is_noop (c : Client) (req : Request)
    (hf : ∀ i, c.faults i = none)
    (hclaim : c.store.pvc? req.NamespacedName = none ∨
      ∃ pvc, c.store.pvc? req.NamespacedName = some pvc ∧
        (pvc.Status.Phase ≠ ClaimBound ∨ pvc.Spec.VolumeName = "")) :
    ((PVCController.Reconcile req c).1 = Outcome.returned none ∧
      (PVCController.Reconcile req c).2.store = c.store) ∧
    (c.store.reclaim? req.NamespacedName = none →
      (PVCReclaimController.Reconcile req c).1 = Outcome.returned none ∧
      (PVCReclaimController.Reconcile req c).2.store = c.store) := by
  obtain ⟨s, f, lg⟩ := c
  simp only at hf hclaim
  have hf1 : (fun i => f (i + 1)) 0 = none := hf 1
  rcases hclaim with hc | ⟨pvc, hc, hunbound⟩
  · refine ⟨?_, fun hr => ?_⟩
    · simp [PVCController.Reconcile, call_free _ _ _ _ _ (hf 0), getPVC_missing hc,
        IgnoreNotFound, IsNotFound, errNotFound]
    · simp [PVCReclaimController.Reconcile, call_free _ _ _ _ _ (hf 0),
        call_free _ (fun i => f (i + 1)) _ _ _ hf1, getReclaim_missing hr, getPVC_missing hc,
        IsNotFound, errNotFound]
  · have hcond : (decodePVC pvc).Spec.VolumeName = "" ∨
        (decodePVC pvc).Status.Phase ≠ ClaimBound := hunbound.symm
    refine ⟨?_, fun hr => ?_⟩
    · simp [PVCController.Reconcile, call_free _ _ _ _ _ (hf 0), getPVC_found hc, hcond]
    · simp [PVCReclaimController.Reconcile, call_free _ _ _ _ _ (hf 0),
        call_free _ (fun i => f (i + 1)) _ _ _ hf1, getReclaim_missing hr, getPVC_found hc,
        IsNotFound, errNotFound, PVCReclaimController.mirrorClaim, hcond]

/-- C8 at the state of `TestPVCReclaimController_Reconcile_PVCNotBound`. -/
theorem c8_witness :
    (PVCController.Reconcile testRequest pendingClient).2.store = pendingClient.store :=
  (c8_unbound_claim_is_noop pendingClient testRequest (fun _ => rfl)
    (Or.inr ⟨pendingClaim, by decide, Or.inl (by decide)⟩)).1.2

/-- C9 at a failing input: a Bound Claim with a label, its existing Volume, and a prior
record without labels that has `restore = true`.  The label loop of
`PVCController.Reconcile` writes to the record's nil label map, so the run panics before
any write and the record is left with `restore = true` and
`recoverStatus = RecoveryFailed` instead of `restore = false` and `NotRecovered`. -/
theorem c9_mirror_panics_on_record_without_labels :
    (PVCController.Reconcile mirrorRequest unlabelledClient).1 = Outcome.panicked ∧
    (PVCController.Reconcile mirrorRequest unlabelledClient).2.store = unlabelledClient.store ∧
    unlabelledClient.store.reclaim? mirrorRequest.NamespacedName = some unlabelledRecord ∧
    unlabelledRecord.Spec.Restore = true ∧
    unlabelledRecord.Status.RecoverStatus = RecoveryFailed := by
  refine ⟨?_, ?_, by decide, rfl, rfl⟩
  · decide
  · decide

/-- A second run of the Claim Mirror that changes the record: for the Bound Claim
`default/test-pvc` on the existing Volume `test-pv`, with no record and all store calls
answered, the first run leaves a record whose Volume-name label is `test-pv`, and the
second run returns no error but rewrites that label to `other-pv`, the value the
Claim's own labels give it. -/
theorem mirror_second_run_rewrites_index_label :
    indexLabelledClient.store.pvc? mirrorRequest.NamespacedName = some indexLabelledClaim ∧
    indexLabelledClaim.Status.Phase = ClaimBound ∧
    indexLabelledClient.store.pv? indexLabelledClaim.Spec.VolumeName = some mirrorVolume ∧
    indexLabelledClient.store.reclaim? mirrorRequest.NamespacedName = none ∧
    ((PVCController.Reconcile mirrorRequest indexLabelledClient).2.store.reclaim?
      mirrorRequest.NamespacedName).map (fun r => mapGet r.ObjectMeta.Labels reclaimPVLabel) =
        some (some "test-pv") ∧
    (PVCController.Reconcile mirrorRequest
      (PVCController.Reconcile mirrorRequest indexLabelledClient).2).1 =
        Outcome.returned none ∧
    ((PVCController.Reconcile mirrorRequest
      (PVCController.Reconcile mirrorRequest indexLabelledClient).2).2.store.reclaim?
      mirrorRequest.NamespacedName).map (fun r => mapGet r.ObjectMeta.Labels reclaimPVLabel) =
        some (some "other-pv") := by
  refine ⟨by decide, rfl, by decide, by decide, ?_, ?_, ?_⟩
  · decide
  · decide
  · decide

/-- Convergence of the Claim Mirror away from the two inputs above: for a Bound Claim
with a bound-volume-name whose Volume exists, a store with at most one record for the
identity, and a prior record state that is absent (the Claim's own labels then not
binding the Volume-name label to another name) or present, with any restore flag and
status, and with a label of its own unless the Claim has no labels, one fault-free run
returns no error and leaves exactly one record with the identity, with
`restore = false`, `recoverStatus = NotRecovered` and an empty reason; a second run on
the resulting state returns no error and leaves the record's name, namespace, identity
token, spec, status, labels and annotations as they were. -/
theorem mirror_converges_on_safe_states (c : Client) (req : Request)
    (pvc : PersistentVolumeClaim) (pv : PersistentVolume)
    (hf : ∀ i, c.faults i = none)
    (hc : c.store.pvc? req.NamespacedName = some pvc)
    (hbound : pvc.Status.Phase = ClaimBound)
    (hname : pvc.Spec.VolumeName ≠ "")
    (hpv : c.store.pv? pvc.Spec.VolumeName = some pv)
    (hone : (c.store.reclaims.filter
      (fun x => hasKey x.ObjectMeta req.NamespacedName)).length ≤ 1)
    (hindex : c.store.reclaim? req.NamespacedName = none →
      mapGet pvc.ObjectMeta.Labels reclaimPVLabel = none ∨
      mapGet pvc.ObjectMeta.Labels reclaimPVLabel = some pv.ObjectMeta.Name)
    (hsafe : ∀ r, c.store.reclaim? req.NamespacedName = some r →
      (∃ k v, mapGet r.ObjectMeta.Labels k = some v) ∨
      ∀ k, mapGet pvc.ObjectMeta.Labels k = none) :
    (PVCController.Reconcile req c).1 = Outcome.returned none ∧
    ((PVCController.Reconcile req c).2.store.reclaims.filter
      (fun x => hasKey x.ObjectMeta req.NamespacedName)).length = 1 ∧
    ∃ r1 : PVCReclaim,
      (PVCController.Reconcile req c).2.store.reclaim? req.NamespacedName = some r1 ∧
      r1.Spec.Restore = false ∧
      r1.Status.RecoverStatus = NotRecovered ∧
      r1.Status.Reason = "" ∧
      (PVCController.Reconcile req (PVCController.Reconcile req c).2).1 =
        Outcome.returned none ∧
      ∃ r2 : PVCReclaim,
        (PVCController.Reconcile req (PVCController.Reconcile req c).2).2.store.reclaim?
          req.NamespacedName = some r2 ∧
        r2.ObjectMeta.Namespace = r1.ObjectMeta.Namespace ∧
        r2.ObjectMeta.Name = r1.ObjectMeta.Name ∧
        r2.ObjectMeta.UID = r1.ObjectMeta.UID ∧
        r2.Spec = r1.Spec ∧
        r2.Status = r1.Status ∧
        (∀ k, mapGet r2.ObjectMeta.Labels k = mapGet r1.ObjectMeta.Labels k) ∧
        (∀ k, mapGet r2.ObjectMeta.Annotations k = mapGet r1.ObjectMeta.Annotations k) := by
  have hspec : ∀ a b : PVCReclaimSpec, a.PersistentVolumeRef = b.PersistentVolumeRef →
      a.PersistentVolumeClaimSpec = b.PersistentVolumeClaimSpec → a.Restore = false →
      b.Restore = false → a = b := by
    intro a b h1 h2 h3 h4
    cases a
    cases b
    simp_all
  -- the first run: a record `r1` and what it holds
  have first : (PVCController.Reconcile req c).1 = Outcome.returned none ∧
      (∀ i, (PVCController.Reconcile req c).2.faults i = none) ∧
      (PVCController.Reconcile req c).2.store.pvcs = c.store.pvcs ∧
      (PVCController.Reconcile req c).2.store.pvs = c.store.pvs ∧
      ((PVCController.Reconcile req c).2.store.reclaims.filter
        (fun x => hasKey x.ObjectMeta req.NamespacedName)).length = 1 ∧
      ∃ r1 : PVCReclaim,
        (PVCController.Reconcile req c).2.store.reclaim? req.NamespacedName = some r1 ∧
        r1.Spec.Restore = false ∧ r1.Status = mirroredStatus pvc r1 ∧
        ((∃ k v, mapGet r1.ObjectMeta.Labels k = some v) ∨
          ∀ k, mapGet pvc.ObjectMeta.Labels k = none) ∧
        (∀ k, (mapGet pvc.ObjectMeta.Labels k).or (mapGet r1.ObjectMeta.Labels k) =
          mapGet r1.ObjectMeta.Labels k) ∧
        (∀ k, mapGet r1.ObjectMeta.Annotations k = mapGet pvc.ObjectMeta.Annotations k) := by
    cases hr : c.store.reclaim? req.NamespacedName with
    | none =>
      obtain ⟨h1, h2, h3, h4, h5, r1, h6, h7, h8, h9, h10⟩ :=
        mirror_created_summary c hf hc hname hbound hpv hr
      refine ⟨h1, h2, h3, h4, h5, r1, h6, h7, h8,
        Or.inl ⟨reclaimPVLabel, pv.ObjectMeta.Name, by rw [h9]; simp⟩, fun k => ?_, h10⟩
      rw [h9 k]
      by_cases hk : k = reclaimPVLabel
      · subst hk
        rcases hindex hr with h | h <;> simp [h]
      · simp only [hk, if_false]
        cases mapGet pvc.ObjectMeta.Labels k <;> rfl
    | some r0 =>
      obtain ⟨h1, h2, h3, h4, h5, r1, h6, _, _, _, _, _, h7, h8, h9, h10⟩ :=
        mirror_found_summary c hf hc hname hbound hpv hr (hsafe r0 hr)
      refine ⟨h1, h2, h3, h4, ?_, r1, h6, h7, h8, ?_, fun k => ?_, h10⟩
      · have := count_of_found hr
        omega
      · rcases hsafe r0 hr with ⟨k, v, hb⟩ | hs
        · refine Or.inl ⟨k, ((mapGet pvc.ObjectMeta.Labels k).or (some v)).getD v, ?_⟩
          rw [h9 k, hb]
          cases mapGet pvc.ObjectMeta.Labels k <;> rfl
        · exact Or.inr hs
      · rw [h9 k]
        cases mapGet pvc.ObjectMeta.Labels k <;> rfl
  obtain ⟨h1, hf1, hpvcs, hpvs, hcount, r1, hr1, hrestore, hstatus, hsafe1, hlab1, hann1⟩ := first
  -- the second run starts from a store that holds the same Claim and Volume, and `r1`
  have hc1 : (PVCController.Reconcile req c).2.store.pvc? req.NamespacedName = some pvc := by
    unfold Store.pvc?
    rw [hpvcs]
    exact hc
  have hpv1 : (PVCController.Reconcile req c).2.store.pv? pvc.Spec.VolumeName = some pv := by
    unfold Store.pv?
    rw [hpvs]
    exact hpv
  obtain ⟨g1, _, _, _, _, r2, g2, g3, g4, g5, g6, g7, g8, g9, g10, g11⟩ :=
    mirror_found_summary (PVCController.Reconcile req c).2 hf1 hc1 hname hbound hpv1 hr1 hsafe1
  refine ⟨h1, hcount, r1, hr1, hrestore, by rw [hstatus]; rfl, by rw [hstatus]; rfl, g1,
    r2, g2, g3, g4, g5, hspec _ _ g6 g7 g8 hrestore, ?_, fun k => ?_, fun k => ?_⟩
  · rw [g9, hstatus]
    exact mirroredStatus_congr pvc g3 g4
  · rw [g10 k, hlab1 k]
  · rw [g11 k, hann1 k]

/-- Convergence at a store with the labelled Claim, its Volume and no record. -/
theorem mirror_converges_witness :
    (PVCController.Reconcile mirrorRequest unmirroredClient).1 = Outcome.returned none :=
  (mirror_converges_on_safe_states unmirroredClient mirrorRequest labelledClaim mirrorVolume
    (fun _ => rfl) (by decide) rfl (by decide) (by decide) (by decide)
    (fun _ => Or.inl (by decide))
    (fun r h => absurd h (by
      rw [show unmirroredClient.store.reclaim? mirrorRequest.NamespacedName = none by decide]
      exact Option.noConfusion))).1

/-- C10: for a Bound Claim with a bound-volume-name whose Volume exists and that has no
record, a fault-free run of the Claim Mirror submits exactly one record for creation.
That record, and the record the store holds for the identity after the run, have the
Claim's namespace and name, a `volumeRef` with the kind, api-version and name of the
Volume as fetched, a `claimSpec` equal to the Claim's spec, `restore = false`, the
Claim's annotations, and the Claim's labels plus the Volume-name label set to the
Volume's name. -/
theorem c10_created_record_mirrors_claim (c : Client) (req : Request)
    (pvc : PersistentVolumeClaim) (pv : PersistentVolume)
    (hf : ∀ i, c.faults i = none)
    (hc : c.store.pvc? req.NamespacedName = some pvc)
    (hbound : pvc.Status.Phase = ClaimBound)
    (hname : pvc.Spec.VolumeName ≠ "")
    (hpv : c.store.pv? pvc.Spec.VolumeName = some pv)
    (hr : c.store.reclaim? req.NamespacedName = none) :
    ∃ (created stored : PVCReclaim) (volumeRef : ObjectReference),
      Call.CreateReclaim created ∈ (PVCController.Reconcile req c).2.log ∧
      (∀ o, Call.CreateReclaim o ∈ (PVCController.Reconcile req c).2.log →
        o = created ∨ Call.CreateReclaim o ∈ c.log) ∧
      (PVCController.Reconcile req c).2.store.reclaim? req.NamespacedName = some stored ∧
      volumeRef.Kind = pv.TypeMeta.Kind ∧
      volumeRef.APIVersion = pv.TypeMeta.APIVersion ∧
      volumeRef.Name = pv.ObjectMeta.Name ∧
      ∀ x : PVCReclaim, x = created ∨ x = stored →
        x.ObjectMeta.Namespace = pvc.ObjectMeta.Namespace ∧
        x.ObjectMeta.Name = pvc.ObjectMeta.Name ∧
        x.Spec.PersistentVolumeRef = some volumeRef ∧
        x.Spec.PersistentVolumeClaimSpec = pvc.Spec ∧
        x.Spec.Restore = false ∧
        (∀ k, mapGet x.ObjectMeta.Annotations k = mapGet pvc.ObjectMeta.Annotations k) ∧
        (∀ k, mapGet x.ObjectMeta.Labels k =
          if k = reclaimPVLabel then some pv.ObjectMeta.Name
          else mapGet pvc.ObjectMeta.Labels k) := by
  obtain ⟨s, f, lg⟩ := c
  simp only at hf hc hpv hr
  have hk : keyOf pvc.ObjectMeta = req.NamespacedName := pvc?_key hc
  obtain ⟨labels, hl, hlabels⟩ := mirror_labels_after_create (decodePVC pvc) (decodePV pv)
  have hl' : assignAll
      (storedReclaim (newReclaimFor (decodePVC pvc) (decodePV pv)) (newUID s.uids)
        {}).ObjectMeta.Labels
      (mapRange (claimAfterMirror (decodePVC pvc) (decodePV pv)).ObjectMeta.Labels) =
      some labels := by
    show assignAll (omitEmpty (some (mirroredLabels (decodePVC pvc) (decodePV pv)))) _ = _
    rw [show mirroredLabels (decodePVC pvc) (decodePV pv) = alistSet _ _ _ from rfl,
      omitEmpty_alistSet]
    exact hl
  rw [mirror_created (fun i _ => hf i) hc hname hbound hpv hr,
    syncReclaim_run _ _ (hf 4) (hf 5) hl' hk (reclaim?_addReclaim_same hr hk)]
  have hlab : ∀ k, mapGet (decodePVC pvc).ObjectMeta.Labels k = mapGet pvc.ObjectMeta.Labels k :=
    fun k => mapGet_omitEmpty _ k
  refine ⟨newReclaimFor (decodePVC pvc) (decodePV pv), _,
    { Kind := pv.TypeMeta.Kind, APIVersion := pv.TypeMeta.APIVersion,
      Name := pv.ObjectMeta.Name },
    by simp, ?_,
    reclaim?_putReclaim_same (reclaim?_putReclaim_same (reclaim?_addReclaim_same hr hk) hk) hk,
    rfl, rfl, rfl, ?_⟩
  · intro o ho
    simp only [List.mem_append, List.mem_singleton, Call.CreateReclaim.injEq, reduceCtorEq,
      or_false] at ho
    rcases ho with ho | ho
    · exact Or.inr ho
    · exact Or.inl ho
  · rintro x (rfl | rfl)
    · refine ⟨rfl, rfl, rfl, rfl, rfl, fun k => mapGet_omitEmpty _ k, fun k => ?_⟩
      show alistGet (mirroredLabels (decodePVC pvc) (decodePV pv)) k = _
      rw [mapGet_mirroredLabels, hlab]
      rfl
    · refine ⟨rfl, rfl, rfl, rfl, rfl, fun k => ?_, fun k => ?_⟩
      · show mapGet (omitEmpty
          (claimAfterMirror (decodePVC pvc) (decodePV pv)).ObjectMeta.Annotations) k = _
        rw [mapGet_omitEmpty, claimAfterMirror_annotations]
        exact mapGet_omitEmpty _ k
      · show mapGet (omitEmpty labels) k = _
        rw [mapGet_omitEmpty, hlabels, hlab]
        rfl

/-- C10 at a store with the labelled Claim, its Volume and no record. -/
theorem c10_witness :
    ∃ created : PVCReclaim,
      Call.CreateReclaim created ∈ (PVCController.Reconcile mirrorRequest unmirroredClient).2.log ∧
      mapGet created.ObjectMeta.Labels reclaimPVLabel = some "test-pv" := by
  obtain ⟨created, _, _, h1, _, _, _, _, _, h2⟩ :=
    c10_created_record_mirrors_claim unmirroredClient mirrorRequest labelledClaim mirrorVolume
      (fun _ => rfl) (by decide) rfl (by decide) (by decide) (by decide)
  exact ⟨created, h1, by simpa using (h2 created (Or.inl rfl)).2.2.2.2.2.2 reclaimPVLabel⟩

/-- C11: for a Claim in phase Bound with a non-empty bound-volume-name such that no
Volume with that name exists, a run of the Claim Mirror that is handed the Claim (its
first call is answered by the store) returns a non-nil error, whatever happens to the
later calls, and leaves the store as it was; it makes two calls, the fetch of the Claim
and the fetch of the Volume, so no record is submitted for creation or update.  When
the fetch of the Volume is answered by the store, the error is its not-found answer. -/
theorem c11_missing_volume_fails_mirror (c : Client) (req : Request)
    (pvc : PersistentVolumeClaim)
    (hf : c.faults 0 = none)
    (hc : c.store.pvc? req.NamespacedName = some pvc)
    (hbound : pvc.Status.Phase = ClaimBound)
    (hname : pvc.Spec.VolumeName ≠ "")
    (hpv : c.store.pv? pvc.Spec.VolumeName = none) :
    (∃ err, (PVCController.Reconcile req c).1 = Outcome.returned (some err)) ∧
    (c.faults 1 = none →
      (PVCController.Reconcile req c).1 =
        Outcome.returned (some (errNotFound "persistentvolumes" pvc.Spec.VolumeName))) ∧
    (PVCController.Reconcile req c).2.store = c.store ∧
    (PVCController.Reconcile req c).2.log =
      c.log ++ [Call.GetPVC req.NamespacedName, Call.GetPV pvc.Spec.VolumeName] := by
  obtain ⟨s, f, lg⟩ := c
  simp only at hf hc hpv
  have hname' : ¬ (decodePVC pvc).Spec.VolumeName = "" := hname
  have hbound' : (decodePVC pvc).Status.Phase = ClaimBound := hbound
  have hv : (decodePVC pvc).Spec.VolumeName = pvc.Spec.VolumeName := rfl
  unfold PVCController.Reconcile
  rw [call_free _ _ _ _ _ hf, getPVC_found hc]
  simp only [hname', hbound', ne_eq, not_true_eq_false, or_self, if_false]
  unfold PVCController.getOrCreateClaimRef
  rw [hv]
  cases h1 : f 1 with
  | none =>
    have h1' : (fun i => f (i + 1)) 0 = none := h1
    rw [call_free _ (fun i => f (i + 1)) _ _ _ h1', getPV_missing hpv]
    exact ⟨⟨_, rfl⟩, fun _ => rfl, rfl, by simp⟩
  | some e =>
    have h1' : (fun i => f (i + 1)) 0 = some e := h1
    rw [call_fault _ (fun i => f (i + 1)) _ _ _ e h1']
    exact ⟨⟨_, rfl⟩, fun h => by simp at h, rfl, by simp⟩

/-- C11 at the state of `TestPVCController_Reconcile_PVNotFound`. -/
theorem c11_witness :
    (∃ err, (PVCController.Reconcile mirrorRequest missingVolumeClient).1 =
      Outcome.returned (some err)) ∧
    (PVCController.Reconcile mirrorRequest missingVolumeClient).2.store =
      missingVolumeClient.store :=
  ⟨(c11_missing_volume_fails_mirror missingVolumeClient mirrorRequest missingVolumeClaim rfl
      (by decide) rfl (by decide) (by decide)).1,
    (c11_missing_volume_fails_mirror missingVolumeClient mirrorRequest missingVolumeClaim rfl
      (by decide) rfl (by decide) (by decide)).2.2.1⟩

/-- Line 79 of `pvcreclaim_controller.go` returns `err`, the result of the fetch of the
record: when the record is handed out and the fetch of the Claim fails with an error
other than not-found, the Reclaim Reconciler stops after these two calls, returns no
error and leaves the store as it was. -/
theorem reconciler_swallows_claim_fetch_failure (c : Client) (req : Request) (r : PVCReclaim)
    (e : APIError)
    (hf0 : c.faults 0 = none) (hf1 : c.faults 1 = some e)
    (he : e.Reason ≠ StatusReason.NotFound)
    (hr : c.store.reclaim? req.NamespacedName = some r) :
    (PVCReclaimController.Reconcile req c).1 = Outcome.returned none ∧
    (PVCReclaimController.Reconcile req c).2.store = c.store ∧
    (PVCReclaimController.Reconcile req c).2.log =
      c.log ++ [Call.GetReclaim req.NamespacedName, Call.GetPVC req.NamespacedName] := by
  obtain ⟨s, f, lg⟩ := c
  simp only at hf0 hf1 hr
  have hf1' : (fun i => f (i + 1)) 0 = some e := hf1
  unfold PVCReclaimController.Reconcile
  rw [call_free _ _ _ _ _ hf0, getReclaim_found hr]
  simp only []
  rw [call_fault _ (fun i => f (i + 1)) _ _ _ e hf1']
  simp [IsNotFound, he]

/-- C12 at a failing input: the record `default/test-reclaim` is stored and handed
out, and the fetch of the Claim fails with an error that is not a not-found.  The
Reclaim Reconciler returns no error; it made the two fetches and nothing else. -/
theorem c12_failed_claim_fetch_is_swallowed :
    claimFetchFailingClient.store.reclaim? testRequest.NamespacedName = some foundRecord ∧
    claimFetchFailingClient.faults 0 = none ∧
    claimFetchFailingClient.faults 1 = some timeoutError ∧
    IsNotFound (some timeoutError) = false ∧
    (PVCReclaimController.Reconcile testRequest claimFetchFailingClient).1 =
      Outcome.returned none ∧
    (PVCReclaimController.Reconcile testRequest claimFetchFailingClient).2.log =
      [Call.GetReclaim testRequest.NamespacedName, Call.GetPVC testRequest.NamespacedName] := by
  refine ⟨by decide, rfl, rfl, rfl, ?_, ?_⟩
  · decide
  · decide

/-- C13: the filter of the Volume-Event Router rejects every creation event and accepts
every update and every delete event.  The mapping, given a Volume, lists the records
whose Volume-name label equals the Volume's name: when the listing returns `items`, the
mapping returns one request per item, in the order of the listing, each carrying the
namespace and name of its item; when the listing fails, it returns no request; given
an object that is not a Volume, it returns no request.  A listing that the store
answers holds the stored records that carry the Volume-name label with the Volume's
name, in the order of the store, and leaves the store as it was. -/
theorem c13_router_filters_and_maps (c : Client) (object : Object) :
    (∀ o, pvPredicate (Event.Create o) = false) ∧
    (∀ o n, pvPredicate (Event.Update o n) = true) ∧
    (∀ o, pvPredicate (Event.Delete o) = true) ∧
    (∀ pv items, object = Object.Volume pv →
      (c.call (Call.ListReclaims reclaimPVLabel pv.ObjectMeta.Name)
        (Store.listReclaims reclaimPVLabel pv.ObjectMeta.Name)).1 = Except.ok items →
      (pvEnqueuePVCReclaimReconcileRequestMapFunc object c).1 =
        items.map (fun reclaim =>
          { NamespacedName :=
              { Namespace := reclaim.ObjectMeta.Namespace, Name := reclaim.ObjectMeta.Name } }) ∧
      (pvEnqueuePVCReclaimReconcileRequestMapFunc object c).1.length = items.length) ∧
    (∀ pv e, object = Object.Volume pv →
      (c.call (Call.ListReclaims reclaimPVLabel pv.ObjectMeta.Name)
        (Store.listReclaims reclaimPVLabel pv.ObjectMeta.Name)).1 = Except.error e →
      (pvEnqueuePVCReclaimReconcileRequestMapFunc object c).1 = []) ∧
    ((∀ pv, object ≠ Object.Volume pv) →
      (pvEnqueuePVCReclaimReconcileRequestMapFunc object c).1 = []) ∧
    (∀ pv, object = Object.Volume pv → c.faults 0 = none →
      (pvEnqueuePVCReclaimReconcileRequestMapFunc object c).1 =
        (c.store.reclaims.filter
          (fun r => decide (mapGet r.ObjectMeta.Labels reclaimPVLabel =
            some pv.ObjectMeta.Name))).map
          (fun r =>
            { NamespacedName :=
                { Namespace := r.ObjectMeta.Namespace, Name := r.ObjectMeta.Name } }) ∧
      (pvEnqueuePVCReclaimReconcileRequestMapFunc object c).2.store = c.store) := by
  refine ⟨fun _ => rfl, fun _ _ => rfl, fun _ => rfl, ?_, ?_, ?_, ?_⟩
  · rintro pv items rfl hitems
    have hreq : (pvEnqueuePVCReclaimReconcileRequestMapFunc (Object.Volume pv) c).1 =
        items.map requestFor := by
      rw [mapFunc_of_volume]
      rcases hcall : c.call (Call.ListReclaims reclaimPVLabel pv.ObjectMeta.Name)
          (Store.listReclaims reclaimPVLabel pv.ObjectMeta.Name) with ⟨res, c1⟩
      rw [hcall] at hitems
      simp only at hitems
      subst hitems
      rfl
    refine ⟨hreq.trans rfl, ?_⟩
    rw [hreq, List.length_map]
  · rintro pv e rfl herr
    rw [mapFunc_of_volume]
    rcases hcall : c.call (Call.ListReclaims reclaimPVLabel pv.ObjectMeta.Name)
        (Store.listReclaims reclaimPVLabel pv.ObjectMeta.Name) with ⟨res, c1⟩
    rw [hcall] at herr
    simp only at herr
    subst herr
    rfl
  · intro hno
    cases object with
    | Volume pv => exact absurd rfl (hno pv)
    | Claim pvc => rfl
    | Reclaim r => rfl
  · rintro pv rfl hf
    obtain ⟨s, f, lg⟩ := c
    simp only at hf
    rw [mapFunc_of_volume, call_free _ _ _ _ _ hf]
    simp only [Store.listReclaims, List.map_map]
    exact ⟨rfl, trivial⟩

/-- C13 at a store with three records, two of them indexed under the Volume `test-pv`:
an update or delete event of that Volume passes the filter, and the mapping returns the
requests `default/data-1` and `archive/data-1`, in this order. -/
theorem c13_witness :
    pvPredicate (Event.Create (Object.Volume releasedVolume)) = false ∧
    pvPredicate (Event.Delete (Object.Volume releasedVolume)) = true ∧
    (pvEnqueuePVCReclaimReconcileRequestMapFunc (Object.Volume releasedVolume) routedClient).1 =
      [{ NamespacedName := { Namespace := "default", Name := "data-1" } },
       { NamespacedName := { Namespace := "archive", Name := "data-1" } }] :=
  ⟨(c13_router_filters_and_maps routedClient (Object.Volume releasedVolume)).1 _,
    (c13_router_filters_and_maps routedClient (Object.Volume releasedVolume)).2.2.1 _,
    ((c13_router_filters_and_maps routedClient (Object.Volume releasedVolume)).2.2.2.2.2.2
      releasedVolume rfl rfl).1.trans (by decide)⟩

/-- C14, as stated, fails when the Volume is missing: the store holds the Bound Claim
`default/test-pvc` with the bound-volume-name `missing-pv`, no record and no Volume.
With all store calls answered, the Claim Mirror returns the not-found error of the
Volume fetch, and the Reclaim Reconciler returns no error. -/
theorem c14_missing_volume_outcomes_differ :
    missingVolumeClient.store.reclaim? mirrorRequest.NamespacedName = none ∧
    missingVolumeClient.store.pvc? mirrorRequest.NamespacedName = some missingVolumeClaim ∧
    missingVolumeClaim.Status.Phase = ClaimBound ∧
    missingVolumeClaim.Spec.VolumeName ≠ "" ∧
    missingVolumeClient.store.pv? missingVolumeClaim.Spec.VolumeName = none ∧
    (PVCController.Reconcile mirrorRequest missingVolumeClient).1 =
      Outcome.returned (some (errNotFound "persistentvolumes" "missing-pv")) ∧
    (PVCReclaimController.Reconcile mirrorRequest missingVolumeClient).1 =
      Outcome.returned none := by
  refine ⟨by decide, by decide, rfl, by decide, by decide, ?_, ?_⟩
  · decide
  · decide

/-- C14, amended: for a store state with no record for the requested identity and a
Claim with that identity in phase Bound with a non-empty bound-volume-name, and runs
whose store calls are all answered by the store.  When the Volume named by the Claim
exists, the Reclaim Reconciler and the Claim Mirror both return no error and leave the
same store: the same Claims, Volumes and token counter, and the records of the state
followed by one new record that has the same name, namespace, identity token, spec,
status, labels and annotations after either run.  When the Volume does not exist, both
leave the store as it was; the Reclaim Reconciler returns no error and the Claim Mirror
returns the not-found error of the Volume fetch. -/
theorem c14_reconciler_mirrors_as_claim_mirror (c : Client) (req : Request)
    (pvc : PersistentVolumeClaim)
    (hf : ∀ i, c.faults i = none)
    (hr : c.store.reclaim? req.NamespacedName = none)
    (hc : c.store.pvc? req.NamespacedName = some pvc)
    (hbound : pvc.Status.Phase = ClaimBound)
    (hname : pvc.Spec.VolumeName ≠ "") :
    (∀ pv, c.store.pv? pvc.Spec.VolumeName = some pv →
      (PVCReclaimController.Reconcile req c).1 = Outcome.returned none ∧
      (PVCController.Reconcile req c).1 = Outcome.returned none ∧
      (PVCReclaimController.Reconcile req c).2.store.pvcs =
        (PVCController.Reconcile req c).2.store.pvcs ∧
      (PVCReclaimController.Reconcile req c).2.store.pvs =
        (PVCController.Reconcile req c).2.store.pvs ∧
      (PVCReclaimController.Reconcile req c).2.store.uids =
        (PVCController.Reconcile req c).2.store.uids ∧
      ∃ a b : PVCReclaim,
        (PVCReclaimController.Reconcile req c).2.store.reclaims = c.store.reclaims ++ [a] ∧
        (PVCController.Reconcile req c).2.store.reclaims = c.store.reclaims ++ [b] ∧
        a.ObjectMeta.Name = b.ObjectMeta.Name ∧
        a.ObjectMeta.Namespace = b.ObjectMeta.Namespace ∧
        a.ObjectMeta.UID = b.ObjectMeta.UID ∧
        a.Spec = b.Spec ∧
        a.Status = b.Status ∧
        (∀ k, mapGet a.ObjectMeta.Labels k = mapGet b.ObjectMeta.Labels k) ∧
        (∀ k, mapGet a.ObjectMeta.Annotations k = mapGet b.ObjectMeta.Annotations k)) ∧
    (c.store.pv? pvc.Spec.VolumeName = none →
      (PVCReclaimController.Reconcile req c).2.store = c.store ∧
      (PVCController.Reconcile req c).2.store = c.store ∧
      (PVCReclaimController.Reconcile req c).1 = Outcome.returned none ∧
      (PVCController.Reconcile req c).1 =
        Outcome.returned (some (errNotFound "persistentvolumes" pvc.Spec.VolumeName))) := by
  obtain ⟨s, f, lg⟩ := c
  simp only at hf hc hr
  have hk : keyOf pvc.ObjectMeta = req.NamespacedName := pvc?_key hc
  refine ⟨fun pv hpv => ?_, fun hpv => ?_⟩
  · simp only at hpv
    obtain ⟨labels, hl, hlabels⟩ := mirror_labels_after_create (decodePVC pvc) (decodePV pv)
    have hl' : assignAll
        (storedReclaim (newReclaimFor (decodePVC pvc) (decodePV pv)) (newUID s.uids)
          {}).ObjectMeta.Labels
        (mapRange (claimAfterMirror (decodePVC pvc) (decodePV pv)).ObjectMeta.Labels) =
        some labels := by
      show assignAll (omitEmpty (some (mirroredLabels (decodePVC pvc) (decodePV pv)))) _ = _
      rw [show mirroredLabels (decodePVC pvc) (decodePV pv) = alistSet _ _ _ from rfl,
        omitEmpty_alistSet]
      exact hl
    have hk3 : keyOf (storedReclaim (newReclaimFor (decodePVC pvc) (decodePV pv))
        (newUID s.uids) {}).ObjectMeta = req.NamespacedName := hk
    rw [Reconcile_of_claim (hf 0) (hf 1) hr hc,
      mirrorClaim_created (hf 2) (hf 3) (hf 4) hk hname hbound hpv hr,
      mirror_created (fun i _ => hf i) hc hname hbound hpv hr,
      syncReclaim_run _ _ (hf 4) (hf 5) hl' hk (reclaim?_addReclaim_same hr hk)]
    have hb : ∀ x b : PVCReclaim, keyOf x.ObjectMeta = req.NamespacedName →
        (((s.addReclaim (storedReclaim (newReclaimFor (decodePVC pvc) (decodePV pv))
          (newUID s.uids) {})).putReclaim req.NamespacedName x).putReclaim
            req.NamespacedName b).reclaims = s.reclaims ++ [b] :=
      fun x b hx => (reclaims_put_put x b hx).trans (reclaims_put_after_add _ b hr hk3)
    refine ⟨rfl, rfl, rfl, rfl, rfl, _, _, reclaims_put_after_add _ _ hr hk3,
      hb _ _ (by exact hk), rfl, rfl, rfl, rfl, ?_, fun k => ?_, fun k => ?_⟩
    · obtain ⟨h1, h2⟩ := claimAfterMirror_key (decodePVC pvc) (decodePV pv)
      show mirroredStatus _ _ = mirroredStatus _ _
      simp only [mirroredStatus, h1, h2]
      rfl
    · show mapGet (omitEmpty (some (mirroredLabels (decodePVC pvc) (decodePV pv)))) k =
        mapGet (omitEmpty labels) k
      rw [mapGet_omitEmpty, mapGet_omitEmpty, hlabels]
      exact mapGet_mirroredLabels _ _ k
    · show mapGet (omitEmpty (decodePVC pvc).ObjectMeta.Annotations) k =
        mapGet (omitEmpty
          (claimAfterMirror (decodePVC pvc) (decodePV pv)).ObjectMeta.Annotations) k
      rw [claimAfterMirror_annotations]
  · simp only at hpv
    rw [Reconcile_of_claim (hf 0) (hf 1) hr hc,
      mirrorClaim_missing_volume (hf 2) hname hbound hpv,
      mirror_missing_volume (hf 0) (hf 1) hc hname hbound hpv]
    exact ⟨rfl, rfl, rfl, rfl⟩

/-- C14, amended, at a store with the labelled Claim, its Volume and no record: both
runs return no error and append one record to the records of the store. -/
theorem c14_witness :
    (PVCReclaimController.Reconcile mirrorRequest unmirroredClient).1 = Outcome.returned none ∧
    (PVCController.Reconcile mirrorRequest unmirroredClient).1 = Outcome.returned none ∧
    (PVCReclaimController.Reconcile mirrorRequest unmirroredClient).2.store.uids =
      (PVCController.Reconcile mirrorRequest unmirroredClient).2.store.uids :=
  ⟨((c14_reconciler_mirrors_as_claim_mirror unmirroredClient mirrorRequest labelledClaim
      (fun _ => rfl) (by decide) (by decide) rfl (by decide)).1 mirrorVolume (by decide)).1,
    ((c14_reconciler_mirrors_as_claim_mirror unmirroredClient mirrorRequest labelledClaim
      (fun _ => rfl) (by decide) (by decide) rfl (by decide)).1 mirrorVolume (by decide)).2.1,
    ((c14_reconciler_mirrors_as_claim_mirror unmirroredClient mirrorRequest labelledClaim
      (fun _ => rfl) (by decide) (by decide) rfl (by decide)).1 mirrorVolume
        (by decide)).2.2.2.2.1⟩

/-- C15: for every store state, every request and every run of the Claim Mirror or of
the Reclaim Reconciler, whatever store calls fail in it, a record that is stored under
an identity before the run and under the same identity after it has the same
`volumeRef` and the same `claimSpec` after the run as before, whatever the spec and the
bound-volume-name of the Claim are. -/
theorem c15_frozen_fields_survive_every_run (c : Client) (req : Request)
    (key : NamespacedName) (r : PVCReclaim)
    (hr : c.store.reclaim? key = some r) :
    (∀ r', (PVCController.Reconcile req c).2.store.reclaim? key = some r' →
      r'.Spec.PersistentVolumeRef = r.Spec.PersistentVolumeRef ∧
      r'.Spec.PersistentVolumeClaimSpec = r.Spec.PersistentVolumeClaimSpec) ∧
    (∀ r', (PVCReclaimController.Reconcile req c).2.store.reclaim? key = some r' →
      r'.Spec.PersistentVolumeRef = r.Spec.PersistentVolumeRef ∧
      r'.Spec.PersistentVolumeClaimSpec = r.Spec.PersistentVolumeClaimSpec) :=
  ⟨fun r' hr' => keepsFound_of_keeps (mirror_keeps req c) key r r' hr hr',
    fun r' hr' => reconciler_keepsFound req c key r r' hr hr'⟩

/-- C15 at a store whose Claim names another Volume and another size than the record
holds: the Claim Mirror rewrites the record (its restore flag is cleared), and the
record still refers to `test-pv` and still holds the older spec. -/
theorem c15_witness :
    ((PVCController.Reconcile mirrorRequest driftedClient).2.store.reclaim?
      mirrorRequest.NamespacedName).map
        (fun r' => (r'.Spec.PersistentVolumeRef, r'.Spec.PersistentVolumeClaimSpec,
          r'.Spec.Restore)) =
      some (some testVolumeRef, { VolumeName := "test-pv", Storage := "1Gi" }, false) ∧
    driftedClaim.Spec ≠ driftedRecord.Spec.PersistentVolumeClaimSpec ∧
    driftedRecord.Spec.Restore = true := by
  have hsome : ((PVCController.Reconcile mirrorRequest driftedClient).2.store.reclaim?
      mirrorRequest.NamespacedName).isSome = true := by decide
  obtain ⟨r', h⟩ := Option.isSome_iff_exists.1 hsome
  have hkeep := (c15_frozen_fields_survive_every_run driftedClient mirrorRequest
    mirrorRequest.NamespacedName driftedRecord (by decide)).1 r' h
  have hrestore : ((PVCController.Reconcile mirrorRequest driftedClient).2.store.reclaim?
      mirrorRequest.NamespacedName).map (fun x => x.Spec.Restore) = some false := by decide
  rw [h] at hrestore ⊢
  simp only [Option.map_some', Option.some.injEq] at hrestore
  refine ⟨?_, by decide, rfl⟩
  simp only [Option.map_some', hkeep.1, hkeep.2, hrestore]
  rfl

/-- C16 fails on a record without labels: for a Bound Claim that carries a label, its
existing Volume, and a stored record with the Claim's identity that has no label, a
Claim Mirror run whose calls are all answered by the store does not complete.  The
label loop of `pvc_controller.go` lines 76-78 writes to the nil label map of the
fetched record and the run panics after the three fetches: no update is submitted and
the store, with the record in it, is as it was. -/
theorem c16_mirror_panics_on_unlabelled_record (c : Client) (req : Request)
    (pvc : PersistentVolumeClaim) (pv : PersistentVolume) (r : PVCReclaim)
    (hf : ∀ i, c.faults i = none)
    (hc : c.store.pvc? req.NamespacedName = some pvc)
    (hbound : pvc.Status.Phase = ClaimBound)
    (hname : pvc.Spec.VolumeName ≠ "")
    (hpv : c.store.pv? pvc.Spec.VolumeName = some pv)
    (hr : c.store.reclaim? req.NamespacedName = some r)
    (hnone : ∀ k, mapGet r.ObjectMeta.Labels k = none)
    (hsome : ∃ k v, mapGet pvc.ObjectMeta.Labels k = some v) :
    (PVCController.Reconcile req c).1 = Outcome.panicked ∧
    (PVCController.Reconcile req c).2.store = c.store ∧
    (PVCController.Reconcile req c).2.log =
      c.log ++ [Call.GetPVC req.NamespacedName, Call.GetPV pvc.Spec.VolumeName,
        Call.GetReclaim req.NamespacedName] := by
  obtain ⟨s, f, lg⟩ := c
  simp only at hf hc hpv hr
  obtain ⟨k, v, hkv⟩ := hsome
  obtain ⟨p, t, hrange⟩ := mapRange_of_binding hkv
  have hl : assignAll (decodeReclaim r).ObjectMeta.Labels
      (mapRange (decodePVC pvc).ObjectMeta.Labels) = none := by
    show assignAll (omitEmpty r.ObjectMeta.Labels) (mapRange (omitEmpty pvc.ObjectMeta.Labels)) =
      none
    rw [omitEmpty_of_no_binding hnone]
    exact assignAll_nil_map p t hrange
  rw [mirror_found (fun i _ => hf i) hc hname hbound hpv hr]
  unfold PVCController.syncReclaim
  simp only [hl]
  exact ⟨trivial, trivial, by simp⟩

/-- C16 at a failing input: the unlabelled record of
`TestPVCReclaimController_Reconcile_ReclaimFound` and its Claim carrying the label
`tier: gold`.  The run panics, and the record is still stored without the Claim's
label and annotation. -/
theorem c16_witness :
    (PVCController.Reconcile testRequest goldClient).1 = Outcome.panicked ∧
    (PVCController.Reconcile testRequest goldClient).2.store.reclaim?
      testRequest.NamespacedName = some foundRecord ∧
    mapGet foundRecord.ObjectMeta.Labels "tier" = none ∧
    mapGet foundRecord.ObjectMeta.Annotations "owner" = none := by
  have h := c16_mirror_panics_on_unlabelled_record goldClient testRequest goldClaim foundVolume
    foundRecord (fun _ => rfl) (by decide) rfl (by decide) (by decide) (by decide)
    (fun _ => rfl) ⟨"tier", "gold", by decide⟩
  refine ⟨h.1, ?_, rfl, rfl⟩
  rw [h.2.1]
  decide

end Controllers
